import Mathlib

/-!
The per-tick frame pipeline of inastitch.

A shallow embedding of the rendering loops of `inastitch.cpp` (file and
network input, decode on a thread pool) and `main.cpp` (file input only),
together with the properties of the time synchronisation, the decode
dispatch, the loop exit and the pixel read-back that the specification
states.

Conventions.
* `uint64_t` values are natural numbers; subtraction and addition wrap
  modulo `2 ^ 64` (`sub64`, `add64`).
* Code that lives outside the two translation units (the JPEG parsers, the
  JPEG decoder and encoder, the OpenGL pipeline, the window) is a field of
  an `Externals` record: the embedding is parametric in what those calls
  return.
* A pointer into the decoder's RGBA buffer is either null or the buffer
  (`BufferPtr`); pixel memory is a function from byte index to byte value.
-/

namespace Stitch

/-! ## Machine arithmetic -/

/-- Number of values of a `uint64_t`. -/
def U64 : Nat := 2 ^ 64

/-- The `uint64_t` difference `a - b` (wraps modulo `2 ^ 64`). -/
def sub64 (a b : Nat) : Nat := (a + U64 - b) % U64

/-- The `uint64_t` sum `a + b` (wraps modulo `2 ^ 64`). -/
def add64 (a b : Nat) : Nat := (a + b) % U64

/-! ## Shared data -/

/-- The command-line options the rendering loop reads. -/
structure Options where
  outFilename : String
  maxDumpFrameCount : Nat
  frameDumpPath : String
  frameDumpOffsetId : Nat
  frameDumpOffsetTime : Nat
  maxDelay : Nat
  isDumpFrameIdRelativeToOffset : Bool
  isOverlayEnabled : Bool

/-- What a file written by the loop holds: raw bytes or text. -/
inductive FileData where
  | bytes (b : List Nat) : FileData
  | text (t : String) : FileData
  deriving DecidableEq, Repr

/-- One file created (and truncated) by `std::fstream(name, std::ios::out)`,
written once and closed. -/
structure FileWrite where
  name : String
  data : FileData
  deriving DecidableEq, Repr

/-- The value of `rgbaBuffer`: `nullptr` or the address of the RGBA buffer
owned by the context's decoder. -/
inductive BufferPtr where
  | null : BufferPtr
  | decoderRgba : BufferPtr
  deriving DecidableEq, Repr

/-- A composed frame as read back from the GPU (`pboBufferSize` bytes). -/
abbrev Frame := List Nat

/-- What `Decoder::decode` leaves behind: the returned pointer, the content
of the decoder's RGBA buffer, and the content of the JPEG buffer it was
called on (the call gets the buffer through a pointer to non-const bytes,
or owns it, so it may write to it). -/
structure DecodeResult where
  ptr : BufferPtr
  rgba : Nat → Nat
  jpeg : List Nat

/-- What the draw calls of one tick read: the three `bmpBuffer` pointers
(dereferenced when non-null) and, with the overlay enabled, the numbers it
prints (`frameCount`, then the lags of CAM1, CAM0, CAM2). -/
structure ComposeInput where
  bmpBuffer0 : Option (Nat → Nat)
  bmpBuffer1 : Option (Nat → Nat)
  bmpBuffer2 : Option (Nat → Nat)
  overlay : Option (Nat × Nat × Nat × Nat)

/-- The loop body of `decodeWhite`: `for(i = 0; i < n; i++) rgba[i] = 0xFF`,
the writes done in increasing order of `i`. -/
def decodeWhiteLoop : Nat → (Nat → Nat) → (Nat → Nat)
  | 0, rgba => rgba
  | n + 1, rgba => Function.update (decodeWhiteLoop n rgba) n 0xFF

/-- Dereference of a `bmpBuffer` pointer. -/
def deref (p : BufferPtr) (rgba : Nat → Nat) : Option (Nat → Nat) :=
  match p with
  | BufferPtr.null => none
  | BufferPtr.decoderRgba => some rgba

/-! ## Pixel read-back (identical text in both translation units) -/

/-- The constant `pboCount`. -/
def pboCount : Nat := 2

/-- Locals and effects of one read-back. -/
structure Readback where
  r_idx : Nat
  p_idx : Nat
  pbo : Nat → Option Frame
  framebuffer : Option Frame

/-- The `#else` branch (`USE_OPENGL_PBO` is 1): advance the static `r_idx`,
request a transfer of the composed frame into `pboIds[r_idx]`, then map
`pboIds[p_idx]` and copy it to `framebuffer`. A slot that never received a
transfer holds `none` (it was allocated with a null data pointer).
`r_idx` is an `int` that starts at 0 and stays in `{0, 1}`, so the `int`
arithmetic never overflows nor sees a negative operand. -/
def readbackPbo (r_idx : Nat) (pbo : Nat → Option Frame) (composed : Frame) : Readback :=
  let r := (r_idx + 1) % pboCount
  let p := (r + 1) % pboCount
  let pbo1 := Function.update pbo r (some composed)
  { r_idx := r, p_idx := p, pbo := pbo1, framebuffer := pbo1 p }

/-- The `#if !USE_OPENGL_PBO` branch: a blocking `glReadPixels` of the
composed frame straight into `framebuffer`; no slot is touched. -/
def readbackSync (r_idx : Nat) (pbo : Nat → Option Frame) (composed : Frame) : Readback :=
  { r_idx := r_idx, p_idx := 0, pbo := pbo, framebuffer := some composed }

/-! ## The rendering loop state (the locals of `main` that outlive a tick) -/

/-- The variables of `main` that carry over from one loop iteration to the
next; `Ctx` is the per-source context type of the translation unit.
`files` logs the dump files in the order they are written, `iterations`
counts the loop bodies entered (it indexes the window's answers). -/
structure LoopState (Ctx : Type) where
  ctx0 : Ctx
  ctx1 : Ctx
  ctx2 : Ctx
  isFirstFrame : Bool
  frameCount : Nat
  frameRelTime : Nat
  lastFrameAbsTime : Nat
  frameDumpCount : Nat
  r_idx : Nat
  pbo : Nat → Option Frame
  outJpegFile : List (List Nat)
  outPtsFile : List String
  files : List FileWrite
  iterations : Nat

/-- One loop iteration: the state it leaves, whether it left the loop by
`break`, and the values of its block-local variables. `composed` is `none`
when the draw calls were not reached, `framebuffer` is the host buffer
after the read-back. -/
structure Tick (Ctx : Type) where
  next : LoopState Ctx
  exited : Bool
  frameAbsTime : Nat
  eofContext0 : Bool
  eofContext1 : Bool
  eofContext2 : Bool
  frameDiffTime : Nat
  isFrameDumped : Bool
  frameDumpIdx : Nat
  composed : Option Frame
  p_idx : Nat
  framebuffer : Option Frame

/-- The result of the time synchronisation block. -/
structure Sync (Ctx : Type) where
  ctx0 : Ctx
  ctx1 : Ctx
  ctx2 : Ctx
  frameAbsTime : Nat
  eofContext0 : Bool
  eofContext1 : Bool
  eofContext2 : Bool

/-- The loop condition
`!glfwWindowShouldClose(glWindow) && (frameDumpCount < maxDumpFrameCount)`. -/
def loopCondition {Ctx : Type} (windowShouldClose : Nat → Bool) (o : Options)
    (s : LoopState Ctx) : Bool :=
  !windowShouldClose s.iterations && decide (s.frameDumpCount < o.maxDumpFrameCount)

/-- The `while` loop run for at most `fuel` iterations of its body:
`some s` is the state in which the loop was left (condition false, or
`break`), `none` means the loop is still running when the fuel is spent. -/
def whileLoop {Ctx : Type} (cond : LoopState Ctx → Bool) (body : LoopState Ctx → Tick Ctx) :
    Nat → LoopState Ctx → Option (LoopState Ctx)
  | 0, s => if cond s then none else some s
  | fuel + 1, s =>
    if cond s then
      let t := body s
      if t.exited then some t.next else whileLoop cond body fuel t.next
    else some s

/-- The `t`-th iteration (from 0) of the loop started in `s`: `none` when
the loop was left before that iteration began. -/
def nthTick {Ctx : Type} (cond : LoopState Ctx → Bool) (body : LoopState Ctx → Tick Ctx) :
    Nat → LoopState Ctx → Option (Tick Ctx)
  | 0, s => if cond s then some (body s) else none
  | t + 1, s =>
    if cond s then
      let k := body s
      if k.exited then none else nthTick cond body t k.next
    else none

/-- The loop variables as initialised before the `while`, around the three
given contexts; no PBO slot has received a transfer yet. -/
def startState {Ctx : Type} (c0 c1 c2 : Ctx) : LoopState Ctx :=
  { ctx0 := c0, ctx1 := c1, ctx2 := c2
    isFirstFrame := true
    frameCount := 0
    frameRelTime := 0
    lastFrameAbsTime := 0
    frameDumpCount := 0
    r_idx := 0
    pbo := fun _ => none
    outJpegFile := []
    outPtsFile := []
    files := []
    iterations := 0 }

/-! ## `inastitch.cpp` -/

namespace InastitchCpp

/-- The tuple returned by `FrameParser::getFrame`. -/
structure StreamFrame where
  jpegBuffer : List Nat
  jpegBufferSize : Nat
  absTime : Nat

/-- The struct `GenericInputStreamContext` with the state of the objects it
owns: `decoderRgba` is the content of `jpegDecoderPtr->rgbaBuffer()`,
`decodeCalls` the number of `Decoder::decode` calls made, `parserCalls` the
number of `FrameParser::getFrame` calls made. `jpegBuffer` holds the bytes
the pointer of that name refers to. -/
structure GenericInputStreamContext where
  jpegBuffer : List Nat
  rgbaBuffer : BufferPtr
  rgbaBufferSize : Nat
  jpegBufferSize : Nat
  absTime : Nat
  relTime : Nat
  offTime : Nat
  timeDelay : Nat
  decoderRgba : Nat → Nat
  decodeCalls : Nat
  parserCalls : Nat

/-- The code outside the translation unit. `parser0 k index` is what the
`k`-th call of `jpegParserPtr->getFrame(index)` of source 0 returns
(likewise 1, 2); `decode buf size rgba` is `Decoder::decode(buf, size)` run
on a decoder whose RGBA buffer holds `rgba`, `buf` being the bytes the
pointer refers to; `compose` is the image the
draw calls leave in the colour buffer; `windowShouldClose k` is the answer
of `glfwWindowShouldClose` at the `k`-th evaluation of the loop condition. -/
structure Externals where
  parser0 : Nat → Nat → StreamFrame
  parser1 : Nat → Nat → StreamFrame
  parser2 : Nat → Nat → StreamFrame
  decode : List Nat → Nat → (Nat → Nat) → DecodeResult
  compose : ComposeInput → Frame
  windowShouldClose : Nat → Bool

/-- The method `InputStreamContext::getFrame`. -/
def getFrame (parser : Nat → Nat → StreamFrame) (index : Nat)
    (c : GenericInputStreamContext) : GenericInputStreamContext × Bool :=
  let f := parser c.parserCalls index
  ({ c with
      jpegBuffer := f.jpegBuffer
      jpegBufferSize := f.jpegBufferSize
      absTime := f.absTime
      parserCalls := c.parserCalls + 1 },
   f.jpegBufferSize != 0)

/-- The method `GenericInputStreamContext::decodeJpeg`. The pointer
`jpegBuffer` is not assigned; the bytes it refers to are what the call
leaves there. -/
def decodeJpeg (w : Externals) (c : GenericInputStreamContext) : GenericInputStreamContext :=
  let d := w.decode c.jpegBuffer c.jpegBufferSize c.decoderRgba
  { c with jpegBuffer := d.jpeg, rgbaBuffer := d.ptr, decoderRgba := d.rgba,
           decodeCalls := c.decodeCalls + 1 }

/-- The method `GenericInputStreamContext::decodeWhite`. -/
def decodeWhite (c : GenericInputStreamContext) : GenericInputStreamContext :=
  { c with decoderRgba := decodeWhiteLoop c.rgbaBufferSize c.decoderRgba }

/-- One of the three `if(ctx->timeDelay < maxDelay) eof = !ctx->getFrame(0);`
statements, `eof` starting out `false`. -/
def advance (parser : Nat → Nat → StreamFrame) (maxDelay : Nat)
    (c : GenericInputStreamContext) : GenericInputStreamContext × Bool :=
  if c.timeDelay < maxDelay then
    let r := getFrame parser 0 c
    (r.1, !r.2)
  else (c, false)

/-- The time synchronisation block at the head of the loop body. -/
def timeSync (w : Externals) (maxDelay : Nat)
    (c0 c1 c2 : GenericInputStreamContext) : Sync GenericInputStreamContext :=
  let frameAbsTime := min c0.absTime (min c1.absTime c2.absTime)
  let c0 := { c0 with timeDelay := sub64 c0.absTime frameAbsTime }
  let c1 := { c1 with timeDelay := sub64 c1.absTime frameAbsTime }
  let c2 := { c2 with timeDelay := sub64 c2.absTime frameAbsTime }
  let a0 := advance w.parser0 maxDelay c0
  let a1 := advance w.parser1 maxDelay c1
  let a2 := advance w.parser2 maxDelay c2
  { ctx0 := a0.1, ctx1 := a1.1, ctx2 := a2.1, frameAbsTime := frameAbsTime,
    eofContext0 := a0.2, eofContext1 := a1.2, eofContext2 := a2.2 }

/-- The lambda `dumpJpegAndPtsAndTxt`: the JPEG file, then its `.pts`. -/
def dumpJpegAndPtsAndTxt (c : GenericInputStreamContext) (filename : String)
    (files : List FileWrite) : List FileWrite :=
  files ++
    [ { name := filename, data := FileData.bytes (c.jpegBuffer.take c.jpegBufferSize) },
      { name := filename ++ ".pts",
        data := FileData.text (toString c.absTime ++ " " ++ toString c.relTime ++ " "
                  ++ toString c.offTime ++ "\n") } ]

/-- One task posted to `threadPoolInDecode`; `suffix` is `"in0.jpg"`,
`"in1.jpg"` or `"in2.jpg"`. -/
def decodeTask (w : Externals) (o : Options) (isFrameDumped : Bool) (frameDumpIdx : Nat)
    (suffix : String) (c : GenericInputStreamContext) (files : List FileWrite) :
    GenericInputStreamContext × List FileWrite :=
  if c.jpegBufferSize > 0 ∧ c.timeDelay < o.maxDelay then
    let files1 :=
      if isFrameDumped && !(o.frameDumpPath == "") then
        dumpJpegAndPtsAndTxt c (o.frameDumpPath ++ toString frameDumpIdx ++ suffix) files
      else files
    (decodeJpeg w c, files1)
  else
    (decodeWhite c, files)

/-- The loop body after the end-of-file test: time bookkeeping, input dump
and decode, draw calls, read-back, counters. The three decode tasks touch
disjoint contexts and distinct files and are joined before the draw calls,
so they are run here one after the other. The block that encodes and
writes the output frame is compiled out (`#if 0`). -/
def tickRest (w : Externals) (o : Options) (s : LoopState GenericInputStreamContext)
    (y : Sync GenericInputStreamContext) : Tick GenericInputStreamContext :=
  let lastFrameAbsTime := if s.isFirstFrame then y.frameAbsTime else s.lastFrameAbsTime
  let frameDiffTime := sub64 y.frameAbsTime lastFrameAbsTime
  let frameRelTime := add64 s.frameRelTime frameDiffTime
  let isFrameDumped :=
    decide (s.frameCount ≥ o.frameDumpOffsetId) && decide (y.frameAbsTime ≥ o.frameDumpOffsetTime)
  let frameDumpIdx := if o.isDumpFrameIdRelativeToOffset then s.frameDumpCount else s.frameCount
  let d0 := decodeTask w o isFrameDumped frameDumpIdx "in0.jpg" y.ctx0 s.files
  let d1 := decodeTask w o isFrameDumped frameDumpIdx "in1.jpg" y.ctx1 d0.2
  let d2 := decodeTask w o isFrameDumped frameDumpIdx "in2.jpg" y.ctx2 d1.2
  let composed := w.compose
    { bmpBuffer0 := deref d0.1.rgbaBuffer d0.1.decoderRgba
      bmpBuffer1 := deref d1.1.rgbaBuffer d1.1.decoderRgba
      bmpBuffer2 := deref d2.1.rgbaBuffer d2.1.decoderRgba
      overlay :=
        if o.isOverlayEnabled then
          some (s.frameCount, d1.1.timeDelay, d0.1.timeDelay, d2.1.timeDelay)
        else none }
  let rb := readbackPbo s.r_idx s.pbo composed
  { next :=
      { ctx0 := d0.1, ctx1 := d1.1, ctx2 := d2.1
        isFirstFrame := false
        frameCount := add64 s.frameCount 1
        frameRelTime := frameRelTime
        lastFrameAbsTime := y.frameAbsTime
        frameDumpCount := if isFrameDumped then add64 s.frameDumpCount 1 else s.frameDumpCount
        r_idx := rb.r_idx
        pbo := rb.pbo
        outJpegFile := s.outJpegFile
        outPtsFile := s.outPtsFile
        files := d2.2
        iterations := s.iterations + 1 }
    exited := false
    frameAbsTime := y.frameAbsTime
    eofContext0 := y.eofContext0
    eofContext1 := y.eofContext1
    eofContext2 := y.eofContext2
    frameDiffTime := frameDiffTime
    isFrameDumped := isFrameDumped
    frameDumpIdx := frameDumpIdx
    composed := some composed
    p_idx := rb.p_idx
    framebuffer := rb.framebuffer }

/-- The synchronisation block as run by the loop body in state `s`. -/
def tickSync (w : Externals) (o : Options) (s : LoopState GenericInputStreamContext) :
    Sync GenericInputStreamContext :=
  timeSync w o.maxDelay s.ctx0 s.ctx1 s.ctx2

/-- The body of the rendering loop: the synchronisation block, then
`if(eofContext0 && eofContext1 && eofContext2) { /* break; */ }` whose
body holds nothing but comments, then the rest. -/
def tick (w : Externals) (o : Options) (s : LoopState GenericInputStreamContext) :
    Tick GenericInputStreamContext :=
  let y := tickSync w o s
  if y.eofContext0 && y.eofContext1 && y.eofContext2 then tickRest w o s y
  else tickRest w o s y

/-- A context as its constructor leaves it; `jpegBufferSize` has no
initialiser and is set by the first `getFrame`. `rgba` is the content of the
freshly allocated decoder buffer. -/
def newContext (maxRgbaBufferSize : Nat) (rgba : Nat → Nat) : GenericInputStreamContext :=
  { jpegBuffer := [], rgbaBuffer := BufferPtr.null, rgbaBufferSize := maxRgbaBufferSize
    jpegBufferSize := 0, absTime := 0, relTime := 0, offTime := 0, timeDelay := 0
    decoderRgba := rgba, decodeCalls := 0, parserCalls := 0 }

/-- The state on entry to the rendering loop: three fresh contexts, each
having parsed its first frame. -/
def initialState (w : Externals) (maxRgbaBufferSize : Nat) (rgba : Nat → Nat) :
    LoopState GenericInputStreamContext :=
  startState
    (getFrame w.parser0 0 (newContext maxRgbaBufferSize rgba)).1
    (getFrame w.parser1 0 (newContext maxRgbaBufferSize rgba)).1
    (getFrame w.parser2 0 (newContext maxRgbaBufferSize rgba)).1

/-- The rendering loop of `inastitch.cpp`. -/
def renderLoop (w : Externals) (o : Options) :
    Nat → LoopState GenericInputStreamContext → Option (LoopState GenericInputStreamContext) :=
  whileLoop (loopCondition w.windowShouldClose o) (tick w o)

/-- The `t`-th tick of the rendering loop of `inastitch.cpp`. -/
def tickAt (w : Externals) (o : Options) :
    Nat → LoopState GenericInputStreamContext → Option (Tick GenericInputStreamContext) :=
  nthTick (loopCondition w.windowShouldClose o) (tick w o)

end InastitchCpp

/-! ## `main.cpp` -/

namespace MainCpp

/-- What one `ptsFile >> absTime >> relTime >> offTime` does to each of the
three variables: `some v` stores `v`, `none` leaves the variable as it was
(an extraction on a stream that has already failed or ended). -/
structure PtsRead where
  absTime : Option Nat
  relTime : Option Nat
  offTime : Option Nat

/-- The struct `FileContext` with the state of the objects it owns:
`decoderJpeg` is the content of `jpegDecoderPtr->jpegBuffer()`,
`decoderRgba` that of `jpegDecoderPtr->rgbaBuffer()`, `decodeCalls` the
number of `Decoder::decode` calls made, `parserCalls` the number of
`parseFrame` calls made (the position in the MJPEG and in the PTS file). -/
structure FileContext where
  rgbaBuffer : BufferPtr
  rgbaBufferSize : Nat
  jpegBufferSize : Nat
  absTime : Nat
  relTime : Nat
  offTime : Nat
  timeDelay : Nat
  decoderJpeg : List Nat
  decoderRgba : Nat → Nat
  decodeCalls : Nat
  parserCalls : Nat

/-- The code outside the translation unit. `parser0 k buf` is the `k`-th
call of `jpegParserPtr->parseFrame(buf)` of source 0: the content it leaves
in the buffer and the size it returns; `pts0 k` is the `k`-th read of the
PTS file; `decode jpeg rgba` is `Decoder::decode()` run on a decoder whose
JPEG and RGBA buffers hold `jpeg` and `rgba`; `encode` gives the
first `jpegSize` bytes of `rtpJpegEncoder.encode(framebuffer, ..)`. -/
structure Externals where
  parser0 : Nat → List Nat → List Nat × Nat
  parser1 : Nat → List Nat → List Nat × Nat
  parser2 : Nat → List Nat → List Nat × Nat
  pts0 : Nat → PtsRead
  pts1 : Nat → PtsRead
  pts2 : Nat → PtsRead
  decode : List Nat → (Nat → Nat) → DecodeResult
  encode : Option Frame → List Nat
  compose : ComposeInput → Frame
  windowShouldClose : Nat → Bool

/-- The method `FileContext::parseFrame`. -/
def parseFrame (parser : Nat → List Nat → List Nat × Nat) (pts : Nat → PtsRead)
    (c : FileContext) : FileContext × Bool :=
  let f := parser c.parserCalls c.decoderJpeg
  let t := pts c.parserCalls
  ({ c with
      decoderJpeg := f.1
      jpegBufferSize := f.2
      absTime := t.absTime.getD c.absTime
      relTime := t.relTime.getD c.relTime
      offTime := t.offTime.getD c.offTime
      parserCalls := c.parserCalls + 1 },
   f.2 != 0)

/-- The method `FileContext::decodeJpeg`. -/
def decodeJpeg (w : Externals) (c : FileContext) : FileContext :=
  let d := w.decode c.decoderJpeg c.decoderRgba
  { c with decoderJpeg := d.jpeg, rgbaBuffer := d.ptr, decoderRgba := d.rgba,
           decodeCalls := c.decodeCalls + 1 }

/-- The method `FileContext::decodeWhite`. -/
def decodeWhite (c : FileContext) : FileContext :=
  { c with decoderRgba := decodeWhiteLoop c.rgbaBufferSize c.decoderRgba }

/-- One of the three `if(ctx.timeDelay < maxDelay) eof = !ctx.parseFrame();`
statements, `eof` starting out `false`. -/
def advance (parser : Nat → List Nat → List Nat × Nat) (pts : Nat → PtsRead) (maxDelay : Nat)
    (c : FileContext) : FileContext × Bool :=
  if c.timeDelay < maxDelay then
    let r := parseFrame parser pts c
    (r.1, !r.2)
  else (c, false)

/-- The time synchronisation block at the head of the loop body. -/
def timeSync (w : Externals) (maxDelay : Nat) (c0 c1 c2 : FileContext) : Sync FileContext :=
  let frameAbsTime := min c0.absTime (min c1.absTime c2.absTime)
  let c0 := { c0 with timeDelay := sub64 c0.absTime frameAbsTime }
  let c1 := { c1 with timeDelay := sub64 c1.absTime frameAbsTime }
  let c2 := { c2 with timeDelay := sub64 c2.absTime frameAbsTime }
  let a0 := advance w.parser0 w.pts0 maxDelay c0
  let a1 := advance w.parser1 w.pts1 maxDelay c1
  let a2 := advance w.parser2 w.pts2 maxDelay c2
  { ctx0 := a0.1, ctx1 := a1.1, ctx2 := a2.1, frameAbsTime := frameAbsTime,
    eofContext0 := a0.2, eofContext1 := a1.2, eofContext2 := a2.2 }

/-- The lambda `dumpJpegAndPtsAndTxt`: the JPEG file, then its `.pts`. -/
def dumpJpegAndPtsAndTxt (c : FileContext) (filename : String)
    (files : List FileWrite) : List FileWrite :=
  files ++
    [ { name := filename, data := FileData.bytes (c.decoderJpeg.take c.jpegBufferSize) },
      { name := filename ++ ".pts",
        data := FileData.text (toString c.absTime ++ " " ++ toString c.relTime ++ " "
                  ++ toString c.offTime ++ "\n") } ]

/-- One of the three decode statements of the loop body; `suffix` is
`"in0.jpg"`, `"in1.jpg"` or `"in2.jpg"`. -/
def decodeStep (w : Externals) (o : Options) (isFrameDumped : Bool) (frameDumpIdx : Nat)
    (suffix : String) (c : FileContext) (files : List FileWrite) :
    FileContext × List FileWrite :=
  if c.timeDelay < o.maxDelay then
    let files1 :=
      if isFrameDumped && !(o.frameDumpPath == "") then
        dumpJpegAndPtsAndTxt c (o.frameDumpPath ++ toString frameDumpIdx ++ suffix) files
      else files
    (decodeJpeg w c, files1)
  else
    (decodeWhite c, files)

/-- The loop body left by `break` right after the synchronisation block:
only the contexts have changed by then. -/
def tickBreak (s : LoopState FileContext) (y : Sync FileContext) : Tick FileContext :=
  { next := { s with ctx0 := y.ctx0, ctx1 := y.ctx1, ctx2 := y.ctx2,
                     iterations := s.iterations + 1 }
    exited := true
    frameAbsTime := y.frameAbsTime
    eofContext0 := y.eofContext0
    eofContext1 := y.eofContext1
    eofContext2 := y.eofContext2
    frameDiffTime := 0
    isFrameDumped := false
    frameDumpIdx := 0
    composed := none
    p_idx := 0
    framebuffer := none }

/-- The loop body after the end-of-file test: time bookkeeping, input dump
and decode, draw calls, read-back, output dump, counters. -/
def tickRest (w : Externals) (o : Options) (s : LoopState FileContext) (y : Sync FileContext) :
    Tick FileContext :=
  let lastFrameAbsTime := if s.isFirstFrame then y.frameAbsTime else s.lastFrameAbsTime
  let frameDiffTime := sub64 y.frameAbsTime lastFrameAbsTime
  let frameRelTime := add64 s.frameRelTime frameDiffTime
  let isFrameDumped :=
    decide (s.frameCount ≥ o.frameDumpOffsetId) &&
      decide (y.frameAbsTime ≥ o.frameDumpOffsetTime)
  let frameDumpIdx := if o.isDumpFrameIdRelativeToOffset then s.frameDumpCount else s.frameCount
  let d0 := decodeStep w o isFrameDumped frameDumpIdx "in0.jpg" y.ctx0 s.files
  let d1 := decodeStep w o isFrameDumped frameDumpIdx "in1.jpg" y.ctx1 d0.2
  let d2 := decodeStep w o isFrameDumped frameDumpIdx "in2.jpg" y.ctx2 d1.2
  let composed := w.compose
    { bmpBuffer0 := deref d0.1.rgbaBuffer d0.1.decoderRgba
      bmpBuffer1 := deref d1.1.rgbaBuffer d1.1.decoderRgba
      bmpBuffer2 := deref d2.1.rgbaBuffer d2.1.decoderRgba
      overlay :=
        if o.isOverlayEnabled then
          some (s.frameCount, d1.1.timeDelay, d0.1.timeDelay, d2.1.timeDelay)
        else none }
  let rb := readbackPbo s.r_idx s.pbo composed
  let jpegData := w.encode rb.framebuffer
  let ptsStr := toString y.frameAbsTime ++ " " ++ toString frameRelTime ++ " "
    ++ toString frameDiffTime
  let toOut := isFrameDumped && !(o.outFilename == "")
  let toPath := isFrameDumped && !(o.frameDumpPath == "")
  { next :=
      { ctx0 := d0.1, ctx1 := d1.1, ctx2 := d2.1
        isFirstFrame := false
        frameCount := add64 s.frameCount 1
        frameRelTime := frameRelTime
        lastFrameAbsTime := y.frameAbsTime
        frameDumpCount := if isFrameDumped then add64 s.frameDumpCount 1 else s.frameDumpCount
        r_idx := rb.r_idx
        pbo := rb.pbo
        outJpegFile := if toOut then s.outJpegFile ++ [jpegData] else s.outJpegFile
        outPtsFile := if toOut then s.outPtsFile ++ [ptsStr ++ "\n"] else s.outPtsFile
        files :=
          if toPath then
            d2.2 ++
              [ { name := o.frameDumpPath ++ toString frameDumpIdx ++ "out.jpg",
                  data := FileData.bytes jpegData },
                { name := o.frameDumpPath ++ toString frameDumpIdx ++ "out.jpg" ++ ".pts",
                  data := FileData.text ptsStr } ]
          else d2.2
        iterations := s.iterations + 1 }
    exited := false
    frameAbsTime := y.frameAbsTime
    eofContext0 := y.eofContext0
    eofContext1 := y.eofContext1
    eofContext2 := y.eofContext2
    frameDiffTime := frameDiffTime
    isFrameDumped := isFrameDumped
    frameDumpIdx := frameDumpIdx
    composed := some composed
    p_idx := rb.p_idx
    framebuffer := rb.framebuffer }

/-- The synchronisation block as run by the loop body in state `s`. -/
def tickSync (w : Externals) (o : Options) (s : LoopState FileContext) : Sync FileContext :=
  timeSync w o.maxDelay s.ctx0 s.ctx1 s.ctx2

/-- The body of the rendering loop: the synchronisation block, then
`if(eofContext0 && eofContext1 && eofContext2) break;`, then the rest. -/
def tick (w : Externals) (o : Options) (s : LoopState FileContext) : Tick FileContext :=
  let y := tickSync w o s
  if y.eofContext0 && y.eofContext1 && y.eofContext2 then tickBreak s y
  else tickRest w o s y

/-- A context as its constructor leaves it; `jpegBufferSize` has no
initialiser and is set by the first `parseFrame`. `rgba` is the content of
the freshly allocated decoder buffer. -/
def newContext (maxRgbaBufferSize : Nat) (rgba : Nat → Nat) : FileContext :=
  { rgbaBuffer := BufferPtr.null, rgbaBufferSize := maxRgbaBufferSize
    jpegBufferSize := 0, absTime := 0, relTime := 0, offTime := 0, timeDelay := 0
    decoderJpeg := [], decoderRgba := rgba, decodeCalls := 0, parserCalls := 0 }

/-- The state on entry to the rendering loop: three fresh contexts, each
having parsed its first frame. -/
def initialState (w : Externals) (maxRgbaBufferSize : Nat) (rgba : Nat → Nat) :
    LoopState FileContext :=
  startState
    (parseFrame w.parser0 w.pts0 (newContext maxRgbaBufferSize rgba)).1
    (parseFrame w.parser1 w.pts1 (newContext maxRgbaBufferSize rgba)).1
    (parseFrame w.parser2 w.pts2 (newContext maxRgbaBufferSize rgba)).1

/-- The rendering loop of `main.cpp`. -/
def renderLoop (w : Externals) (o : Options) :
    Nat → LoopState FileContext → Option (LoopState FileContext) :=
  whileLoop (loopCondition w.windowShouldClose o) (tick w o)

/-- The `t`-th tick of the rendering loop of `main.cpp`. -/
def tickAt (w : Externals) (o : Options) :
    Nat → LoopState FileContext → Option (Tick FileContext) :=
  nthTick (loopCondition w.windowShouldClose o) (tick w o)

end MainCpp

/-! ## Concrete inputs used to exercise the theorems -/

namespace InastitchCpp

/-- A context that holds a one-byte frame stamped `absTime`, with a
four-byte RGBA buffer of zeroes. -/
def ctxAt (absTime : Nat) : GenericInputStreamContext :=
  { jpegBuffer := [7], rgbaBuffer := BufferPtr.null, rgbaBufferSize := 4
    jpegBufferSize := 1, absTime := absTime, relTime := 0, offTime := 0, timeDelay := 0
    decoderRgba := fun _ => 0, decodeCalls := 0, parserCalls := 1 }

/-- Externals whose parsers deliver `size0`, `size1`, `size2` bytes on every
call, stamped 40000 microseconds apart, whose decoder paints the buffer
with the value 1 and leaves the JPEG bytes as they are, and whose
compositor outputs the overlay frame counter. -/
def demoExternals (size0 size1 size2 : Nat) : Externals :=
  { parser0 := fun k _ => { jpegBuffer := [7], jpegBufferSize := size0, absTime := 40000 * (k + 1) }
    parser1 := fun k _ => { jpegBuffer := [8], jpegBufferSize := size1, absTime := 40000 * (k + 1) }
    parser2 := fun k _ => { jpegBuffer := [9], jpegBufferSize := size2, absTime := 40000 * (k + 1) }
    decode := fun buf _ _ => { ptr := BufferPtr.decoderRgba, rgba := fun _ => 1, jpeg := buf }
    compose := fun i => [(i.overlay.getD (0, 0, 0, 0)).1]
    windowShouldClose := fun _ => false }

end InastitchCpp

namespace MainCpp

/-- A context that holds a one-byte frame stamped `absTime`, with a
four-byte RGBA buffer of zeroes. -/
def ctxAt (absTime : Nat) : FileContext :=
  { rgbaBuffer := BufferPtr.null, rgbaBufferSize := 4
    jpegBufferSize := 1, absTime := absTime, relTime := 0, offTime := 0, timeDelay := 0
    decoderJpeg := [7], decoderRgba := fun _ => 0, decodeCalls := 0, parserCalls := 1 }

/-- Externals whose parsers deliver `size0`, `size1`, `size2` bytes on every
call, whose PTS files stamp the frames 40000 microseconds apart, whose
decoder paints the buffer with the value 1 and leaves the JPEG bytes as
they are, and whose compositor outputs the overlay frame counter. -/
def demoExternals (size0 size1 size2 : Nat) : Externals :=
  { parser0 := fun _ _ => ([7], size0)
    parser1 := fun _ _ => ([8], size1)
    parser2 := fun _ _ => ([9], size2)
    pts0 := fun k => { absTime := some (40000 * (k + 1)), relTime := some 0, offTime := some 0 }
    pts1 := fun k => { absTime := some (40000 * (k + 1)), relTime := some 0, offTime := some 0 }
    pts2 := fun k => { absTime := some (40000 * (k + 1)), relTime := some 0, offTime := some 0 }
    decode := fun buf _ => { ptr := BufferPtr.decoderRgba, rgba := fun _ => 1, jpeg := buf }
    encode := fun f => f.getD []
    compose := fun i => [(i.overlay.getD (0, 0, 0, 0)).1]
    windowShouldClose := fun _ => false }

end MainCpp

/-- Options with every dump switched off, the overlay on, and the given
`maxDelay` and `maxDumpFrameCount`. -/
def demoOptions (maxDelay maxDumpFrameCount : Nat) : Options :=
  { outFilename := "", maxDumpFrameCount := maxDumpFrameCount, frameDumpPath := ""
    frameDumpOffsetId := 0, frameDumpOffsetTime := 0, maxDelay := maxDelay
    isDumpFrameIdRelativeToOffset := false, isOverlayEnabled := true }

/-! ## Predicates used to state the properties -/

/-- The advance rule for one source of `inastitch.cpp`, `before` being its
context on entry to the tick and `synced` its context after the
synchronisation block with lag ceiling `m`: `getFrame` was called (once)
exactly when the lag stored in this tick is below `m`, and when the lag is
`m` or more there was no call and `absTime`, the payload and its size are
as they were. -/
def InastitchCpp.AdvancedIffEligible (m : Nat)
    (before synced : InastitchCpp.GenericInputStreamContext) : Prop :=
  (synced.parserCalls = before.parserCalls + 1 ↔ synced.timeDelay < m) ∧
  (m ≤ synced.timeDelay →
    synced.parserCalls = before.parserCalls ∧
    synced.absTime = before.absTime ∧
    synced.jpegBuffer = before.jpegBuffer ∧
    synced.jpegBufferSize = before.jpegBufferSize)

/-- The advance rule for one source of `main.cpp`, `before` being its
context on entry to the tick and `synced` its context after the
synchronisation block with lag ceiling `m`: `parseFrame` was called (once)
exactly when the lag stored in this tick is below `m`, and when the lag is
`m` or more there was no call and `absTime`, the payload and its size are
as they were. -/
def MainCpp.AdvancedIffEligible (m : Nat) (before synced : MainCpp.FileContext) : Prop :=
  (synced.parserCalls = before.parserCalls + 1 ↔ synced.timeDelay < m) ∧
  (m ≤ synced.timeDelay →
    synced.parserCalls = before.parserCalls ∧
    synced.absTime = before.absTime ∧
    synced.decoderJpeg = before.decoderJpeg ∧
    synced.jpegBufferSize = before.jpegBufferSize)

/-- The context `after` is `before` with the white fallback in its RGBA
buffer: every byte below `rgbaBufferSize` is `0xFF`, and the JPEG decoder
was not called. -/
def InastitchCpp.WhiteFilled (before after : InastitchCpp.GenericInputStreamContext) : Prop :=
  (∀ j, j < after.rgbaBufferSize → after.decoderRgba j = 0xFF) ∧
  after.decodeCalls = before.decodeCalls

/-- The context `after` is `before` sent through the JPEG decoder: one more
`decode` call, made on the payload and size `before` holds, its result
stored in `rgbaBuffer` and in the decoder's buffer. -/
def InastitchCpp.SentToDecoder (w : InastitchCpp.Externals)
    (before after : InastitchCpp.GenericInputStreamContext) : Prop :=
  after.decodeCalls = before.decodeCalls + 1 ∧
  after.rgbaBuffer = (w.decode before.jpegBuffer before.jpegBufferSize before.decoderRgba).ptr ∧
  after.decoderRgba = (w.decode before.jpegBuffer before.jpegBufferSize before.decoderRgba).rgba

/-- The context `after` is `before` with the white fallback in its RGBA
buffer: every byte below `rgbaBufferSize` is `0xFF`, and the JPEG decoder
was not called. -/
def MainCpp.WhiteFilled (before after : MainCpp.FileContext) : Prop :=
  (∀ j, j < after.rgbaBufferSize → after.decoderRgba j = 0xFF) ∧
  after.decodeCalls = before.decodeCalls

/-- The context `after` is `before` sent through the JPEG decoder: one more
`decode` call, made on the payload `before` holds, its result stored in
`rgbaBuffer` and in the decoder's buffer. -/
def MainCpp.SentToDecoder (w : MainCpp.Externals) (before after : MainCpp.FileContext) : Prop :=
  after.decodeCalls = before.decodeCalls + 1 ∧
  after.rgbaBuffer = (w.decode before.decoderJpeg before.decoderRgba).ptr ∧
  after.decoderRgba = (w.decode before.decoderJpeg before.decoderRgba).rgba

/-- Scenario B on `inastitch.cpp`: contexts stamped 100, 250, 100, a lag
ceiling of 50, and parsers that deliver `size0`, 1 and 1 bytes. -/
def InastitchCpp.scenarioB (size0 : Nat) : Tick InastitchCpp.GenericInputStreamContext :=
  InastitchCpp.tick (InastitchCpp.demoExternals size0 1 1) (demoOptions 50 10)
    (startState (InastitchCpp.ctxAt 100) (InastitchCpp.ctxAt 250) (InastitchCpp.ctxAt 100))

/-- A source of `main.cpp` that delivers no bytes while the two others do:
contexts stamped 100, 100, 100, a lag ceiling of 50, and parsers that
deliver 0, 1 and 1 bytes. -/
def MainCpp.emptyPayloadTick : Tick MainCpp.FileContext :=
  MainCpp.tick (MainCpp.demoExternals 0 1 1) (demoOptions 50 10)
    (startState (MainCpp.ctxAt 100) (MainCpp.ctxAt 100) (MainCpp.ctxAt 100))

/-- Three sources of `inastitch.cpp` that are exhausted at once: contexts
stamped 100, 100, 100, a lag ceiling of 50, and parsers that deliver no
bytes on any call. -/
def InastitchCpp.exhaustedState : LoopState InastitchCpp.GenericInputStreamContext :=
  startState (InastitchCpp.ctxAt 100) (InastitchCpp.ctxAt 100) (InastitchCpp.ctxAt 100)

/-- Partial exhaustion on `inastitch.cpp`: contexts stamped 100, 100, 100
and parsers that deliver 0, 1 and 1 bytes. -/
def InastitchCpp.partialState : LoopState InastitchCpp.GenericInputStreamContext :=
  startState (InastitchCpp.ctxAt 100) (InastitchCpp.ctxAt 100) (InastitchCpp.ctxAt 100)

/-- Partial exhaustion on `main.cpp`: contexts stamped 100, 100, 100 and
parsers that deliver 0, 1 and 1 bytes. -/
def MainCpp.partialState : LoopState MainCpp.FileContext :=
  startState (MainCpp.ctxAt 100) (MainCpp.ctxAt 100) (MainCpp.ctxAt 100)

/-- The tick `k`, run in state `s`, went through the PBO read-back of the
frame it composed: its `r_idx`, `p_idx`, slot contents and host
`framebuffer` are those of `readbackPbo` on the state's `r_idx` and slots. -/
def ReadsBack {Ctx : Type} (s : LoopState Ctx) (k : Tick Ctx) : Prop :=
  ∃ f, k.composed = some f ∧
    k.next.r_idx = (readbackPbo s.r_idx s.pbo f).r_idx ∧
    k.p_idx = (readbackPbo s.r_idx s.pbo f).p_idx ∧
    k.next.pbo = (readbackPbo s.r_idx s.pbo f).pbo ∧
    k.framebuffer = (readbackPbo s.r_idx s.pbo f).framebuffer

/-- The host `framebuffer` tick by tick when the read-back `rb` is run on a
sequence of composed frames, `r_idx` and the slots carried from one tick to
the next. -/
def framebufferTrace (rb : Nat → (Nat → Option Frame) → Frame → Readback) :
    Nat → (Nat → Option Frame) → List Frame → List (Option Frame)
  | _, _, [] => []
  | r, pbo, f :: fs => (rb r pbo f).framebuffer :: framebufferTrace rb (rb r pbo f).r_idx
      (rb r pbo f).pbo fs

/-- The run of `inastitch.cpp` on the demonstration externals, from the
state on entry to the loop. -/
def InastitchCpp.demoStart : LoopState InastitchCpp.GenericInputStreamContext :=
  InastitchCpp.initialState (InastitchCpp.demoExternals 1 1 1) 4 (fun _ => 0)

/-- The run of `main.cpp` on the demonstration externals, from the state on
entry to the loop. -/
def MainCpp.demoStart : LoopState MainCpp.FileContext :=
  MainCpp.initialState (MainCpp.demoExternals 1 1 1) 4 (fun _ => 0)

/-- Tick 0 of the demonstration run of `inastitch.cpp`. -/
def InastitchCpp.demoTick0 : Tick InastitchCpp.GenericInputStreamContext :=
  InastitchCpp.tick (InastitchCpp.demoExternals 1 1 1) (demoOptions 50 10) InastitchCpp.demoStart

/-- Tick 1 of the demonstration run of `inastitch.cpp`. -/
def InastitchCpp.demoTick1 : Tick InastitchCpp.GenericInputStreamContext :=
  InastitchCpp.tick (InastitchCpp.demoExternals 1 1 1) (demoOptions 50 10)
    InastitchCpp.demoTick0.next

/-- Tick 0 of the demonstration run of `main.cpp`. -/
def MainCpp.demoTick0 : Tick MainCpp.FileContext :=
  MainCpp.tick (MainCpp.demoExternals 1 1 1) (demoOptions 50 10) MainCpp.demoStart

/-- Tick 1 of the demonstration run of `main.cpp`. -/
def MainCpp.demoTick1 : Tick MainCpp.FileContext :=
  MainCpp.tick (MainCpp.demoExternals 1 1 1) (demoOptions 50 10) MainCpp.demoTick0.next

/-! ## Runs, counters and the exit summary -/

/-- The state on entry to the `t`-th iteration (from 0) of the loop started
in `s`, which is also the state the iteration before it left: `none` when
the loop was left before that. -/
def nthState {Ctx : Type} (cond : LoopState Ctx → Bool) (body : LoopState Ctx → Tick Ctx) :
    Nat → LoopState Ctx → Option (LoopState Ctx)
  | 0, s => some s
  | t + 1, s =>
    (nthState cond body t s).bind (fun x =>
      if cond x then (if (body x).exited then none else some (body x).next) else none)

/-- The number of iterations among the first `t` of the loop started in `s`
that are marked for dump. -/
def markedCount {Ctx : Type} (cond : LoopState Ctx → Bool) (body : LoopState Ctx → Tick Ctx)
    (t : Nat) (s : LoopState Ctx) : Nat :=
  (List.range t).countP
    (fun i => ((nthTick cond body i s).map (fun k => k.isFrameDumped)).getD false)

/-- What the program prints after the loop: the notice
`"No frame rendered"`, the summary line, or nothing because the rate
computation divided by zero. -/
inductive ExitReport where
  | noFrameRendered : ExitReport
  | summary (line : String) : ExitReport
  | divisionByZero : ExitReport
  deriving DecidableEq, Repr

/-- The statement that prints
`frameCount << " frames rendered in " << renderTimeMs << "ms" << " (" <<
frameCount/(renderTimeMs/1000) << " fps)"`. `renderTimeMs` is the signed
64-bit millisecond count of the clock; `renderTimeMs/1000` truncates
towards zero and is converted to `uint64_t` for the division by which the
unsigned `frameCount` is divided. -/
def rateSummary (frameCount : Nat) (renderTimeMs : Int) : ExitReport :=
  let divisor := ((Int.tdiv renderTimeMs 1000) % (U64 : Int)).toNat
  if divisor = 0 then ExitReport.divisionByZero
  else
    ExitReport.summary (toString frameCount ++ " frames rendered in " ++ toString renderTimeMs
      ++ "ms" ++ " (" ++ toString (frameCount / divisor) ++ " fps)")

/-- The exit summary of `inastitch.cpp`:
`if(frameCount == 0) "No frame rendered" else` the summary line. -/
def InastitchCpp.exitSummary (frameCount : Nat) (renderTimeMs : Int) : ExitReport :=
  if frameCount = 0 then ExitReport.noFrameRendered else rateSummary frameCount renderTimeMs

/-- The exit summary of `main.cpp`: the summary line, unconditionally. -/
def MainCpp.exitSummary (frameCount : Nat) (renderTimeMs : Int) : ExitReport :=
  rateSummary frameCount renderTimeMs

/-- The rendering loop of `inastitch.cpp` followed by its exit summary, the
clock reporting `renderTimeMs` for the loop. -/
def InastitchCpp.renderAndReport (w : InastitchCpp.Externals) (o : Options) (fuel : Nat)
    (s : LoopState InastitchCpp.GenericInputStreamContext) (renderTimeMs : Int) :
    Option (LoopState InastitchCpp.GenericInputStreamContext × ExitReport) :=
  (InastitchCpp.renderLoop w o fuel s).map
    (fun x => (x, InastitchCpp.exitSummary x.frameCount renderTimeMs))

/-- The rendering loop of `main.cpp` followed by its exit summary, the
clock reporting `renderTimeMs` for the loop. -/
def MainCpp.renderAndReport (w : MainCpp.Externals) (o : Options) (fuel : Nat)
    (s : LoopState MainCpp.FileContext) (renderTimeMs : Int) :
    Option (LoopState MainCpp.FileContext × ExitReport) :=
  (MainCpp.renderLoop w o fuel s).map (fun x => (x, MainCpp.exitSummary x.frameCount renderTimeMs))

/-- The state on entry to tick `t` of the rendering loop of `inastitch.cpp`. -/
def InastitchCpp.stateAt (w : InastitchCpp.Externals) (o : Options) :
    Nat → LoopState InastitchCpp.GenericInputStreamContext →
      Option (LoopState InastitchCpp.GenericInputStreamContext) :=
  nthState (loopCondition w.windowShouldClose o) (InastitchCpp.tick w o)

/-- The state on entry to tick `t` of the rendering loop of `main.cpp`. -/
def MainCpp.stateAt (w : MainCpp.Externals) (o : Options) :
    Nat → LoopState MainCpp.FileContext → Option (LoopState MainCpp.FileContext) :=
  nthState (loopCondition w.windowShouldClose o) (MainCpp.tick w o)

/-- The number of marked ticks before tick `t` in a run of `inastitch.cpp`. -/
def InastitchCpp.markedBefore (w : InastitchCpp.Externals) (o : Options) (t : Nat)
    (s : LoopState InastitchCpp.GenericInputStreamContext) : Nat :=
  markedCount (loopCondition w.windowShouldClose o) (InastitchCpp.tick w o) t s

/-- The number of marked ticks before tick `t` in a run of `main.cpp`. -/
def MainCpp.markedBefore (w : MainCpp.Externals) (o : Options) (t : Nat)
    (s : LoopState MainCpp.FileContext) : Nat :=
  markedCount (loopCondition w.windowShouldClose o) (MainCpp.tick w o) t s

/-- The loop body `body` keeps the two counters the way both drivers do: a
tick left by `break` changes neither and marks nothing, a completed tick
increments `frameCount` and increments `frameDumpCount` exactly when it is
marked for dump. -/
def CountsFrames {Ctx : Type} (body : LoopState Ctx → Tick Ctx) : Prop :=
  ∀ x, ((body x).exited = true →
      (body x).next.frameCount = x.frameCount ∧
      (body x).next.frameDumpCount = x.frameDumpCount ∧
      (body x).isFrameDumped = false) ∧
    ((body x).exited = false →
      (body x).next.frameCount = add64 x.frameCount 1 ∧
      (body x).next.frameDumpCount =
        if (body x).isFrameDumped = true then add64 x.frameDumpCount 1 else x.frameDumpCount)

/-- Options with the output file `out.mjpeg`, the dump path `dump/`, a lag
ceiling of 50, a dump ceiling of 10, the overlay on, and the given dump
offsets and re-indexing flag. -/
def dumpOptions (frameDumpOffsetId frameDumpOffsetTime : Nat) (fromZero : Bool) : Options :=
  { outFilename := "out.mjpeg", maxDumpFrameCount := 10, frameDumpPath := "dump/"
    frameDumpOffsetId := frameDumpOffsetId, frameDumpOffsetTime := frameDumpOffsetTime
    maxDelay := 50, isDumpFrameIdRelativeToOffset := fromZero, isOverlayEnabled := true }

/-- Tick 0 of the demonstration run of `inastitch.cpp` with dumps from
frame 1 on, re-indexed from 0. -/
def InastitchCpp.reindexTick0 : Tick InastitchCpp.GenericInputStreamContext :=
  InastitchCpp.tick (InastitchCpp.demoExternals 1 1 1) (dumpOptions 1 0 true)
    InastitchCpp.demoStart

/-- Tick 1 of that run. -/
def InastitchCpp.reindexTick1 : Tick InastitchCpp.GenericInputStreamContext :=
  InastitchCpp.tick (InastitchCpp.demoExternals 1 1 1) (dumpOptions 1 0 true)
    InastitchCpp.reindexTick0.next

/-- Tick 2 of that run. -/
def InastitchCpp.reindexTick2 : Tick InastitchCpp.GenericInputStreamContext :=
  InastitchCpp.tick (InastitchCpp.demoExternals 1 1 1) (dumpOptions 1 0 true)
    InastitchCpp.reindexTick1.next

/-- Tick 0 of the demonstration run of `main.cpp` with dumps from frame 1
on, re-indexed from 0. -/
def MainCpp.reindexTick0 : Tick MainCpp.FileContext :=
  MainCpp.tick (MainCpp.demoExternals 1 1 1) (dumpOptions 1 0 true) MainCpp.demoStart

/-- Tick 1 of that run. -/
def MainCpp.reindexTick1 : Tick MainCpp.FileContext :=
  MainCpp.tick (MainCpp.demoExternals 1 1 1) (dumpOptions 1 0 true) MainCpp.reindexTick0.next

/-- Tick 2 of that run. -/
def MainCpp.reindexTick2 : Tick MainCpp.FileContext :=
  MainCpp.tick (MainCpp.demoExternals 1 1 1) (dumpOptions 1 0 true) MainCpp.reindexTick1.next

/-- Scenario C on `inastitch.cpp`: tick `n` of the demonstration run with
`frameDumpOffsetId` 5, `frameDumpOffsetTime` 0 and the re-indexing flag
off. -/
def InastitchCpp.scenarioCTick : Nat → Tick InastitchCpp.GenericInputStreamContext
  | 0 => InastitchCpp.tick (InastitchCpp.demoExternals 1 1 1) (dumpOptions 5 0 false)
      InastitchCpp.demoStart
  | n + 1 => InastitchCpp.tick (InastitchCpp.demoExternals 1 1 1) (dumpOptions 5 0 false)
      (InastitchCpp.scenarioCTick n).next

/-- Scenario C on `main.cpp`: tick `n` of the demonstration run with
`frameDumpOffsetId` 5, `frameDumpOffsetTime` 0 and the re-indexing flag
off. -/
def MainCpp.scenarioCTick : Nat → Tick MainCpp.FileContext
  | 0 => MainCpp.tick (MainCpp.demoExternals 1 1 1) (dumpOptions 5 0 false) MainCpp.demoStart
  | n + 1 => MainCpp.tick (MainCpp.demoExternals 1 1 1) (dumpOptions 5 0 false)
      (MainCpp.scenarioCTick n).next

/-- The loop body `body` marks ticks the way both drivers do under the
options `o`: a tick not left by `break` is marked exactly when
`frameCount >= frameDumpOffsetId && frameAbsTime >= frameDumpOffsetTime`. -/
def MarksByOffsets {Ctx : Type} (o : Options) (body : LoopState Ctx → Tick Ctx) : Prop :=
  ∀ x, (body x).exited = false →
    (body x).isFrameDumped =
      (decide (x.frameCount ≥ o.frameDumpOffsetId) &&
        decide ((body x).frameAbsTime ≥ o.frameDumpOffsetTime))

/-- Tick 0 of the demonstration run of `inastitch.cpp` with every dump
switched on (output file `out.mjpeg`, dump path `dump/`, offsets 0). -/
def InastitchCpp.dumpTick0 : Tick InastitchCpp.GenericInputStreamContext :=
  InastitchCpp.tick (InastitchCpp.demoExternals 1 1 1) (dumpOptions 0 0 false)
    InastitchCpp.demoStart

/-- Tick 0 of the demonstration run of `main.cpp` with every dump switched
on (output file `out.mjpeg`, dump path `dump/`, offsets 0). -/
def MainCpp.dumpTick0 : Tick MainCpp.FileContext :=
  MainCpp.tick (MainCpp.demoExternals 1 1 1) (dumpOptions 0 0 false) MainCpp.demoStart

/-! ## Dump files -/

/-- What the file `name` holds after the writes of the log `files`, each
write creating the file anew: the data of the last write to that name. -/
def fileContent : List FileWrite → String → Option FileData
  | [], _ => none
  | f :: fs, n =>
    match fileContent fs n with
    | some d => some d
    | none => if f.name = n then some f.data else none

/-- The input dump of source `k` in the specification's words: the file
`frameDumpPath ++ decimal(frameDumpIdx) ++ "in" ++ k ++ ".jpg"` holding the
first `size` bytes of the payload, and its sidecar, that name followed by
`".pts"`, holding the one line `absTime relTime offTime`. -/
def inputDumpFiles (frameDumpPath : String) (frameDumpIdx : Nat) (k : String)
    (payload : List Nat) (size absTime relTime offTime : Nat) : List FileWrite :=
  [ { name := frameDumpPath ++ toString frameDumpIdx ++ "in" ++ k ++ ".jpg",
      data := FileData.bytes (payload.take size) },
    { name := frameDumpPath ++ toString frameDumpIdx ++ "in" ++ k ++ ".jpg" ++ ".pts",
      data := FileData.text (toString absTime ++ " " ++ toString relTime ++ " "
                ++ toString offTime ++ "\n") } ]

/-- The per-tick output dump of `main.cpp`: `out.jpg` holding the encoded
frame and `out.jpg.pts` holding the timestamp string (no newline). -/
def outputDumpFiles (frameDumpPath : String) (frameDumpIdx : Nat) (jpegData : List Nat)
    (ptsStr : String) : List FileWrite :=
  [ { name := frameDumpPath ++ toString frameDumpIdx ++ "out.jpg",
      data := FileData.bytes jpegData },
    { name := frameDumpPath ++ toString frameDumpIdx ++ "out.jpg" ++ ".pts",
      data := FileData.text ptsStr } ]

/-- The input dump expected of `inastitch.cpp` for source `k` with
synchronised context `c`: the two files when the tick is marked, the dump
path is not empty and the source is decoded, nothing otherwise. -/
def InastitchCpp.expectedInputDump (o : Options) (marked : Bool) (frameDumpIdx : Nat)
    (k : String) (c : InastitchCpp.GenericInputStreamContext) : List FileWrite :=
  if marked = true ∧ o.frameDumpPath ≠ "" ∧ 0 < c.jpegBufferSize ∧ c.timeDelay < o.maxDelay then
    inputDumpFiles o.frameDumpPath frameDumpIdx k c.jpegBuffer c.jpegBufferSize c.absTime
      c.relTime c.offTime
  else []

/-- The input dump expected of `main.cpp` for source `k` with synchronised
context `c`: the two files when the tick is marked, the dump path is not
empty and the source is decoded, nothing otherwise. -/
def MainCpp.expectedInputDump (o : Options) (marked : Bool) (frameDumpIdx : Nat)
    (k : String) (c : MainCpp.FileContext) : List FileWrite :=
  if marked = true ∧ o.frameDumpPath ≠ "" ∧ c.timeDelay < o.maxDelay then
    inputDumpFiles o.frameDumpPath frameDumpIdx k c.decoderJpeg c.jpegBufferSize c.absTime
      c.relTime c.offTime
  else []

/-- The files a tick of `inastitch.cpp` is expected to write, in order. -/
def InastitchCpp.expectedWrites (w : InastitchCpp.Externals) (o : Options)
    (s : LoopState InastitchCpp.GenericInputStreamContext) : List FileWrite :=
  InastitchCpp.expectedInputDump o (InastitchCpp.tick w o s).isFrameDumped
      (InastitchCpp.tick w o s).frameDumpIdx "0" (InastitchCpp.tickSync w o s).ctx0 ++
    InastitchCpp.expectedInputDump o (InastitchCpp.tick w o s).isFrameDumped
      (InastitchCpp.tick w o s).frameDumpIdx "1" (InastitchCpp.tickSync w o s).ctx1 ++
    InastitchCpp.expectedInputDump o (InastitchCpp.tick w o s).isFrameDumped
      (InastitchCpp.tick w o s).frameDumpIdx "2" (InastitchCpp.tickSync w o s).ctx2

/-- The input-dump files a tick of `main.cpp` is expected to write, in
order. -/
def MainCpp.expectedWrites (w : MainCpp.Externals) (o : Options)
    (s : LoopState MainCpp.FileContext) : List FileWrite :=
  MainCpp.expectedInputDump o (MainCpp.tick w o s).isFrameDumped
      (MainCpp.tick w o s).frameDumpIdx "0" (MainCpp.tickSync w o s).ctx0 ++
    MainCpp.expectedInputDump o (MainCpp.tick w o s).isFrameDumped
      (MainCpp.tick w o s).frameDumpIdx "1" (MainCpp.tickSync w o s).ctx1 ++
    MainCpp.expectedInputDump o (MainCpp.tick w o s).isFrameDumped
      (MainCpp.tick w o s).frameDumpIdx "2" (MainCpp.tickSync w o s).ctx2

/-- The per-tick output-dump files a tick of `main.cpp` writes after the
input dumps. -/
def MainCpp.outputWrites (w : MainCpp.Externals) (o : Options)
    (s : LoopState MainCpp.FileContext) : List FileWrite :=
  if (MainCpp.tick w o s).isFrameDumped = true ∧ o.frameDumpPath ≠ "" then
    outputDumpFiles o.frameDumpPath (MainCpp.tick w o s).frameDumpIdx
      (w.encode (MainCpp.tick w o s).framebuffer)
      (toString (MainCpp.tick w o s).frameAbsTime ++ " " ++
        toString (MainCpp.tick w o s).next.frameRelTime ++ " " ++
        toString (MainCpp.tick w o s).frameDiffTime)
  else []

/-- The eight dump-file suffixes of one tick. -/
def dumpSuffixes : List String :=
  ["in0.jpg", "in0.jpg.pts", "in1.jpg", "in1.jpg.pts", "in2.jpg", "in2.jpg.pts",
   "out.jpg", "out.jpg.pts"]

/-- A context whose decoder has not been called yet still has the null
`rgbaBuffer` its constructor gave it. -/
def InastitchCpp.NullUntilDecoded (c : InastitchCpp.GenericInputStreamContext) : Prop :=
  c.decodeCalls = 0 → c.rgbaBuffer = BufferPtr.null

/-- A context whose decoder has not been called yet still has the null
`rgbaBuffer` its constructor gave it. -/
def MainCpp.NullUntilDecoded (c : MainCpp.FileContext) : Prop :=
  c.decodeCalls = 0 → c.rgbaBuffer = BufferPtr.null

/-- The three sources of a loop state satisfy `p`. -/
def EachSource {Ctx : Type} (p : Ctx → Prop) (s : LoopState Ctx) : Prop :=
  p s.ctx0 ∧ p s.ctx1 ∧ p s.ctx2

/-- Tick 1 of the demonstration run of `inastitch.cpp` with a lag ceiling
of 0. -/
def InastitchCpp.whiteTick1 : Tick InastitchCpp.GenericInputStreamContext :=
  InastitchCpp.tick (InastitchCpp.demoExternals 1 1 1) (demoOptions 0 10)
    (InastitchCpp.tick (InastitchCpp.demoExternals 1 1 1) (demoOptions 0 10)
      InastitchCpp.demoStart).next

/-- Tick 1 of the demonstration run of `main.cpp` with a lag ceiling of 0. -/
def MainCpp.whiteTick1 : Tick MainCpp.FileContext :=
  MainCpp.tick (MainCpp.demoExternals 1 1 1) (demoOptions 0 10)
    (MainCpp.tick (MainCpp.demoExternals 1 1 1) (demoOptions 0 10) MainCpp.demoStart).next

/-! ## The capacity of the decoded-pixel buffers -/

/-- The largest value of a C++ `int` (32 bits). -/
def INT_MAX : Int := 2 ^ 31 - 1

/-- The smallest value of a C++ `int` (32 bits). -/
def INT_MIN : Int := -(2 ^ 31)

/-- The product of two `int` values: `none` when the mathematical product
is not representable (signed overflow, the behaviour is undefined). -/
def mulInt (a b : Int) : Option Int :=
  if INT_MIN ≤ a * b ∧ a * b ≤ INT_MAX then some (a * b) else none

/-- The conversion of an `int` to `uint32_t` (value modulo `2 ^ 32`). -/
def toUint32 (i : Int) : Nat := (i % 2 ^ 32).toNat

/-- The initialiser
`const auto inStreamMaxRgbBufferSize = inStreamWidth * inStreamHeight * 4;`:
both `uint16_t` operands are promoted to `int`, the expression is
evaluated left to right in `int`, and the variable is an `int`. -/
def inStreamMaxRgbBufferSize (inStreamWidth inStreamHeight : Nat) : Option Int :=
  (mulInt (inStreamWidth : Int) (inStreamHeight : Int)).bind (fun p => mulInt p 4)

/-- The value the parameter `uint32_t maxRgbaBufferSize` of the context
constructors receives. -/
def maxRgbaBufferSize (inStreamWidth inStreamHeight : Nat) : Option Nat :=
  (inStreamMaxRgbBufferSize inStreamWidth inStreamHeight).map toUint32

/-- The set-up of `inastitch.cpp` between the option parsing and the loop:
the buffer capacity, then the three contexts and their first frame. -/
def InastitchCpp.enterLoop (w : InastitchCpp.Externals) (inStreamWidth inStreamHeight : Nat)
    (rgba : Nat → Nat) : Option (LoopState InastitchCpp.GenericInputStreamContext) :=
  (maxRgbaBufferSize inStreamWidth inStreamHeight).map
    (fun n => InastitchCpp.initialState w n rgba)

/-- The set-up of `main.cpp` between the option parsing and the loop: the
buffer capacity, then the three contexts and their first frame. -/
def MainCpp.enterLoop (w : MainCpp.Externals) (inStreamWidth inStreamHeight : Nat)
    (rgba : Nat → Nat) : Option (LoopState MainCpp.FileContext) :=
  (maxRgbaBufferSize inStreamWidth inStreamHeight).map (fun n => MainCpp.initialState w n rgba)

/-! ## The default lag ceiling -/

/-- The default value of the option `max-delay`:
`std::numeric_limits<uint64_t>::max()`. -/
def defaultMaxDelay : Nat := U64 - 1

/-- One tick of `inastitch.cpp` with the default lag ceiling on contexts
stamped 0, `2 ^ 64 - 1` and 0. -/
def InastitchCpp.widestLagTick : Tick InastitchCpp.GenericInputStreamContext :=
  InastitchCpp.tick (InastitchCpp.demoExternals 1 1 1) (demoOptions defaultMaxDelay 10)
    (startState (InastitchCpp.ctxAt 0) (InastitchCpp.ctxAt (U64 - 1)) (InastitchCpp.ctxAt 0))

/-- One tick of `main.cpp` with the default lag ceiling on contexts stamped
0, `2 ^ 64 - 1` and 0. -/
def MainCpp.widestLagTick : Tick MainCpp.FileContext :=
  MainCpp.tick (MainCpp.demoExternals 1 1 1) (demoOptions defaultMaxDelay 10)
    (startState (MainCpp.ctxAt 0) (MainCpp.ctxAt (U64 - 1)) (MainCpp.ctxAt 0))

/-! ## A source that has run out of frames -/

/-- The demonstration externals of `inastitch.cpp` with a source 0 that has
no frame left: every `getFrame` returns no bytes and the timestamp 0. -/
def InastitchCpp.endedExternals : InastitchCpp.Externals :=
  { InastitchCpp.demoExternals 1 1 1 with
    parser0 := fun _ _ => { jpegBuffer := [], jpegBufferSize := 0, absTime := 0 } }

/-- The demonstration externals of `main.cpp` with a source 0 whose MJPEG
and PTS files have ended: `parseFrame` returns no bytes and the reads of
the PTS file store nothing. -/
def MainCpp.endedExternals : MainCpp.Externals :=
  { MainCpp.demoExternals 1 1 1 with
    parser0 := fun _ _ => ([], 0)
    pts0 := fun _ => { absTime := none, relTime := none, offTime := none } }

/-- The tick of `inastitch.cpp` in which source 0 reports exhaustion:
contexts stamped 100, 100, 100 and a lag ceiling of 50. -/
def InastitchCpp.endedTick0 : Tick InastitchCpp.GenericInputStreamContext :=
  InastitchCpp.tick InastitchCpp.endedExternals (demoOptions 50 10)
    (startState (InastitchCpp.ctxAt 100) (InastitchCpp.ctxAt 100) (InastitchCpp.ctxAt 100))

/-- The tick after `endedTick0`. -/
def InastitchCpp.endedTick1 : Tick InastitchCpp.GenericInputStreamContext :=
  InastitchCpp.tick InastitchCpp.endedExternals (demoOptions 50 10) InastitchCpp.endedTick0.next

/-- The tick of `main.cpp` in which source 0 reports exhaustion: contexts
stamped 100, 100, 100 and a lag ceiling of 50. -/
def MainCpp.endedTick0 : Tick MainCpp.FileContext :=
  MainCpp.tick MainCpp.endedExternals (demoOptions 50 10)
    (startState (MainCpp.ctxAt 100) (MainCpp.ctxAt 100) (MainCpp.ctxAt 100))

/-- The tick after `endedTick0`. -/
def MainCpp.endedTick1 : Tick MainCpp.FileContext :=
  MainCpp.tick MainCpp.endedExternals (demoOptions 50 10) MainCpp.endedTick0.next

/-! ## Relative time -/

/-- The loop body `body` keeps the time variables the way both drivers do
in a tick that is not left by `break`: `frameDiffTime` is the reference
time minus `lastFrameAbsTime` (seeded with the reference time at the first
frame), `frameRelTime` accumulates it, and the reference time becomes
`lastFrameAbsTime`. -/
def TracksTime {Ctx : Type} (body : LoopState Ctx → Tick Ctx) : Prop :=
  ∀ x, (body x).exited = false →
    (body x).frameDiffTime
      = sub64 (body x).frameAbsTime
          (if x.isFirstFrame then (body x).frameAbsTime else x.lastFrameAbsTime) ∧
    (body x).next.frameRelTime = add64 x.frameRelTime (body x).frameDiffTime ∧
    (body x).next.lastFrameAbsTime = (body x).frameAbsTime ∧
    (body x).next.isFirstFrame = false

/-- Tick 2 of the demonstration run of `inastitch.cpp`. -/
def InastitchCpp.demoTick2 : Tick InastitchCpp.GenericInputStreamContext :=
  InastitchCpp.tick (InastitchCpp.demoExternals 1 1 1) (demoOptions 50 10)
    InastitchCpp.demoTick1.next

/-- Tick 2 of the demonstration run of `main.cpp`. -/
def MainCpp.demoTick2 : Tick MainCpp.FileContext :=
  MainCpp.tick (MainCpp.demoExternals 1 1 1) (demoOptions 50 10) MainCpp.demoTick1.next

/-! ## The frame a tick decodes -/

/-- One source of `inastitch.cpp` through a tick, `before` being its context
on entry, `synced` after the synchronisation block and `after` when the
tick ends, `ref` the tick's reference time and `parser` the source's
`getFrame`: the lag is computed from the timestamp `before` holds; an
eligible source holds in `synced` the frame returned by the `getFrame` call
made in this tick (call number `before.parserCalls`), and when that frame
is not empty it is the one handed to the decoder and, in a marked tick with
a dump path, the one dumped; a source that is not eligible makes no parser
call, no decoder call and no dump. -/
def InastitchCpp.DecodesFetched (w : InastitchCpp.Externals) (o : Options)
    (parser : Nat → Nat → InastitchCpp.StreamFrame) (marked : Bool) (frameDumpIdx : Nat)
    (k : String) (ref : Nat) (before synced after : InastitchCpp.GenericInputStreamContext) :
    Prop :=
  synced.timeDelay = sub64 before.absTime ref ∧
  (synced.timeDelay < o.maxDelay →
    synced.parserCalls = before.parserCalls + 1 ∧
    synced.jpegBuffer = (parser before.parserCalls 0).jpegBuffer ∧
    synced.jpegBufferSize = (parser before.parserCalls 0).jpegBufferSize ∧
    synced.absTime = (parser before.parserCalls 0).absTime ∧
    (0 < synced.jpegBufferSize →
      after.decodeCalls = before.decodeCalls + 1 ∧
      after.rgbaBuffer
        = (w.decode (parser before.parserCalls 0).jpegBuffer
            (parser before.parserCalls 0).jpegBufferSize before.decoderRgba).ptr ∧
      (marked = true → o.frameDumpPath ≠ "" →
        InastitchCpp.expectedInputDump o marked frameDumpIdx k synced
          = inputDumpFiles o.frameDumpPath frameDumpIdx k
              (parser before.parserCalls 0).jpegBuffer
              (parser before.parserCalls 0).jpegBufferSize
              (parser before.parserCalls 0).absTime before.relTime before.offTime))) ∧
  (o.maxDelay ≤ synced.timeDelay →
    synced.parserCalls = before.parserCalls ∧ after.decodeCalls = before.decodeCalls ∧
    InastitchCpp.expectedInputDump o marked frameDumpIdx k synced = [])

/-- One source of `main.cpp` through a tick not left by `break`, `before`
being its context on entry, `synced` after the synchronisation block and
`after` when the tick ends, `ref` the tick's reference time, `parser` and
`pts` the source's MJPEG parser and PTS file: the lag is computed from the
timestamp `before` holds; an eligible source holds in `synced` the frame
and the timestamps read by the `parseFrame` call made in this tick (call
number `before.parserCalls`), which is the frame handed to the decoder and,
in a marked tick with a dump path, the one dumped; a source that is not
eligible makes no parser call, no decoder call and no dump. -/
def MainCpp.DecodesFetched (w : MainCpp.Externals) (o : Options)
    (parser : Nat → List Nat → List Nat × Nat) (pts : Nat → MainCpp.PtsRead) (marked : Bool)
    (frameDumpIdx : Nat) (k : String) (ref : Nat) (before synced after : MainCpp.FileContext) :
    Prop :=
  synced.timeDelay = sub64 before.absTime ref ∧
  (synced.timeDelay < o.maxDelay →
    synced.parserCalls = before.parserCalls + 1 ∧
    synced.decoderJpeg = (parser before.parserCalls before.decoderJpeg).1 ∧
    synced.jpegBufferSize = (parser before.parserCalls before.decoderJpeg).2 ∧
    synced.absTime = ((pts before.parserCalls).absTime).getD before.absTime ∧
    after.decodeCalls = before.decodeCalls + 1 ∧
    after.rgbaBuffer
      = (w.decode (parser before.parserCalls before.decoderJpeg).1 before.decoderRgba).ptr ∧
    (marked = true → o.frameDumpPath ≠ "" →
      MainCpp.expectedInputDump o marked frameDumpIdx k synced
        = inputDumpFiles o.frameDumpPath frameDumpIdx k
            (parser before.parserCalls before.decoderJpeg).1
            (parser before.parserCalls before.decoderJpeg).2
            (((pts before.parserCalls).absTime).getD before.absTime)
            (((pts before.parserCalls).relTime).getD before.relTime)
            (((pts before.parserCalls).offTime).getD before.offTime))) ∧
  (o.maxDelay ≤ synced.timeDelay →
    synced.parserCalls = before.parserCalls ∧ after.decodeCalls = before.decodeCalls ∧
    MainCpp.expectedInputDump o marked frameDumpIdx k synced = [])

/-! ## Sources that deliver their frames in time order -/

/-- The source behind `parser` delivers 64-bit timestamps that do not
decrease from one `getFrame(0)` call to the next. -/
def InastitchCpp.DeliversInOrder (parser : Nat → Nat → InastitchCpp.StreamFrame) : Prop :=
  (∀ j k, j ≤ k → (parser j 0).absTime ≤ (parser k 0).absTime) ∧
  ∀ k, (parser k 0).absTime < U64

/-- The PTS file behind `pts` delivers 64-bit timestamps that do not
decrease from one read that stores a value to a later one. -/
def MainCpp.DeliversInOrder (pts : Nat → MainCpp.PtsRead) : Prop :=
  (∀ j k u v, j ≤ k → (pts j).absTime = some u → (pts k).absTime = some v → u ≤ v) ∧
  ∀ k v, (pts k).absTime = some v → v < U64

/-- The context holds a 64-bit timestamp that no later `getFrame(0)` call
of its source undercuts. -/
def InastitchCpp.InOrder (parser : Nat → Nat → InastitchCpp.StreamFrame)
    (c : InastitchCpp.GenericInputStreamContext) : Prop :=
  c.absTime < U64 ∧ ∀ k, c.parserCalls ≤ k → c.absTime ≤ (parser k 0).absTime

/-- The context holds a 64-bit timestamp that no later read of its PTS file
undercuts. -/
def MainCpp.InOrder (pts : Nat → MainCpp.PtsRead) (c : MainCpp.FileContext) : Prop :=
  c.absTime < U64 ∧ ∀ k v, c.parserCalls ≤ k → (pts k).absTime = some v → c.absTime ≤ v

/-- The three sources of a state of `inastitch.cpp` are in order. -/
def InastitchCpp.SourcesInOrder (w : InastitchCpp.Externals)
    (s : LoopState InastitchCpp.GenericInputStreamContext) : Prop :=
  InastitchCpp.InOrder w.parser0 s.ctx0 ∧ InastitchCpp.InOrder w.parser1 s.ctx1 ∧
    InastitchCpp.InOrder w.parser2 s.ctx2

/-- The three sources of a state of `main.cpp` are in order. -/
def MainCpp.SourcesInOrder (w : MainCpp.Externals) (s : LoopState MainCpp.FileContext) : Prop :=
  MainCpp.InOrder w.pts0 s.ctx0 ∧ MainCpp.InOrder w.pts1 s.ctx1 ∧ MainCpp.InOrder w.pts2 s.ctx2

/-- Externals whose sources deliver one byte per call, stamped 40000
microseconds apart up to the largest 64-bit value, whose decoder paints the
buffer with the value 1 and whose compositor outputs the overlay frame
counter. -/
def InastitchCpp.orderedExternals : InastitchCpp.Externals :=
  { InastitchCpp.demoExternals 1 1 1 with
    parser0 := fun k _ =>
      { jpegBuffer := [7], jpegBufferSize := 1, absTime := min (40000 * (k + 1)) (U64 - 1) }
    parser1 := fun k _ =>
      { jpegBuffer := [8], jpegBufferSize := 1, absTime := min (40000 * (k + 1)) (U64 - 1) }
    parser2 := fun k _ =>
      { jpegBuffer := [9], jpegBufferSize := 1, absTime := min (40000 * (k + 1)) (U64 - 1) } }

/-- Externals whose PTS files stamp the frames 40000 microseconds apart up
to the largest 64-bit value; the rest as in the demonstration externals. -/
def MainCpp.orderedExternals : MainCpp.Externals :=
  { MainCpp.demoExternals 1 1 1 with
    pts0 := fun k =>
      { absTime := some (min (40000 * (k + 1)) (U64 - 1)), relTime := some 0, offTime := some 0 }
    pts1 := fun k =>
      { absTime := some (min (40000 * (k + 1)) (U64 - 1)), relTime := some 0, offTime := some 0 }
    pts2 := fun k =>
      { absTime := some (min (40000 * (k + 1)) (U64 - 1)), relTime := some 0, offTime := some 0 } }

/-- The ticks of the run of `inastitch.cpp` on the ordered externals with
dump offset 1 (tick 0 is not marked, the later ones are). -/
def InastitchCpp.orderedTick : Nat → Tick InastitchCpp.GenericInputStreamContext
  | 0 => InastitchCpp.tick InastitchCpp.orderedExternals (dumpOptions 1 0 false)
      (InastitchCpp.initialState InastitchCpp.orderedExternals 4 (fun _ => 0))
  | n + 1 => InastitchCpp.tick InastitchCpp.orderedExternals (dumpOptions 1 0 false)
      (InastitchCpp.orderedTick n).next

/-- The ticks of the run of `main.cpp` on the ordered externals with dump
offset 1 (tick 0 is not marked, the later ones are). -/
def MainCpp.orderedTick : Nat → Tick MainCpp.FileContext
  | 0 => MainCpp.tick MainCpp.orderedExternals (dumpOptions 1 0 false)
      (MainCpp.initialState MainCpp.orderedExternals 4 (fun _ => 0))
  | n + 1 => MainCpp.tick MainCpp.orderedExternals (dumpOptions 1 0 false)
      (MainCpp.orderedTick n).next

/-! ## The order of the calls of a decode task -/

/-- A call made by a decode task on its source context. -/
inductive StageCall where
  | dumpJpegAndPtsAndTxt (filename : String) : StageCall
  | decodeJpeg : StageCall
  | decodeWhite : StageCall
  deriving DecidableEq, Repr

/-- The effect of one call of a decode task of `inastitch.cpp` on the
source context and the file log. -/
def InastitchCpp.runCall (w : InastitchCpp.Externals) :
    InastitchCpp.GenericInputStreamContext × List FileWrite → StageCall →
      InastitchCpp.GenericInputStreamContext × List FileWrite
  | (c, files), StageCall.dumpJpegAndPtsAndTxt filename =>
    (c, InastitchCpp.dumpJpegAndPtsAndTxt c filename files)
  | (c, files), StageCall.decodeJpeg => (InastitchCpp.decodeJpeg w c, files)
  | (c, files), StageCall.decodeWhite => (InastitchCpp.decodeWhite c, files)

/-- The calls `calls` of `inastitch.cpp` made one after the other, first to
last, from the context `c` and the file log `files`. -/
def InastitchCpp.runCalls (w : InastitchCpp.Externals) (calls : List StageCall)
    (c : InastitchCpp.GenericInputStreamContext) (files : List FileWrite) :
    InastitchCpp.GenericInputStreamContext × List FileWrite :=
  calls.foldl (InastitchCpp.runCall w) (c, files)

/-- The effect of one call of a decode statement of `main.cpp` on the
source context and the file log. -/
def MainCpp.runCall (w : MainCpp.Externals) :
    MainCpp.FileContext × List FileWrite → StageCall → MainCpp.FileContext × List FileWrite
  | (c, files), StageCall.dumpJpegAndPtsAndTxt filename =>
    (c, MainCpp.dumpJpegAndPtsAndTxt c filename files)
  | (c, files), StageCall.decodeJpeg => (MainCpp.decodeJpeg w c, files)
  | (c, files), StageCall.decodeWhite => (MainCpp.decodeWhite c, files)

/-- The calls `calls` of `main.cpp` made one after the other, first to
last, from the context `c` and the file log `files`. -/
def MainCpp.runCalls (w : MainCpp.Externals) (calls : List StageCall)
    (c : MainCpp.FileContext) (files : List FileWrite) :
    MainCpp.FileContext × List FileWrite :=
  calls.foldl (MainCpp.runCall w) (c, files)

/-- The decode task of source `k` of `inastitch.cpp` in a tick, `synced`
being the source's context after the synchronisation block, `after` the
context the task leaves and `suffix` the one of its dump file. A source
that is decoded (non-empty payload, lag below `maxDelay`) in a marked tick
with a dump path: the task is the dump call followed by `decodeJpeg`; the
two files hold the first `jpegBufferSize` bytes of the payload and the
timestamps `synced` holds, which are the payload and size the decoder is
called on. A source that is decoded otherwise: the task is `decodeJpeg`
alone and writes no file. A source that is not decoded (a stale one among
them): the task is `decodeWhite` alone, it writes no file and makes no
decoder call. -/
def InastitchCpp.DumpBeforeDecode (w : InastitchCpp.Externals) (o : Options) (marked : Bool)
    (frameDumpIdx : Nat) (k suffix : String)
    (synced after : InastitchCpp.GenericInputStreamContext) : Prop :=
  (0 < synced.jpegBufferSize ∧ synced.timeDelay < o.maxDelay →
    marked = true ∧ o.frameDumpPath ≠ "" →
    (∀ files,
      InastitchCpp.runCalls w
          [StageCall.dumpJpegAndPtsAndTxt (o.frameDumpPath ++ toString frameDumpIdx ++ suffix),
            StageCall.decodeJpeg] synced files
        = (after, files ++
            [ { name := o.frameDumpPath ++ toString frameDumpIdx ++ suffix,
                data := FileData.bytes (synced.jpegBuffer.take synced.jpegBufferSize) },
              { name := o.frameDumpPath ++ toString frameDumpIdx ++ suffix ++ ".pts",
                data := FileData.text (toString synced.absTime ++ " " ++
                  toString synced.relTime ++ " " ++ toString synced.offTime ++ "\n") } ])) ∧
    InastitchCpp.expectedInputDump o marked frameDumpIdx k synced
      = [ { name := o.frameDumpPath ++ toString frameDumpIdx ++ suffix,
            data := FileData.bytes (synced.jpegBuffer.take synced.jpegBufferSize) },
          { name := o.frameDumpPath ++ toString frameDumpIdx ++ suffix ++ ".pts",
            data := FileData.text (toString synced.absTime ++ " " ++
              toString synced.relTime ++ " " ++ toString synced.offTime ++ "\n") } ] ∧
    InastitchCpp.SentToDecoder w synced after) ∧
  (0 < synced.jpegBufferSize ∧ synced.timeDelay < o.maxDelay →
    ¬ (marked = true ∧ o.frameDumpPath ≠ "") →
    (∀ files, InastitchCpp.runCalls w [StageCall.decodeJpeg] synced files = (after, files)) ∧
    InastitchCpp.expectedInputDump o marked frameDumpIdx k synced = [] ∧
    InastitchCpp.SentToDecoder w synced after) ∧
  (¬ (0 < synced.jpegBufferSize ∧ synced.timeDelay < o.maxDelay) →
    (∀ files, InastitchCpp.runCalls w [StageCall.decodeWhite] synced files = (after, files)) ∧
    InastitchCpp.expectedInputDump o marked frameDumpIdx k synced = [] ∧
    InastitchCpp.WhiteFilled synced after) ∧
  (o.maxDelay ≤ synced.timeDelay →
    InastitchCpp.expectedInputDump o marked frameDumpIdx k synced = [] ∧
    after.decodeCalls = synced.decodeCalls)

/-- The decode statement of source `k` of `main.cpp` in a tick not left by
`break`, `synced` being the source's context after the synchronisation
block, `after` the context the statement leaves and `suffix` the one of its
dump file. A source that is decoded (lag below `maxDelay`) in a marked tick
with a dump path: the statement is the dump call followed by `decodeJpeg`;
the two files hold the first `jpegBufferSize` bytes of the decoder's JPEG
buffer and the timestamps `synced` holds, and that buffer is what the
decoder is called on. A source that is decoded otherwise: `decodeJpeg`
alone, no file. A stale source: `decodeWhite` alone, no file and no decoder
call. -/
def MainCpp.DumpBeforeDecode (w : MainCpp.Externals) (o : Options) (marked : Bool)
    (frameDumpIdx : Nat) (k suffix : String) (synced after : MainCpp.FileContext) : Prop :=
  (synced.timeDelay < o.maxDelay → marked = true ∧ o.frameDumpPath ≠ "" →
    (∀ files,
      MainCpp.runCalls w
          [StageCall.dumpJpegAndPtsAndTxt (o.frameDumpPath ++ toString frameDumpIdx ++ suffix),
            StageCall.decodeJpeg] synced files
        = (after, files ++
            [ { name := o.frameDumpPath ++ toString frameDumpIdx ++ suffix,
                data := FileData.bytes (synced.decoderJpeg.take synced.jpegBufferSize) },
              { name := o.frameDumpPath ++ toString frameDumpIdx ++ suffix ++ ".pts",
                data := FileData.text (toString synced.absTime ++ " " ++
                  toString synced.relTime ++ " " ++ toString synced.offTime ++ "\n") } ])) ∧
    MainCpp.expectedInputDump o marked frameDumpIdx k synced
      = [ { name := o.frameDumpPath ++ toString frameDumpIdx ++ suffix,
            data := FileData.bytes (synced.decoderJpeg.take synced.jpegBufferSize) },
          { name := o.frameDumpPath ++ toString frameDumpIdx ++ suffix ++ ".pts",
            data := FileData.text (toString synced.absTime ++ " " ++
              toString synced.relTime ++ " " ++ toString synced.offTime ++ "\n") } ] ∧
    MainCpp.SentToDecoder w synced after) ∧
  (synced.timeDelay < o.maxDelay → ¬ (marked = true ∧ o.frameDumpPath ≠ "") →
    (∀ files, MainCpp.runCalls w [StageCall.decodeJpeg] synced files = (after, files)) ∧
    MainCpp.expectedInputDump o marked frameDumpIdx k synced = [] ∧
    MainCpp.SentToDecoder w synced after) ∧
  (o.maxDelay ≤ synced.timeDelay →
    (∀ files, MainCpp.runCalls w [StageCall.decodeWhite] synced files = (after, files)) ∧
    MainCpp.expectedInputDump o marked frameDumpIdx k synced = [] ∧
    MainCpp.WhiteFilled synced after)

/-- The demonstration externals of `inastitch.cpp` with a decoder that
overwrites the JPEG bytes it is called on with a single 0. -/
def InastitchCpp.overwritingExternals : InastitchCpp.Externals :=
  { InastitchCpp.demoExternals 1 1 1 with
    decode := fun _ _ _ => { ptr := BufferPtr.decoderRgba, rgba := fun _ => 1, jpeg := [0] } }

/-- The demonstration externals of `main.cpp` with a decoder that
overwrites its JPEG buffer with a single 0. -/
def MainCpp.overwritingExternals : MainCpp.Externals :=
  { MainCpp.demoExternals 1 1 1 with
    decode := fun _ _ => { ptr := BufferPtr.decoderRgba, rgba := fun _ => 1, jpeg := [0] } }

/-- Source 0 of `inastitch.cpp` after the synchronisation block of tick 0
of the run on the overwriting externals. -/
def InastitchCpp.overwriteSynced : InastitchCpp.GenericInputStreamContext :=
  (InastitchCpp.tickSync InastitchCpp.overwritingExternals (dumpOptions 0 0 false)
    (InastitchCpp.initialState InastitchCpp.overwritingExternals 4 (fun _ => 0))).ctx0

/-- Tick 0 of the run of `inastitch.cpp` on the overwriting externals with
every dump switched on. -/
def InastitchCpp.overwriteTick0 : Tick InastitchCpp.GenericInputStreamContext :=
  InastitchCpp.tick InastitchCpp.overwritingExternals (dumpOptions 0 0 false)
    (InastitchCpp.initialState InastitchCpp.overwritingExternals 4 (fun _ => 0))

/-- Source 0 of `main.cpp` after the synchronisation block of tick 0 of the
run on the overwriting externals. -/
def MainCpp.overwriteSynced : MainCpp.FileContext :=
  (MainCpp.tickSync MainCpp.overwritingExternals (dumpOptions 0 0 false)
    (MainCpp.initialState MainCpp.overwritingExternals 4 (fun _ => 0))).ctx0

/-- Tick 0 of the run of `main.cpp` on the overwriting externals with every
dump switched on. -/
def MainCpp.overwriteTick0 : Tick MainCpp.FileContext :=
  MainCpp.tick MainCpp.overwritingExternals (dumpOptions 0 0 false)
    (MainCpp.initialState MainCpp.overwritingExternals 4 (fun _ => 0))

/-- Scenario B on `inastitch.cpp` with every dump switched on: contexts
stamped 100, 250, 100 and a lag ceiling of 50, so that source 1 is stale. -/
def InastitchCpp.staleDumpTick : Tick InastitchCpp.GenericInputStreamContext :=
  InastitchCpp.tick (InastitchCpp.demoExternals 1 1 1) (dumpOptions 0 0 false)
    (startState (InastitchCpp.ctxAt 100) (InastitchCpp.ctxAt 250) (InastitchCpp.ctxAt 100))

/-- Scenario B on `main.cpp` with every dump switched on: contexts stamped
100, 250, 100 and a lag ceiling of 50, so that source 1 is stale. -/
def MainCpp.staleDumpTick : Tick MainCpp.FileContext :=
  MainCpp.tick (MainCpp.demoExternals 1 1 1) (dumpOptions 0 0 false)
    (startState (MainCpp.ctxAt 100) (MainCpp.ctxAt 250) (MainCpp.ctxAt 100))

/-! ## Auxiliary facts -/

theorem sub64_of_le {a b : Nat} (hb : b ≤ a) (ha : a < U64) : sub64 a b = a - b := by
  unfold sub64 U64 at *
  omega

namespace InastitchCpp

theorem advance_timeDelay (p : Nat → Nat → StreamFrame) (m : Nat) (c : GenericInputStreamContext) :
    (advance p m c).1.timeDelay = c.timeDelay := by
  unfold advance getFrame
  split <;> rfl

theorem advance_rgbaBufferSize (p : Nat → Nat → StreamFrame) (m : Nat)
    (c : GenericInputStreamContext) :
    (advance p m c).1.rgbaBufferSize = c.rgbaBufferSize := by
  unfold advance getFrame
  split <;> rfl

theorem advance_parserCalls (p : Nat → Nat → StreamFrame) (m : Nat)
    (c : GenericInputStreamContext) :
    (advance p m c).1.parserCalls = if c.timeDelay < m then c.parserCalls + 1 else c.parserCalls := by
  unfold advance getFrame
  split <;> rfl

theorem advance_stale (p : Nat → Nat → StreamFrame) (m : Nat) (c : GenericInputStreamContext)
    (h : m ≤ c.timeDelay) : advance p m c = (c, false) := by
  unfold advance
  rw [if_neg (by omega)]

theorem decodeTask_timeDelay (w : Externals) (o : Options) (b : Bool) (i : Nat) (x : String)
    (c : GenericInputStreamContext) (f : List FileWrite) :
    (decodeTask w o b i x c f).1.timeDelay = c.timeDelay := by
  unfold decodeTask decodeJpeg decodeWhite
  split <;> rfl

theorem decodeTask_parserCalls (w : Externals) (o : Options) (b : Bool) (i : Nat) (x : String)
    (c : GenericInputStreamContext) (f : List FileWrite) :
    (decodeTask w o b i x c f).1.parserCalls = c.parserCalls := by
  unfold decodeTask decodeJpeg decodeWhite
  split <;> rfl

theorem tick_eq (w : Externals) (o : Options) (s : LoopState GenericInputStreamContext) :
    tick w o s = tickRest w o s (tickSync w o s) := by
  unfold tick
  dsimp only
  split <;> rfl

theorem tick_frameAbsTime (w : Externals) (o : Options) (s : LoopState GenericInputStreamContext) :
    (tick w o s).frameAbsTime = min s.ctx0.absTime (min s.ctx1.absTime s.ctx2.absTime) := by
  rw [tick_eq]
  rfl

end InastitchCpp

namespace MainCpp

theorem file_advance_timeDelay (p : Nat → List Nat → List Nat × Nat) (q : Nat → PtsRead) (m : Nat)
    (c : FileContext) : (advance p q m c).1.timeDelay = c.timeDelay := by
  unfold advance parseFrame
  split <;> rfl

theorem file_advance_rgbaBufferSize (p : Nat → List Nat → List Nat × Nat) (q : Nat → PtsRead)
    (m : Nat) (c : FileContext) :
    (advance p q m c).1.rgbaBufferSize = c.rgbaBufferSize := by
  unfold advance parseFrame
  split <;> rfl

theorem file_advance_parserCalls (p : Nat → List Nat → List Nat × Nat) (q : Nat → PtsRead) (m : Nat)
    (c : FileContext) :
    (advance p q m c).1.parserCalls =
      if c.timeDelay < m then c.parserCalls + 1 else c.parserCalls := by
  unfold advance parseFrame
  split <;> rfl

theorem file_advance_stale (p : Nat → List Nat → List Nat × Nat) (q : Nat → PtsRead) (m : Nat)
    (c : FileContext) (h : m ≤ c.timeDelay) : advance p q m c = (c, false) := by
  unfold advance
  rw [if_neg (by omega)]

theorem decodeStep_timeDelay (w : Externals) (o : Options) (b : Bool) (i : Nat) (x : String)
    (c : FileContext) (f : List FileWrite) :
    (decodeStep w o b i x c f).1.timeDelay = c.timeDelay := by
  unfold decodeStep decodeJpeg decodeWhite
  split <;> rfl

theorem decodeStep_parserCalls (w : Externals) (o : Options) (b : Bool) (i : Nat) (x : String)
    (c : FileContext) (f : List FileWrite) :
    (decodeStep w o b i x c f).1.parserCalls = c.parserCalls := by
  unfold decodeStep decodeJpeg decodeWhite
  split <;> rfl

theorem file_tick_frameAbsTime (w : Externals) (o : Options) (s : LoopState FileContext) :
    (tick w o s).frameAbsTime = min s.ctx0.absTime (min s.ctx1.absTime s.ctx2.absTime) := by
  unfold tick
  dsimp only
  split <;> rfl

end MainCpp

/-! ## Time synchronisation -/

/-- C1: in every tick of both drivers the reference time `frameAbsTime` is
the minimum of the three sources' `absTime` on entry to the tick: it is at
most each of them and equal to one of them. -/
theorem c1_frameAbsTime_is_min (wi : InastitchCpp.Externals) (wm : MainCpp.Externals)
    (o : Options) (si : LoopState InastitchCpp.GenericInputStreamContext)
    (sm : LoopState MainCpp.FileContext) :
    ((InastitchCpp.tick wi o si).frameAbsTime ≤ si.ctx0.absTime ∧
      (InastitchCpp.tick wi o si).frameAbsTime ≤ si.ctx1.absTime ∧
      (InastitchCpp.tick wi o si).frameAbsTime ≤ si.ctx2.absTime ∧
      ((InastitchCpp.tick wi o si).frameAbsTime = si.ctx0.absTime ∨
        (InastitchCpp.tick wi o si).frameAbsTime = si.ctx1.absTime ∨
        (InastitchCpp.tick wi o si).frameAbsTime = si.ctx2.absTime)) ∧
    ((MainCpp.tick wm o sm).frameAbsTime ≤ sm.ctx0.absTime ∧
      (MainCpp.tick wm o sm).frameAbsTime ≤ sm.ctx1.absTime ∧
      (MainCpp.tick wm o sm).frameAbsTime ≤ sm.ctx2.absTime ∧
      ((MainCpp.tick wm o sm).frameAbsTime = sm.ctx0.absTime ∨
        (MainCpp.tick wm o sm).frameAbsTime = sm.ctx1.absTime ∨
        (MainCpp.tick wm o sm).frameAbsTime = sm.ctx2.absTime)) := by
  rw [InastitchCpp.tick_frameAbsTime, MainCpp.file_tick_frameAbsTime]
  omega

namespace InastitchCpp

theorem tick_timeDelay (w : Externals) (o : Options) (s : LoopState GenericInputStreamContext) :
    (tick w o s).next.ctx0.timeDelay = sub64 s.ctx0.absTime (tick w o s).frameAbsTime ∧
    (tick w o s).next.ctx1.timeDelay = sub64 s.ctx1.absTime (tick w o s).frameAbsTime ∧
    (tick w o s).next.ctx2.timeDelay = sub64 s.ctx2.absTime (tick w o s).frameAbsTime := by
  rw [tick_eq]
  simp [tickRest, decodeTask_timeDelay, tickSync, timeSync, advance_timeDelay]

end InastitchCpp

namespace MainCpp

theorem file_tick_timeDelay (w : Externals) (o : Options) (s : LoopState FileContext) :
    (tick w o s).next.ctx0.timeDelay = sub64 s.ctx0.absTime (tick w o s).frameAbsTime ∧
    (tick w o s).next.ctx1.timeDelay = sub64 s.ctx1.absTime (tick w o s).frameAbsTime ∧
    (tick w o s).next.ctx2.timeDelay = sub64 s.ctx2.absTime (tick w o s).frameAbsTime := by
  unfold tick
  dsimp only
  split
  · simp [tickBreak, tickSync, timeSync, file_advance_timeDelay]
  · simp [tickRest, decodeStep_timeDelay, tickSync, timeSync, file_advance_timeDelay]

end MainCpp

/-- C2: in every tick of both drivers, for 64-bit timestamps, the lag
`timeDelay` stored for each source is the true difference between the
source's `absTime` on entry to the tick and the reference time: the
subtraction does not wrap, `frameAbsTime + timeDelay = absTime`. -/
theorem c2_timeDelay_no_wrap (wi : InastitchCpp.Externals) (wm : MainCpp.Externals)
    (o : Options) (si : LoopState InastitchCpp.GenericInputStreamContext)
    (sm : LoopState MainCpp.FileContext)
    (hi0 : si.ctx0.absTime < U64) (hi1 : si.ctx1.absTime < U64) (hi2 : si.ctx2.absTime < U64)
    (hm0 : sm.ctx0.absTime < U64) (hm1 : sm.ctx1.absTime < U64) (hm2 : sm.ctx2.absTime < U64) :
    ((InastitchCpp.tick wi o si).frameAbsTime + (InastitchCpp.tick wi o si).next.ctx0.timeDelay
        = si.ctx0.absTime ∧
      (InastitchCpp.tick wi o si).frameAbsTime + (InastitchCpp.tick wi o si).next.ctx1.timeDelay
        = si.ctx1.absTime ∧
      (InastitchCpp.tick wi o si).frameAbsTime + (InastitchCpp.tick wi o si).next.ctx2.timeDelay
        = si.ctx2.absTime) ∧
    ((MainCpp.tick wm o sm).frameAbsTime + (MainCpp.tick wm o sm).next.ctx0.timeDelay
        = sm.ctx0.absTime ∧
      (MainCpp.tick wm o sm).frameAbsTime + (MainCpp.tick wm o sm).next.ctx1.timeDelay
        = sm.ctx1.absTime ∧
      (MainCpp.tick wm o sm).frameAbsTime + (MainCpp.tick wm o sm).next.ctx2.timeDelay
        = sm.ctx2.absTime) := by
  obtain ⟨a0, a1, a2⟩ := InastitchCpp.tick_timeDelay wi o si
  obtain ⟨b0, b1, b2⟩ := MainCpp.file_tick_timeDelay wm o sm
  rw [a0, a1, a2, b0, b1, b2, InastitchCpp.tick_frameAbsTime, MainCpp.file_tick_frameAbsTime]
  have e0 := sub64_of_le (Nat.min_le_left si.ctx0.absTime (min si.ctx1.absTime si.ctx2.absTime)) hi0
  have e1 := sub64_of_le (a := si.ctx1.absTime)
    (b := min si.ctx0.absTime (min si.ctx1.absTime si.ctx2.absTime)) (by omega) hi1
  have e2 := sub64_of_le (a := si.ctx2.absTime)
    (b := min si.ctx0.absTime (min si.ctx1.absTime si.ctx2.absTime)) (by omega) hi2
  have f0 := sub64_of_le (Nat.min_le_left sm.ctx0.absTime (min sm.ctx1.absTime sm.ctx2.absTime)) hm0
  have f1 := sub64_of_le (a := sm.ctx1.absTime)
    (b := min sm.ctx0.absTime (min sm.ctx1.absTime sm.ctx2.absTime)) (by omega) hm1
  have f2 := sub64_of_le (a := sm.ctx2.absTime)
    (b := min sm.ctx0.absTime (min sm.ctx1.absTime sm.ctx2.absTime)) (by omega) hm2
  rw [e0, e1, e2, f0, f1, f2]
  omega

/-- C2 at timestamps 100, 100, 100 in both drivers: the reference time is
100 and the three lags are 0. -/
theorem c2_timeDelay_no_wrap_witness :
    ((InastitchCpp.tick (InastitchCpp.demoExternals 1 1 1) (demoOptions 50 10)
        (startState (InastitchCpp.ctxAt 100) (InastitchCpp.ctxAt 100)
          (InastitchCpp.ctxAt 100))).frameAbsTime = 100 ∧
      (InastitchCpp.tick (InastitchCpp.demoExternals 1 1 1) (demoOptions 50 10)
        (startState (InastitchCpp.ctxAt 100) (InastitchCpp.ctxAt 100)
          (InastitchCpp.ctxAt 100))).next.ctx0.timeDelay = 0 ∧
      (InastitchCpp.tick (InastitchCpp.demoExternals 1 1 1) (demoOptions 50 10)
        (startState (InastitchCpp.ctxAt 100) (InastitchCpp.ctxAt 100)
          (InastitchCpp.ctxAt 100))).next.ctx1.timeDelay = 0 ∧
      (InastitchCpp.tick (InastitchCpp.demoExternals 1 1 1) (demoOptions 50 10)
        (startState (InastitchCpp.ctxAt 100) (InastitchCpp.ctxAt 100)
          (InastitchCpp.ctxAt 100))).next.ctx2.timeDelay = 0) ∧
    ((MainCpp.tick (MainCpp.demoExternals 1 1 1) (demoOptions 50 10)
        (startState (MainCpp.ctxAt 100) (MainCpp.ctxAt 100)
          (MainCpp.ctxAt 100))).frameAbsTime = 100 ∧
      (MainCpp.tick (MainCpp.demoExternals 1 1 1) (demoOptions 50 10)
        (startState (MainCpp.ctxAt 100) (MainCpp.ctxAt 100)
          (MainCpp.ctxAt 100))).next.ctx0.timeDelay = 0 ∧
      (MainCpp.tick (MainCpp.demoExternals 1 1 1) (demoOptions 50 10)
        (startState (MainCpp.ctxAt 100) (MainCpp.ctxAt 100)
          (MainCpp.ctxAt 100))).next.ctx1.timeDelay = 0 ∧
      (MainCpp.tick (MainCpp.demoExternals 1 1 1) (demoOptions 50 10)
        (startState (MainCpp.ctxAt 100) (MainCpp.ctxAt 100)
          (MainCpp.ctxAt 100))).next.ctx2.timeDelay = 0) := by
  have h := c2_timeDelay_no_wrap (InastitchCpp.demoExternals 1 1 1) (MainCpp.demoExternals 1 1 1)
    (demoOptions 50 10)
    (startState (InastitchCpp.ctxAt 100) (InastitchCpp.ctxAt 100) (InastitchCpp.ctxAt 100))
    (startState (MainCpp.ctxAt 100) (MainCpp.ctxAt 100) (MainCpp.ctxAt 100))
    (by decide) (by decide) (by decide) (by decide) (by decide) (by decide)
  have ei : (InastitchCpp.tick (InastitchCpp.demoExternals 1 1 1) (demoOptions 50 10)
        (startState (InastitchCpp.ctxAt 100) (InastitchCpp.ctxAt 100)
          (InastitchCpp.ctxAt 100))).frameAbsTime = 100 := by
    rw [InastitchCpp.tick_frameAbsTime]; decide
  have em : (MainCpp.tick (MainCpp.demoExternals 1 1 1) (demoOptions 50 10)
        (startState (MainCpp.ctxAt 100) (MainCpp.ctxAt 100)
          (MainCpp.ctxAt 100))).frameAbsTime = 100 := by
    rw [MainCpp.file_tick_frameAbsTime]; decide
  rw [ei, em] at h
  obtain ⟨⟨h0, h1, h2⟩, ⟨g0, g1, g2⟩⟩ := h
  have a0 : (startState (InastitchCpp.ctxAt 100) (InastitchCpp.ctxAt 100)
    (InastitchCpp.ctxAt 100)).ctx0.absTime = 100 := rfl
  have a1 : (startState (InastitchCpp.ctxAt 100) (InastitchCpp.ctxAt 100)
    (InastitchCpp.ctxAt 100)).ctx1.absTime = 100 := rfl
  have a2 : (startState (InastitchCpp.ctxAt 100) (InastitchCpp.ctxAt 100)
    (InastitchCpp.ctxAt 100)).ctx2.absTime = 100 := rfl
  have b0 : (startState (MainCpp.ctxAt 100) (MainCpp.ctxAt 100)
    (MainCpp.ctxAt 100)).ctx0.absTime = 100 := rfl
  have b1 : (startState (MainCpp.ctxAt 100) (MainCpp.ctxAt 100)
    (MainCpp.ctxAt 100)).ctx1.absTime = 100 := rfl
  have b2 : (startState (MainCpp.ctxAt 100) (MainCpp.ctxAt 100)
    (MainCpp.ctxAt 100)).ctx2.absTime = 100 := rfl
  rw [a0] at h0; rw [a1] at h1; rw [a2] at h2
  rw [b0] at g0; rw [b1] at g1; rw [b2] at g2
  refine ⟨⟨ei, ?_, ?_, ?_⟩, ⟨em, ?_, ?_, ?_⟩⟩ <;> omega

namespace InastitchCpp

theorem tickSync_timeDelay (w : Externals) (o : Options)
    (s : LoopState GenericInputStreamContext) :
    (tickSync w o s).ctx0.timeDelay = (tick w o s).next.ctx0.timeDelay ∧
    (tickSync w o s).ctx1.timeDelay = (tick w o s).next.ctx1.timeDelay ∧
    (tickSync w o s).ctx2.timeDelay = (tick w o s).next.ctx2.timeDelay := by
  rw [tick_eq]
  simp [tickRest, decodeTask_timeDelay]

theorem tick_parserCalls (w : Externals) (o : Options)
    (s : LoopState GenericInputStreamContext) :
    (tick w o s).next.ctx0.parserCalls = (tickSync w o s).ctx0.parserCalls ∧
    (tick w o s).next.ctx1.parserCalls = (tickSync w o s).ctx1.parserCalls ∧
    (tick w o s).next.ctx2.parserCalls = (tickSync w o s).ctx2.parserCalls := by
  rw [tick_eq]
  simp [tickRest, decodeTask_parserCalls]

/-- What the synchronisation block does to one source: one more parser
call exactly when the stored lag is below `m`, and nothing touched
otherwise. -/
theorem advance_spec (p : Nat → Nat → StreamFrame) (m : Nat) (c : GenericInputStreamContext) :
    ((advance p m c).1.parserCalls = c.parserCalls + 1 ↔ (advance p m c).1.timeDelay < m) ∧
    (m ≤ (advance p m c).1.timeDelay →
      (advance p m c).1.parserCalls = c.parserCalls ∧
      (advance p m c).1.absTime = c.absTime ∧
      (advance p m c).1.jpegBuffer = c.jpegBuffer ∧
      (advance p m c).1.jpegBufferSize = c.jpegBufferSize) := by
  rw [advance_timeDelay, advance_parserCalls]
  constructor
  · split <;> omega
  · intro h
    rw [advance_stale p m c h, if_neg (by omega)]
    exact ⟨rfl, rfl, rfl, rfl⟩

end InastitchCpp

namespace MainCpp

theorem file_tickSync_timeDelay (w : Externals) (o : Options) (s : LoopState FileContext) :
    (tickSync w o s).ctx0.timeDelay = (tick w o s).next.ctx0.timeDelay ∧
    (tickSync w o s).ctx1.timeDelay = (tick w o s).next.ctx1.timeDelay ∧
    (tickSync w o s).ctx2.timeDelay = (tick w o s).next.ctx2.timeDelay := by
  unfold tick
  dsimp only
  split
  · simp [tickBreak]
  · simp [tickRest, decodeStep_timeDelay]

theorem file_tick_parserCalls (w : Externals) (o : Options) (s : LoopState FileContext) :
    (tick w o s).next.ctx0.parserCalls = (tickSync w o s).ctx0.parserCalls ∧
    (tick w o s).next.ctx1.parserCalls = (tickSync w o s).ctx1.parserCalls ∧
    (tick w o s).next.ctx2.parserCalls = (tickSync w o s).ctx2.parserCalls := by
  unfold tick
  dsimp only
  split
  · simp [tickBreak]
  · simp [tickRest, decodeStep_parserCalls]

/-- What the synchronisation block does to one source: one more parser
call exactly when the stored lag is below `m`, and nothing touched
otherwise. -/
theorem file_advance_spec (p : Nat → List Nat → List Nat × Nat) (q : Nat → PtsRead) (m : Nat)
    (c : FileContext) :
    ((advance p q m c).1.parserCalls = c.parserCalls + 1 ↔ (advance p q m c).1.timeDelay < m) ∧
    (m ≤ (advance p q m c).1.timeDelay →
      (advance p q m c).1.parserCalls = c.parserCalls ∧
      (advance p q m c).1.absTime = c.absTime ∧
      (advance p q m c).1.decoderJpeg = c.decoderJpeg ∧
      (advance p q m c).1.jpegBufferSize = c.jpegBufferSize) := by
  rw [file_advance_timeDelay, file_advance_parserCalls]
  constructor
  · split <;> omega
  · intro h
    rw [file_advance_stale p q m c h, if_neg (by omega)]
    exact ⟨rfl, rfl, rfl, rfl⟩

end MainCpp

/-- C3: in every tick of both drivers, each source has `getFrame` /
`parseFrame` called on it (once) exactly when the lag stored for it in this
tick is below `maxDelay`; when the lag is `maxDelay` or more there is no
call and the synchronisation block leaves `absTime`, the payload and its
size as they were. The lag in the synchronised context is the one the tick
stores, and the rest of the tick makes no further parser call. -/
theorem c3_advance_iff_eligible (wi : InastitchCpp.Externals) (wm : MainCpp.Externals)
    (o : Options) (si : LoopState InastitchCpp.GenericInputStreamContext)
    (sm : LoopState MainCpp.FileContext) :
    (InastitchCpp.AdvancedIffEligible o.maxDelay si.ctx0 (InastitchCpp.tickSync wi o si).ctx0 ∧
      InastitchCpp.AdvancedIffEligible o.maxDelay si.ctx1 (InastitchCpp.tickSync wi o si).ctx1 ∧
      InastitchCpp.AdvancedIffEligible o.maxDelay si.ctx2 (InastitchCpp.tickSync wi o si).ctx2 ∧
      (InastitchCpp.tickSync wi o si).ctx0.timeDelay
        = sub64 si.ctx0.absTime (InastitchCpp.tick wi o si).frameAbsTime ∧
      (InastitchCpp.tickSync wi o si).ctx1.timeDelay
        = sub64 si.ctx1.absTime (InastitchCpp.tick wi o si).frameAbsTime ∧
      (InastitchCpp.tickSync wi o si).ctx2.timeDelay
        = sub64 si.ctx2.absTime (InastitchCpp.tick wi o si).frameAbsTime ∧
      (InastitchCpp.tick wi o si).next.ctx0.parserCalls
        = (InastitchCpp.tickSync wi o si).ctx0.parserCalls ∧
      (InastitchCpp.tick wi o si).next.ctx1.parserCalls
        = (InastitchCpp.tickSync wi o si).ctx1.parserCalls ∧
      (InastitchCpp.tick wi o si).next.ctx2.parserCalls
        = (InastitchCpp.tickSync wi o si).ctx2.parserCalls) ∧
    (MainCpp.AdvancedIffEligible o.maxDelay sm.ctx0 (MainCpp.tickSync wm o sm).ctx0 ∧
      MainCpp.AdvancedIffEligible o.maxDelay sm.ctx1 (MainCpp.tickSync wm o sm).ctx1 ∧
      MainCpp.AdvancedIffEligible o.maxDelay sm.ctx2 (MainCpp.tickSync wm o sm).ctx2 ∧
      (MainCpp.tickSync wm o sm).ctx0.timeDelay
        = sub64 sm.ctx0.absTime (MainCpp.tick wm o sm).frameAbsTime ∧
      (MainCpp.tickSync wm o sm).ctx1.timeDelay
        = sub64 sm.ctx1.absTime (MainCpp.tick wm o sm).frameAbsTime ∧
      (MainCpp.tickSync wm o sm).ctx2.timeDelay
        = sub64 sm.ctx2.absTime (MainCpp.tick wm o sm).frameAbsTime ∧
      (MainCpp.tick wm o sm).next.ctx0.parserCalls = (MainCpp.tickSync wm o sm).ctx0.parserCalls ∧
      (MainCpp.tick wm o sm).next.ctx1.parserCalls = (MainCpp.tickSync wm o sm).ctx1.parserCalls ∧
      (MainCpp.tick wm o sm).next.ctx2.parserCalls
        = (MainCpp.tickSync wm o sm).ctx2.parserCalls) := by
  obtain ⟨a0, a1, a2⟩ := InastitchCpp.tickSync_timeDelay wi o si
  obtain ⟨b0, b1, b2⟩ := MainCpp.file_tickSync_timeDelay wm o sm
  obtain ⟨t0, t1, t2⟩ := InastitchCpp.tick_timeDelay wi o si
  obtain ⟨u0, u1, u2⟩ := MainCpp.file_tick_timeDelay wm o sm
  obtain ⟨p0, p1, p2⟩ := InastitchCpp.tick_parserCalls wi o si
  obtain ⟨q0, q1, q2⟩ := MainCpp.file_tick_parserCalls wm o sm
  exact ⟨⟨InastitchCpp.advance_spec _ _ _, InastitchCpp.advance_spec _ _ _,
      InastitchCpp.advance_spec _ _ _, a0.trans t0, a1.trans t1, a2.trans t2, p0, p1, p2⟩,
    ⟨MainCpp.file_advance_spec _ _ _ _, MainCpp.file_advance_spec _ _ _ _, MainCpp.file_advance_spec _ _ _ _,
      b0.trans u0, b1.trans u1, b2.trans u2, q0, q1, q2⟩⟩

/-! ## Decode dispatch -/

theorem decodeWhiteLoop_white (n : Nat) (rgba : Nat → Nat) (j : Nat) (h : j < n) :
    decodeWhiteLoop n rgba j = 0xFF := by
  induction n with
  | zero => omega
  | succ k ih =>
    unfold decodeWhiteLoop
    by_cases e : j = k
    · subst e
      simp
    · rw [Function.update_noteq e]
      exact ih (by omega)

namespace InastitchCpp

theorem decodeWhite_whiteFilled (c : GenericInputStreamContext) : WhiteFilled c (decodeWhite c) :=
  ⟨fun j h => decodeWhiteLoop_white c.rgbaBufferSize c.decoderRgba j h, rfl⟩

theorem decodeTask_stale (w : Externals) (o : Options) (b : Bool) (i : Nat) (x : String)
    (c : GenericInputStreamContext) (f : List FileWrite) (h : o.maxDelay ≤ c.timeDelay) :
    (decodeTask w o b i x c f).1 = decodeWhite c := by
  unfold decodeTask
  rw [if_neg (by omega)]

theorem decodeTask_empty (w : Externals) (o : Options) (b : Bool) (i : Nat) (x : String)
    (c : GenericInputStreamContext) (f : List FileWrite) (h : c.jpegBufferSize = 0) :
    (decodeTask w o b i x c f).1 = decodeWhite c := by
  unfold decodeTask
  rw [if_neg (by omega)]

theorem decodeTask_fresh (w : Externals) (o : Options) (b : Bool) (i : Nat) (x : String)
    (c : GenericInputStreamContext) (f : List FileWrite) (h : c.timeDelay < o.maxDelay)
    (hp : 0 < c.jpegBufferSize) :
    (decodeTask w o b i x c f).1 = decodeJpeg w c := by
  unfold decodeTask
  rw [if_pos ⟨hp, h⟩]

/-- The three contexts a tick leaves are the synchronised ones sent through
their decode task. -/
theorem tick_ctx (w : Externals) (o : Options) (s : LoopState GenericInputStreamContext) :
    (∃ b i x f, (tick w o s).next.ctx0 = (decodeTask w o b i x (tickSync w o s).ctx0 f).1) ∧
    (∃ b i x f, (tick w o s).next.ctx1 = (decodeTask w o b i x (tickSync w o s).ctx1 f).1) ∧
    (∃ b i x f, (tick w o s).next.ctx2 = (decodeTask w o b i x (tickSync w o s).ctx2 f).1) := by
  rw [tick_eq]
  exact ⟨⟨_, _, _, _, rfl⟩, ⟨_, _, _, _, rfl⟩, ⟨_, _, _, _, rfl⟩⟩

/-- The decode rule of `inastitch.cpp` for one source, `synced` being its
context after the synchronisation block and `after` the one the tick
leaves. -/
theorem decodeTask_rule (w : Externals) (o : Options) (b : Bool) (i : Nat) (x : String)
    (c : GenericInputStreamContext) (f : List FileWrite) :
    (o.maxDelay ≤ c.timeDelay → WhiteFilled c (decodeTask w o b i x c f).1) ∧
    (c.timeDelay < o.maxDelay → 0 < c.jpegBufferSize →
      SentToDecoder w c (decodeTask w o b i x c f).1) ∧
    (c.jpegBufferSize = 0 → WhiteFilled c (decodeTask w o b i x c f).1) := by
  refine ⟨fun h => ?_, fun h hp => ?_, fun h => ?_⟩
  · rw [decodeTask_stale w o b i x c f h]
    exact decodeWhite_whiteFilled c
  · rw [decodeTask_fresh w o b i x c f h hp]
    exact ⟨rfl, rfl, rfl⟩
  · rw [decodeTask_empty w o b i x c f h]
    exact decodeWhite_whiteFilled c

end InastitchCpp

/-- C4, as the code has it (`inastitch.cpp`): in every tick, a stale source
(lag at least `maxDelay`) leaves the decode stage with every byte below
`rgbaBufferSize` of its decoder RGBA buffer equal to `0xFF` and without a
decoder call, and a source that is not stale and holds a non-empty payload
is sent to the JPEG decoder. -/
theorem c4_stale_white_fresh_decoded (w : InastitchCpp.Externals) (o : Options)
    (s : LoopState InastitchCpp.GenericInputStreamContext) :
    ((o.maxDelay ≤ (InastitchCpp.tickSync w o s).ctx0.timeDelay →
        InastitchCpp.WhiteFilled (InastitchCpp.tickSync w o s).ctx0
          (InastitchCpp.tick w o s).next.ctx0) ∧
      ((InastitchCpp.tickSync w o s).ctx0.timeDelay < o.maxDelay →
        0 < (InastitchCpp.tickSync w o s).ctx0.jpegBufferSize →
        InastitchCpp.SentToDecoder w (InastitchCpp.tickSync w o s).ctx0
          (InastitchCpp.tick w o s).next.ctx0)) ∧
    ((o.maxDelay ≤ (InastitchCpp.tickSync w o s).ctx1.timeDelay →
        InastitchCpp.WhiteFilled (InastitchCpp.tickSync w o s).ctx1
          (InastitchCpp.tick w o s).next.ctx1) ∧
      ((InastitchCpp.tickSync w o s).ctx1.timeDelay < o.maxDelay →
        0 < (InastitchCpp.tickSync w o s).ctx1.jpegBufferSize →
        InastitchCpp.SentToDecoder w (InastitchCpp.tickSync w o s).ctx1
          (InastitchCpp.tick w o s).next.ctx1)) ∧
    ((o.maxDelay ≤ (InastitchCpp.tickSync w o s).ctx2.timeDelay →
        InastitchCpp.WhiteFilled (InastitchCpp.tickSync w o s).ctx2
          (InastitchCpp.tick w o s).next.ctx2) ∧
      ((InastitchCpp.tickSync w o s).ctx2.timeDelay < o.maxDelay →
        0 < (InastitchCpp.tickSync w o s).ctx2.jpegBufferSize →
        InastitchCpp.SentToDecoder w (InastitchCpp.tickSync w o s).ctx2
          (InastitchCpp.tick w o s).next.ctx2)) := by
  obtain ⟨⟨b0, i0, x0, f0, e0⟩, ⟨b1, i1, x1, f1, e1⟩, ⟨b2, i2, x2, f2, e2⟩⟩ :=
    InastitchCpp.tick_ctx w o s
  rw [e0, e1, e2]
  exact ⟨⟨(InastitchCpp.decodeTask_rule w o b0 i0 x0 _ f0).1,
      (InastitchCpp.decodeTask_rule w o b0 i0 x0 _ f0).2.1⟩,
    ⟨(InastitchCpp.decodeTask_rule w o b1 i1 x1 _ f1).1,
      (InastitchCpp.decodeTask_rule w o b1 i1 x1 _ f1).2.1⟩,
    ⟨(InastitchCpp.decodeTask_rule w o b2 i2 x2 _ f2).1,
      (InastitchCpp.decodeTask_rule w o b2 i2 x2 _ f2).2.1⟩⟩

/-- C4 fails as stated on `inastitch.cpp`: with timestamps 100, 250, 100, a
lag ceiling of 50 and an advance of source 0 that returns no bytes, source 0
is not stale (lag 0) and yet is not sent to the JPEG decoder: no decode call
is made for it and its buffer is white-filled like that of the stale
source 1. -/
theorem c4_counterexample :
    (InastitchCpp.scenarioB 0).next.ctx0.timeDelay = 0 ∧
    (InastitchCpp.scenarioB 0).next.ctx0.timeDelay < (demoOptions 50 10).maxDelay ∧
    (InastitchCpp.scenarioB 0).next.ctx0.jpegBufferSize = 0 ∧
    (InastitchCpp.scenarioB 0).next.ctx0.decodeCalls = (InastitchCpp.ctxAt 100).decodeCalls ∧
    (InastitchCpp.scenarioB 0).next.ctx0.rgbaBuffer = BufferPtr.null ∧
    (InastitchCpp.scenarioB 0).next.ctx0.decoderRgba 0 = 0xFF ∧
    (InastitchCpp.scenarioB 0).next.ctx0.decoderRgba 3 = 0xFF ∧
    (InastitchCpp.scenarioB 0).next.ctx1.decoderRgba 0 = 0xFF := by
  decide

/-- Scenario B through C4: with timestamps 100, 250, 100, a lag ceiling of
50 and non-empty payloads, source 1 is white-filled and sources 0 and 2 are
sent to the JPEG decoder. -/
theorem c4_scenarioB_witness :
    InastitchCpp.WhiteFilled
      (InastitchCpp.tickSync (InastitchCpp.demoExternals 1 1 1) (demoOptions 50 10)
        (startState (InastitchCpp.ctxAt 100) (InastitchCpp.ctxAt 250)
          (InastitchCpp.ctxAt 100))).ctx1
      (InastitchCpp.tick (InastitchCpp.demoExternals 1 1 1) (demoOptions 50 10)
        (startState (InastitchCpp.ctxAt 100) (InastitchCpp.ctxAt 250)
          (InastitchCpp.ctxAt 100))).next.ctx1 ∧
    InastitchCpp.SentToDecoder (InastitchCpp.demoExternals 1 1 1)
      (InastitchCpp.tickSync (InastitchCpp.demoExternals 1 1 1) (demoOptions 50 10)
        (startState (InastitchCpp.ctxAt 100) (InastitchCpp.ctxAt 250)
          (InastitchCpp.ctxAt 100))).ctx0
      (InastitchCpp.tick (InastitchCpp.demoExternals 1 1 1) (demoOptions 50 10)
        (startState (InastitchCpp.ctxAt 100) (InastitchCpp.ctxAt 250)
          (InastitchCpp.ctxAt 100))).next.ctx0 ∧
    InastitchCpp.SentToDecoder (InastitchCpp.demoExternals 1 1 1)
      (InastitchCpp.tickSync (InastitchCpp.demoExternals 1 1 1) (demoOptions 50 10)
        (startState (InastitchCpp.ctxAt 100) (InastitchCpp.ctxAt 250)
          (InastitchCpp.ctxAt 100))).ctx2
      (InastitchCpp.tick (InastitchCpp.demoExternals 1 1 1) (demoOptions 50 10)
        (startState (InastitchCpp.ctxAt 100) (InastitchCpp.ctxAt 250)
          (InastitchCpp.ctxAt 100))).next.ctx2 :=
  ⟨(c4_stale_white_fresh_decoded (InastitchCpp.demoExternals 1 1 1) (demoOptions 50 10)
      (startState (InastitchCpp.ctxAt 100) (InastitchCpp.ctxAt 250)
        (InastitchCpp.ctxAt 100))).2.1.1 (by decide),
   (c4_stale_white_fresh_decoded (InastitchCpp.demoExternals 1 1 1) (demoOptions 50 10)
      (startState (InastitchCpp.ctxAt 100) (InastitchCpp.ctxAt 250)
        (InastitchCpp.ctxAt 100))).1.2 (by decide) (by decide),
   (c4_stale_white_fresh_decoded (InastitchCpp.demoExternals 1 1 1) (demoOptions 50 10)
      (startState (InastitchCpp.ctxAt 100) (InastitchCpp.ctxAt 250)
        (InastitchCpp.ctxAt 100))).2.2.2 (by decide) (by decide)⟩

namespace InastitchCpp

/-- In `inastitch.cpp` a source whose payload is empty after the
synchronisation block is white-filled, whatever its lag. -/
theorem tick_empty_payload_white (w : Externals) (o : Options)
    (s : LoopState GenericInputStreamContext) :
    ((tickSync w o s).ctx0.jpegBufferSize = 0 →
      WhiteFilled (tickSync w o s).ctx0 (tick w o s).next.ctx0) ∧
    ((tickSync w o s).ctx1.jpegBufferSize = 0 →
      WhiteFilled (tickSync w o s).ctx1 (tick w o s).next.ctx1) ∧
    ((tickSync w o s).ctx2.jpegBufferSize = 0 →
      WhiteFilled (tickSync w o s).ctx2 (tick w o s).next.ctx2) := by
  obtain ⟨⟨b0, i0, x0, f0, e0⟩, ⟨b1, i1, x1, f1, e1⟩, ⟨b2, i2, x2, f2, e2⟩⟩ := tick_ctx w o s
  rw [e0, e1, e2]
  exact ⟨(decodeTask_rule w o b0 i0 x0 _ f0).2.2, (decodeTask_rule w o b1 i1 x1 _ f1).2.2,
    (decodeTask_rule w o b2 i2 x2 _ f2).2.2⟩

end InastitchCpp

namespace MainCpp

theorem tick_of_eof (w : Externals) (o : Options) (s : LoopState FileContext)
    (h : ((tickSync w o s).eofContext0 && (tickSync w o s).eofContext1 &&
      (tickSync w o s).eofContext2) = true) :
    tick w o s = tickBreak s (tickSync w o s) := by
  unfold tick
  dsimp only
  rw [if_pos h]

theorem tick_of_not_eof (w : Externals) (o : Options) (s : LoopState FileContext)
    (h : ¬ ((tickSync w o s).eofContext0 && (tickSync w o s).eofContext1 &&
      (tickSync w o s).eofContext2) = true) :
    tick w o s = tickRest w o s (tickSync w o s) := by
  unfold tick
  dsimp only
  rw [if_neg h]

theorem tick_eof_flags (w : Externals) (o : Options) (s : LoopState FileContext) :
    (tick w o s).eofContext0 = (tickSync w o s).eofContext0 ∧
    (tick w o s).eofContext1 = (tickSync w o s).eofContext1 ∧
    (tick w o s).eofContext2 = (tickSync w o s).eofContext2 := by
  unfold tick
  dsimp only
  split <;> exact ⟨rfl, rfl, rfl⟩

theorem decodeStep_fresh (w : Externals) (o : Options) (b : Bool) (i : Nat) (x : String)
    (c : FileContext) (f : List FileWrite) (h : c.timeDelay < o.maxDelay) :
    (decodeStep w o b i x c f).1 = decodeJpeg w c := by
  unfold decodeStep
  rw [if_pos h]

theorem decodeStep_stale (w : Externals) (o : Options) (b : Bool) (i : Nat) (x : String)
    (c : FileContext) (f : List FileWrite) (h : o.maxDelay ≤ c.timeDelay) :
    (decodeStep w o b i x c f).1 = decodeWhite c := by
  unfold decodeStep
  rw [if_neg (by omega)]

/-- In `main.cpp` a tick that is not left by `break` sends every source
whose lag is below `maxDelay` to the JPEG decoder, whatever the size of its
payload. -/
theorem tick_eligible_decoded (w : Externals) (o : Options) (s : LoopState FileContext)
    (h : (tick w o s).exited = false) :
    ((tickSync w o s).ctx0.timeDelay < o.maxDelay →
      SentToDecoder w (tickSync w o s).ctx0 (tick w o s).next.ctx0) ∧
    ((tickSync w o s).ctx1.timeDelay < o.maxDelay →
      SentToDecoder w (tickSync w o s).ctx1 (tick w o s).next.ctx1) ∧
    ((tickSync w o s).ctx2.timeDelay < o.maxDelay →
      SentToDecoder w (tickSync w o s).ctx2 (tick w o s).next.ctx2) := by
  by_cases e : ((tickSync w o s).eofContext0 && (tickSync w o s).eofContext1 &&
      (tickSync w o s).eofContext2) = true
  · rw [tick_of_eof w o s e] at h
    simp [tickBreak] at h
  · rw [tick_of_not_eof w o s e]
    refine ⟨fun h0 => ?_, fun h1 => ?_, fun h2 => ?_⟩
    · simp only [tickRest]
      rw [decodeStep_fresh w o _ _ _ _ _ h0]
      exact ⟨rfl, rfl, rfl⟩
    · simp only [tickRest]
      rw [decodeStep_fresh w o _ _ _ _ _ h1]
      exact ⟨rfl, rfl, rfl⟩
    · simp only [tickRest]
      rw [decodeStep_fresh w o _ _ _ _ _ h2]
      exact ⟨rfl, rfl, rfl⟩

end MainCpp

/-- C5: `inastitch.cpp` white-fills every source whose payload is empty
after the advance (first part, for all inputs), but `main.cpp` does not:
with three sources stamped 100, a lag ceiling of 50 and an advance of
source 0 that returns no bytes, the tick is not left by `break`, source 0
is eligible (lag 0) with `jpegBufferSize == 0`, and the decode stage calls
the JPEG decoder on it (one `decode` call, `rgbaBuffer` set, buffer holding
the decoder's output 1, not `0xFF`). -/
theorem c5_empty_payload_decode (w : InastitchCpp.Externals) (o : Options)
    (s : LoopState InastitchCpp.GenericInputStreamContext) :
    (((InastitchCpp.tickSync w o s).ctx0.jpegBufferSize = 0 →
        InastitchCpp.WhiteFilled (InastitchCpp.tickSync w o s).ctx0
          (InastitchCpp.tick w o s).next.ctx0) ∧
      ((InastitchCpp.tickSync w o s).ctx1.jpegBufferSize = 0 →
        InastitchCpp.WhiteFilled (InastitchCpp.tickSync w o s).ctx1
          (InastitchCpp.tick w o s).next.ctx1) ∧
      ((InastitchCpp.tickSync w o s).ctx2.jpegBufferSize = 0 →
        InastitchCpp.WhiteFilled (InastitchCpp.tickSync w o s).ctx2
          (InastitchCpp.tick w o s).next.ctx2)) ∧
    (MainCpp.emptyPayloadTick.exited = false ∧
      MainCpp.emptyPayloadTick.next.ctx0.timeDelay < (demoOptions 50 10).maxDelay ∧
      MainCpp.emptyPayloadTick.next.ctx0.jpegBufferSize = 0 ∧
      MainCpp.emptyPayloadTick.next.ctx0.decodeCalls = (MainCpp.ctxAt 100).decodeCalls + 1 ∧
      MainCpp.emptyPayloadTick.next.ctx0.rgbaBuffer = BufferPtr.decoderRgba ∧
      MainCpp.emptyPayloadTick.next.ctx0.decoderRgba 0 = 1) :=
  ⟨InastitchCpp.tick_empty_payload_white w o s, by decide⟩

/-! ## Loop exit -/

theorem add64_one_of_lt {n : Nat} (h : n + 1 < U64) : add64 n 1 = n + 1 := by
  unfold add64
  exact Nat.mod_eq_of_lt h

theorem nthTick_is_body {Ctx : Type} (cond : LoopState Ctx → Bool)
    (body : LoopState Ctx → Tick Ctx) :
    ∀ (n : Nat) (s : LoopState Ctx) (k : Tick Ctx),
      nthTick cond body n s = some k → ∃ x, cond x = true ∧ k = body x := by
  intro n
  induction n with
  | zero =>
    intro s k h
    unfold nthTick at h
    by_cases c : cond s = true
    · rw [if_pos c] at h
      exact ⟨s, c, (Option.some.inj h).symm⟩
    · rw [if_neg c] at h
      exact absurd h (by simp)
  | succ m ih =>
    intro s k h
    unfold nthTick at h
    by_cases c : cond s = true
    · rw [if_pos c] at h
      dsimp only at h
      by_cases e : (body s).exited = true
      · rw [if_pos e] at h
        exact absurd h (by simp)
      · rw [if_neg e] at h
        exact ih _ _ h
    · rw [if_neg c] at h
      exact absurd h (by simp)

theorem whileLoop_of_nthTick_exit {Ctx : Type} (cond : LoopState Ctx → Bool)
    (body : LoopState Ctx → Tick Ctx) :
    ∀ (n : Nat) (s : LoopState Ctx) (k : Tick Ctx),
      nthTick cond body n s = some k → k.exited = true →
        whileLoop cond body (n + 1) s = some k.next := by
  intro n
  induction n with
  | zero =>
    intro s k h hk
    unfold nthTick at h
    unfold whileLoop
    by_cases c : cond s = true
    · rw [if_pos c] at h
      have e : body s = k := Option.some.inj h
      rw [if_pos c]
      dsimp only
      rw [e, if_pos hk]
    · rw [if_neg c] at h
      exact absurd h (by simp)
  | succ m ih =>
    intro s k h hk
    unfold nthTick at h
    unfold whileLoop
    by_cases c : cond s = true
    · rw [if_pos c] at h
      dsimp only at h
      rw [if_pos c]
      dsimp only
      by_cases e : (body s).exited = true
      · rw [if_pos e] at h
        exact absurd h (by simp)
      · rw [if_neg e] at h
        rw [if_neg e]
        exact ih _ _ h hk
    · rw [if_neg c] at h
      exact absurd h (by simp)

/-- The frame counter on leaving tick `n` of a run, for a loop body that
leaves `frameCount` alone when it breaks and increments it otherwise. -/
theorem nthTick_frameCount {Ctx : Type} (cond : LoopState Ctx → Bool)
    (body : LoopState Ctx → Tick Ctx)
    (hb : ∀ s, (body s).next.frameCount =
      if (body s).exited = true then s.frameCount else add64 s.frameCount 1) :
    ∀ (n : Nat) (s : LoopState Ctx) (k : Tick Ctx),
      nthTick cond body n s = some k → s.frameCount + n < U64 →
        k.next.frameCount =
          if k.exited = true then s.frameCount + n else add64 (s.frameCount + n) 1 := by
  intro n
  induction n with
  | zero =>
    intro s k h _
    unfold nthTick at h
    by_cases c : cond s = true
    · rw [if_pos c] at h
      have e : body s = k := Option.some.inj h
      rw [← e, hb s]
      rfl
    · rw [if_neg c] at h
      exact absurd h (by simp)
  | succ m ih =>
    intro s k h hlt
    unfold nthTick at h
    by_cases c : cond s = true
    · rw [if_pos c] at h
      dsimp only at h
      by_cases e : (body s).exited = true
      · rw [if_pos e] at h
        exact absurd h (by simp)
      · rw [if_neg e] at h
        have hs : (body s).next.frameCount = s.frameCount + 1 := by
          rw [hb s, if_neg e]
          exact add64_one_of_lt (by omega)
        have r := ih _ _ h (by omega)
        rw [hs] at r
        rw [r]
        have a : s.frameCount + 1 + m = s.frameCount + (m + 1) := by omega
        rw [a]
    · rw [if_neg c] at h
      exact absurd h (by simp)

namespace InastitchCpp

/-- The loop body of `inastitch.cpp` never leaves the loop. -/
theorem tick_never_exits (w : Externals) (o : Options)
    (s : LoopState GenericInputStreamContext) :
    (tick w o s).exited = false ∧ (tick w o s).composed.isSome = true ∧
      (tick w o s).next.frameCount = add64 s.frameCount 1 := by
  rw [tick_eq]
  exact ⟨rfl, rfl, rfl⟩

end InastitchCpp

namespace MainCpp

theorem tick_exited (w : Externals) (o : Options) (s : LoopState FileContext) :
    (tick w o s).exited =
      ((tick w o s).eofContext0 && (tick w o s).eofContext1 && (tick w o s).eofContext2) := by
  by_cases e : ((tickSync w o s).eofContext0 && (tickSync w o s).eofContext1 &&
      (tickSync w o s).eofContext2) = true
  · rw [tick_of_eof w o s e]
    simp only [tickBreak]
    exact e.symm
  · rw [tick_of_not_eof w o s e]
    simp only [tickRest]
    exact ((Bool.not_eq_true _).mp e).symm

theorem tick_frameCount (w : Externals) (o : Options) (s : LoopState FileContext) :
    (tick w o s).next.frameCount =
      if (tick w o s).exited = true then s.frameCount else add64 s.frameCount 1 := by
  by_cases e : ((tickSync w o s).eofContext0 && (tickSync w o s).eofContext1 &&
      (tickSync w o s).eofContext2) = true
  · rw [tick_of_eof w o s e]
    rfl
  · rw [tick_of_not_eof w o s e]
    rfl

theorem tick_composed (w : Externals) (o : Options) (s : LoopState FileContext) :
    (tick w o s).composed.isSome = !(tick w o s).exited := by
  by_cases e : ((tickSync w o s).eofContext0 && (tickSync w o s).eofContext1 &&
      (tickSync w o s).eofContext2) = true
  · rw [tick_of_eof w o s e]
    rfl
  · rw [tick_of_not_eof w o s e]
    rfl

/-- In `main.cpp` a tick in which the three advances all report exhaustion
leaves the loop without drawing; when it is tick `N` of a run started with
`frameCount` 0, the loop ends there with `frameCount` equal to `N`. -/
theorem terminal_tick (w : Externals) (o : Options) (s : LoopState FileContext) (N : Nat)
    (k : Tick FileContext) (h : tickAt w o N s = some k) (h0 : s.frameCount = 0) (hN : N < U64)
    (e0 : k.eofContext0 = true) (e1 : k.eofContext1 = true) (e2 : k.eofContext2 = true) :
    k.exited = true ∧ k.composed = none ∧ renderLoop w o (N + 1) s = some k.next ∧
      k.next.frameCount = N := by
  obtain ⟨x, -, hx⟩ := nthTick_is_body _ _ N s k h
  have hk : k.exited = true := by
    rw [hx, tick_exited, ← hx, e0, e1, e2]
    rfl
  have hc : k.composed = none := by
    have := tick_composed w o x
    rw [← hx, hk] at this
    simpa using this
  refine ⟨hk, hc, whileLoop_of_nthTick_exit _ _ N s k h hk, ?_⟩
  have r := nthTick_frameCount _ _ (tick_frameCount w o) N s k h (by omega)
  rw [r, if_pos hk, h0]
  omega

end MainCpp

/-- C6: `main.cpp` ends the run on full exhaustion (first part, for all inputs: a
tick in which the three advances report exhaustion leaves the loop without
drawing, and as tick `N` of a run it ends the loop with `frameCount == N`),
but `inastitch.cpp` does not (second part): no tick of it leaves the loop,
and with three sources exhausted at tick 0 the tick draws a frame and
counts it, the loop runs on and ends only at the dump ceiling (here 3) with
`frameCount == 3`, not 0. -/
theorem c6_all_exhausted_terminal :
    (∀ (w : MainCpp.Externals) (o : Options) (s : LoopState MainCpp.FileContext) (N : Nat)
        (k : Tick MainCpp.FileContext),
        MainCpp.tickAt w o N s = some k → s.frameCount = 0 → N < U64 →
        k.eofContext0 = true → k.eofContext1 = true → k.eofContext2 = true →
          k.exited = true ∧ k.composed = none ∧
            MainCpp.renderLoop w o (N + 1) s = some k.next ∧ k.next.frameCount = N) ∧
    (∀ (w : InastitchCpp.Externals) (o : Options)
        (s : LoopState InastitchCpp.GenericInputStreamContext),
        (InastitchCpp.tick w o s).exited = false) ∧
    ((InastitchCpp.tick (InastitchCpp.demoExternals 0 0 0) (demoOptions 50 3)
        InastitchCpp.exhaustedState).eofContext0 = true ∧
      (InastitchCpp.tick (InastitchCpp.demoExternals 0 0 0) (demoOptions 50 3)
        InastitchCpp.exhaustedState).eofContext1 = true ∧
      (InastitchCpp.tick (InastitchCpp.demoExternals 0 0 0) (demoOptions 50 3)
        InastitchCpp.exhaustedState).eofContext2 = true ∧
      (InastitchCpp.tick (InastitchCpp.demoExternals 0 0 0) (demoOptions 50 3)
        InastitchCpp.exhaustedState).exited = false ∧
      (InastitchCpp.tick (InastitchCpp.demoExternals 0 0 0) (demoOptions 50 3)
        InastitchCpp.exhaustedState).composed = some [0] ∧
      (InastitchCpp.tick (InastitchCpp.demoExternals 0 0 0) (demoOptions 50 3)
        InastitchCpp.exhaustedState).next.frameCount = 1 ∧
      (InastitchCpp.renderLoop (InastitchCpp.demoExternals 0 0 0) (demoOptions 50 3) 2
        InastitchCpp.exhaustedState).isNone = true ∧
      (InastitchCpp.renderLoop (InastitchCpp.demoExternals 0 0 0) (demoOptions 50 3) 3
        InastitchCpp.exhaustedState).map (fun s => s.frameCount) = some 3) :=
  ⟨fun w o s N k h h0 hN e0 e1 e2 => MainCpp.terminal_tick w o s N k h h0 hN e0 e1 e2,
    fun w o s => (InastitchCpp.tick_never_exits w o s).1, by decide⟩

/-- C7: in both drivers a tick in which not all three sources report
exhaustion (so in particular one in which at least one but not all do)
does not leave the loop: it runs the rest of the body (decode, draw calls,
read-back, counters), a frame is composed, and `frameCount` is incremented
by one (as a `uint64_t`; by exactly one when it does not overflow). In
`inastitch.cpp` this holds of every tick. -/
theorem c7_partial_exhaustion_continues (wi : InastitchCpp.Externals) (wm : MainCpp.Externals)
    (o : Options) (si : LoopState InastitchCpp.GenericInputStreamContext)
    (sm : LoopState MainCpp.FileContext)
    (hm' : ¬ ((MainCpp.tick wm o sm).eofContext0 = true ∧
      (MainCpp.tick wm o sm).eofContext1 = true ∧
      (MainCpp.tick wm o sm).eofContext2 = true)) :
    ((InastitchCpp.tick wi o si).exited = false ∧
      InastitchCpp.tick wi o si = InastitchCpp.tickRest wi o si (InastitchCpp.tickSync wi o si) ∧
      (InastitchCpp.tick wi o si).composed.isSome = true ∧
      (InastitchCpp.tick wi o si).next.frameCount = add64 si.frameCount 1 ∧
      (si.frameCount + 1 < U64 →
        (InastitchCpp.tick wi o si).next.frameCount = si.frameCount + 1)) ∧
    ((MainCpp.tick wm o sm).exited = false ∧
      MainCpp.tick wm o sm = MainCpp.tickRest wm o sm (MainCpp.tickSync wm o sm) ∧
      (MainCpp.tick wm o sm).composed.isSome = true ∧
      (MainCpp.tick wm o sm).next.frameCount = add64 sm.frameCount 1 ∧
      (sm.frameCount + 1 < U64 → (MainCpp.tick wm o sm).next.frameCount = sm.frameCount + 1)) := by
  obtain ⟨a, b, c⟩ := InastitchCpp.tick_never_exits wi o si
  refine ⟨⟨a, InastitchCpp.tick_eq wi o si, b, c, fun h => ?_⟩, ?_⟩
  · rw [c]
    exact add64_one_of_lt h
  · have hx : (MainCpp.tick wm o sm).exited = false := by
      rw [MainCpp.tick_exited]
      cases h0 : (MainCpp.tick wm o sm).eofContext0
      · rfl
      · cases h1 : (MainCpp.tick wm o sm).eofContext1
        · rfl
        · cases h2 : (MainCpp.tick wm o sm).eofContext2
          · rfl
          · exact absurd ⟨h0, h1, h2⟩ hm'
    have hf := MainCpp.tick_frameCount wm o sm
    rw [hx] at hf
    have hc := MainCpp.tick_composed wm o sm
    rw [hx] at hc
    have hr : MainCpp.tick wm o sm = MainCpp.tickRest wm o sm (MainCpp.tickSync wm o sm) := by
      apply MainCpp.tick_of_not_eof
      intro e
      rw [MainCpp.tick_of_eof wm o sm e] at hx
      exact absurd hx (by simp [MainCpp.tickBreak])
    refine ⟨hx, hr, hc, hf, fun h => ?_⟩
    rw [hf]
    exact add64_one_of_lt h

/-- C7 on a concrete tick of each driver: source 0 reports exhaustion,
sources 1 and 2 deliver a frame; the loop goes on and `frameCount` goes
from 0 to 1. -/
theorem c7_partial_exhaustion_witness :
    ((InastitchCpp.tick (InastitchCpp.demoExternals 0 1 1) (demoOptions 50 10)
        InastitchCpp.partialState).eofContext0 = true ∧
      (InastitchCpp.tick (InastitchCpp.demoExternals 0 1 1) (demoOptions 50 10)
        InastitchCpp.partialState).eofContext1 = false ∧
      (MainCpp.tick (MainCpp.demoExternals 0 1 1) (demoOptions 50 10)
        MainCpp.partialState).eofContext0 = true ∧
      (MainCpp.tick (MainCpp.demoExternals 0 1 1) (demoOptions 50 10)
        MainCpp.partialState).eofContext1 = false) ∧
    ((InastitchCpp.tick (InastitchCpp.demoExternals 0 1 1) (demoOptions 50 10)
        InastitchCpp.partialState).exited = false ∧
      (InastitchCpp.tick (InastitchCpp.demoExternals 0 1 1) (demoOptions 50 10)
        InastitchCpp.partialState).next.frameCount = InastitchCpp.partialState.frameCount + 1) ∧
    ((MainCpp.tick (MainCpp.demoExternals 0 1 1) (demoOptions 50 10)
        MainCpp.partialState).exited = false ∧
      (MainCpp.tick (MainCpp.demoExternals 0 1 1) (demoOptions 50 10)
        MainCpp.partialState).next.frameCount = MainCpp.partialState.frameCount + 1) :=
  have h := c7_partial_exhaustion_continues (InastitchCpp.demoExternals 0 1 1)
    (MainCpp.demoExternals 0 1 1) (demoOptions 50 10) InastitchCpp.partialState
    MainCpp.partialState (by decide)
  ⟨by decide, ⟨h.1.1, h.1.2.2.2.2 (by decide)⟩, ⟨h.2.1, h.2.2.2.2.2 (by decide)⟩⟩

/-! ## Pixel read-back -/

theorem nthTick_succ_eq {Ctx : Type} (cond : LoopState Ctx → Bool)
    (body : LoopState Ctx → Tick Ctx) :
    ∀ (t : Nat) (s : LoopState Ctx),
      nthTick cond body (t + 1) s =
        (nthTick cond body t s).bind (fun k =>
          if k.exited = true then none
          else if cond k.next = true then some (body k.next) else none) := by
  intro t
  induction t with
  | zero =>
    intro s
    simp only [nthTick]
    by_cases c : cond s = true
    · simp [c]
    · simp [c]
  | succ m ih =>
    intro s
    rw [nthTick]
    by_cases c : cond s = true
    · rw [if_pos c]
      dsimp only
      by_cases e : (body s).exited = true
      · rw [if_pos e]
        conv => rhs; rw [nthTick]
        rw [if_pos c]
        dsimp only
        rw [if_pos e]
        rfl
      · rw [if_neg e, ih]
        conv => rhs; rw [nthTick]
        rw [if_pos c]
        dsimp only
        rw [if_neg e]
    · rw [if_neg c]
      conv => rhs; rw [nthTick]
      rw [if_neg c]
      rfl

/-- Two consecutive ticks of a run: the later one is the loop body run in
the state the earlier one left, and the earlier one did not break. -/
theorem nthTick_step {Ctx : Type} (cond : LoopState Ctx → Bool)
    (body : LoopState Ctx → Tick Ctx) (t : Nat) (s : LoopState Ctx) (k k' : Tick Ctx)
    (h : nthTick cond body t s = some k) (h' : nthTick cond body (t + 1) s = some k') :
    k.exited = false ∧ k' = body k.next := by
  rw [nthTick_succ_eq, h] at h'
  simp only [Option.some_bind] at h'
  by_cases e : k.exited = true
  · rw [if_pos e] at h'
    exact absurd h' (by simp)
  · rw [if_neg e] at h'
    by_cases c : cond k.next = true
    · rw [if_pos c] at h'
      exact ⟨(Bool.not_eq_true _).mp e, (Option.some.inj h').symm⟩
    · rw [if_neg c] at h'
      exact absurd h' (by simp)

theorem readbackPbo_idx (r : Nat) (pbo : Nat → Option Frame) (f : Frame) :
    (readbackPbo r pbo f).r_idx = (r + 1) % 2 ∧ (readbackPbo r pbo f).p_idx = r % 2 := by
  unfold readbackPbo pboCount
  dsimp only
  omega

namespace InastitchCpp

theorem tick_readsBack (w : Externals) (o : Options) (s : LoopState GenericInputStreamContext)
    (_h : (tick w o s).exited = false) : ReadsBack s (tick w o s) := by
  rw [tick_eq]
  exact ⟨_, rfl, rfl, rfl, rfl, rfl⟩

end InastitchCpp

namespace MainCpp

theorem file_tick_readsBack (w : Externals) (o : Options) (s : LoopState FileContext)
    (h : (tick w o s).exited = false) : ReadsBack s (tick w o s) := by
  by_cases e : ((tickSync w o s).eofContext0 && (tickSync w o s).eofContext1 &&
      (tickSync w o s).eofContext2) = true
  · rw [tick_of_eof w o s e] at h
    exact absurd h (by simp [tickBreak])
  · rw [tick_of_not_eof w o s e]
    exact ⟨_, rfl, rfl, rfl, rfl, rfl⟩

end MainCpp

theorem readbackPbo_framebuffer (r : Nat) (pbo : Nat → Option Frame) (f : Frame) :
    (readbackPbo r pbo f).framebuffer = pbo (r % 2) := by
  have hne : ((r + 1) % 2 + 1) % 2 ≠ (r + 1) % 2 := by omega
  have hq : ((r + 1) % 2 + 1) % 2 = r % 2 := by omega
  simp only [readbackPbo, pboCount]
  rw [Function.update_noteq hne, hq]

theorem readbackPbo_slot (r : Nat) (pbo : Nat → Option Frame) (f : Frame) :
    (readbackPbo r pbo f).pbo (readbackPbo r pbo f).r_idx = some f := by
  simp only [readbackPbo]
  exact Function.update_same _ _ _

/-- In a run whose body reads back through the PBOs, the slot mapped at
tick `t + 1` is the one that received the transfer request of tick `t`,
and what is copied to the host is the frame composed at tick `t`. -/
theorem nthTick_maps_previous {Ctx : Type} (cond : LoopState Ctx → Bool)
    (body : LoopState Ctx → Tick Ctx)
    (hb : ∀ s, (body s).exited = false → ReadsBack s (body s))
    (t : Nat) (s : LoopState Ctx) (k k' : Tick Ctx)
    (h : nthTick cond body t s = some k) (h' : nthTick cond body (t + 1) s = some k')
    (hx : k'.exited = false) :
    k'.p_idx = k.next.r_idx ∧ k.composed.isSome = true ∧ k'.framebuffer = k.composed := by
  obtain ⟨e, hk'⟩ := nthTick_step cond body t s k k' h h'
  obtain ⟨x, -, hk⟩ := nthTick_is_body cond body t s k h
  rw [hk] at e
  obtain ⟨f, c1, r1, -, b1, -⟩ := hb x e
  rw [hk'] at hx
  obtain ⟨f', -, -, p2, -, fb2⟩ := hb k.next hx
  rw [← hk] at c1 r1 b1
  rw [← hk'] at p2 fb2
  have i1 := readbackPbo_idx x.r_idx x.pbo f
  have i2 := readbackPbo_idx k.next.r_idx k.next.pbo f'
  have hlt : k.next.r_idx % 2 = k.next.r_idx := by omega
  refine ⟨by omega, by rw [c1]; rfl, ?_⟩
  rw [fb2, c1, readbackPbo_framebuffer, hlt, b1]
  conv => lhs; rw [r1]
  exact readbackPbo_slot _ _ _

/-- C9, as the code has it: in a run of either driver, for two consecutive
ticks `t` and `t + 1` that reach the read-back, the slot `p_idx` mapped at
tick `t + 1` is the slot `r_idx` into which tick `t` requested its
transfer, and what tick `t + 1` copies to the host buffer is the frame
composed at tick `t`. -/
theorem c9_mapped_slot_requested_previous_tick (wi : InastitchCpp.Externals)
    (wm : MainCpp.Externals) (o : Options)
    (si : LoopState InastitchCpp.GenericInputStreamContext)
    (sm : LoopState MainCpp.FileContext) (t : Nat)
    (ki ki' : Tick InastitchCpp.GenericInputStreamContext) (km km' : Tick MainCpp.FileContext)
    (hi : InastitchCpp.tickAt wi o t si = some ki)
    (hi' : InastitchCpp.tickAt wi o (t + 1) si = some ki')
    (hm : MainCpp.tickAt wm o t sm = some km)
    (hm' : MainCpp.tickAt wm o (t + 1) sm = some km') (hx : km'.exited = false) :
    (ki'.p_idx = ki.next.r_idx ∧ ki.composed.isSome = true ∧ ki'.framebuffer = ki.composed) ∧
    (km'.p_idx = km.next.r_idx ∧ km.composed.isSome = true ∧ km'.framebuffer = km.composed) := by
  have xi : ki'.exited = false := by
    obtain ⟨x, -, e⟩ := nthTick_is_body _ _ (t + 1) si ki' hi'
    rw [e]
    exact (InastitchCpp.tick_never_exits wi o x).1
  exact ⟨nthTick_maps_previous _ _ (InastitchCpp.tick_readsBack wi o) t si ki ki' hi hi' xi,
    nthTick_maps_previous _ _ (MainCpp.file_tick_readsBack wm o) t sm km km' hm hm' hx⟩

/-- C9 on ticks 0 and 1 of a concrete run of each driver: tick 1 maps slot
1, the slot tick 0 requested, and copies the frame composed at tick 0. -/
theorem c9_mapped_slot_witness :
    ((InastitchCpp.demoTick1.p_idx = InastitchCpp.demoTick0.next.r_idx ∧
        InastitchCpp.demoTick0.composed.isSome = true ∧
        InastitchCpp.demoTick1.framebuffer = InastitchCpp.demoTick0.composed) ∧
      (MainCpp.demoTick1.p_idx = MainCpp.demoTick0.next.r_idx ∧
        MainCpp.demoTick0.composed.isSome = true ∧
        MainCpp.demoTick1.framebuffer = MainCpp.demoTick0.composed)) ∧
    (InastitchCpp.demoTick1.p_idx = 1 ∧ InastitchCpp.demoTick1.framebuffer = some [0] ∧
      MainCpp.demoTick1.p_idx = 1 ∧ MainCpp.demoTick1.framebuffer = some [0]) :=
  ⟨c9_mapped_slot_requested_previous_tick (InastitchCpp.demoExternals 1 1 1)
      (MainCpp.demoExternals 1 1 1) (demoOptions 50 10) InastitchCpp.demoStart MainCpp.demoStart 0
      InastitchCpp.demoTick0 InastitchCpp.demoTick1 MainCpp.demoTick0 MainCpp.demoTick1
      rfl rfl rfl rfl (by decide),
    by decide⟩

/-- C9 fails as stated at tick 0: in both drivers the first tick of a run
maps slot 0 (`p_idx == 0`) although no transfer was ever requested into it
(tick 0 requests into slot 1, and there is no earlier tick), so what it
copies to the host buffer is the content of a slot never written. -/
theorem c9_counterexample :
    (InastitchCpp.tickAt (InastitchCpp.demoExternals 1 1 1) (demoOptions 50 10) 0
        InastitchCpp.demoStart).map (fun k => (k.next.r_idx, k.p_idx, k.framebuffer))
      = some (1, 0, none) ∧
    InastitchCpp.demoStart.pbo 0 = none ∧
    (MainCpp.tickAt (MainCpp.demoExternals 1 1 1) (demoOptions 50 10) 0
        MainCpp.demoStart).map (fun k => (k.next.r_idx, k.p_idx, k.framebuffer))
      = some (1, 0, none) ∧
    MainCpp.demoStart.pbo 0 = none := by
  decide

theorem framebufferTrace_sync (r : Nat) (pbo : Nat → Option Frame) (fs : List Frame) :
    framebufferTrace readbackSync r pbo fs = fs.map some := by
  induction fs with
  | nil => rfl
  | cons f fs ih =>
    simp only [framebufferTrace, List.map_cons]
    rw [show (readbackSync r pbo f).framebuffer = some f from rfl,
      show (readbackSync r pbo f).r_idx = r from rfl,
      show (readbackSync r pbo f).pbo = pbo from rfl, ih]

theorem framebufferTrace_pbo (fs : List Frame) :
    ∀ (r : Nat) (pbo : Nat → Option Frame),
      framebufferTrace readbackPbo r pbo fs = (pbo (r % 2) :: fs.map some).take fs.length := by
  induction fs with
  | nil =>
    intro r pbo
    rfl
  | cons f fs ih =>
    intro r pbo
    simp only [framebufferTrace, List.map_cons, List.length_cons, List.take_succ_cons]
    rw [ih, readbackPbo_framebuffer]
    have e : (readbackPbo r pbo f).r_idx % 2 = (readbackPbo r pbo f).r_idx := by
      have := readbackPbo_idx r pbo f
      omega
    rw [e, readbackPbo_slot]

/-- C10, as the code has it: run on the same sequence of composed frames
from the state on entry to the loop, the blocking read-back leaves in the
host buffer, at every tick, the frame composed in that tick, and the PBO
read-back leaves there the frame composed one tick earlier (at tick 0 the
content of a slot never written): the PBO contents are the synchronous
ones delayed by one tick. -/
theorem c10_pbo_is_sync_delayed_one_tick (fs : List Frame) :
    framebufferTrace readbackSync 0 (fun _ => none) fs = fs.map some ∧
    framebufferTrace readbackPbo 0 (fun _ => none) fs =
      (none :: framebufferTrace readbackSync 0 (fun _ => none) fs).take fs.length := by
  rw [framebufferTrace_sync, framebufferTrace_pbo]
  exact ⟨rfl, rfl⟩

/-- C10 fails as stated: for the two composed frames `[1]` and `[2]` the
blocking read-back leaves `[1]` then `[2]` in the host buffer, the PBO
read-back leaves the content of an unwritten slot then `[1]`. -/
theorem c10_counterexample :
    framebufferTrace readbackSync 0 (fun _ => none) [[1], [2]] = [some [1], some [2]] ∧
    framebufferTrace readbackPbo 0 (fun _ => none) [[1], [2]] = [none, some [1]] ∧
    framebufferTrace readbackPbo 0 (fun _ => none) [[1], [2]] ≠
      framebufferTrace readbackSync 0 (fun _ => none) [[1], [2]] := by
  decide

/-! ## Runs and counters -/

theorem nthTick_of_nthState {Ctx : Type} (cond : LoopState Ctx → Bool)
    (body : LoopState Ctx → Tick Ctx) :
    ∀ (t : Nat) (s : LoopState Ctx),
      nthTick cond body t s =
        (nthState cond body t s).bind (fun x => if cond x = true then some (body x) else none) := by
  intro t
  induction t with
  | zero =>
    intro s
    simp [nthTick, nthState]
  | succ m ih =>
    intro s
    rw [nthTick_succ_eq, ih, nthState]
    cases nthState cond body m s with
    | none => rfl
    | some x =>
      simp only [Option.some_bind]
      by_cases c : cond x = true
      · by_cases e : (body x).exited = true
        · simp [c, e]
        · simp [c, e]
      · simp [c]

/-- The state after a completed tick is the state on entry to the next. -/
theorem nthState_succ_iff {Ctx : Type} (cond : LoopState Ctx → Bool)
    (body : LoopState Ctx → Tick Ctx) (t : Nat) (s x' : LoopState Ctx) :
    nthState cond body (t + 1) s = some x' ↔
      ∃ x, nthState cond body t s = some x ∧ nthTick cond body t s = some (body x) ∧
        cond x = true ∧ (body x).exited = false ∧ x' = (body x).next := by
  rw [nthState, nthTick_of_nthState]
  cases nthState cond body t s with
  | none => simp
  | some x =>
    simp only [Option.some_bind]
    by_cases c : cond x = true
    · by_cases e : (body x).exited = true
      · simp [c, e]
      · simp only [c, e, if_true]
        constructor
        · intro h
          exact ⟨x, rfl, rfl, c, (Bool.not_eq_true _).mp e, (Option.some.inj h).symm⟩
        · rintro ⟨y, hy, -, -, -, h⟩
          rw [Option.some.inj hy, h]
          simp
    · simp [c]

/-- A tick of a run is the loop body run in the state on entry to it. -/
theorem nthTick_iff {Ctx : Type} (cond : LoopState Ctx → Bool)
    (body : LoopState Ctx → Tick Ctx) (t : Nat) (s : LoopState Ctx) (k : Tick Ctx) :
    nthTick cond body t s = some k ↔
      ∃ x, nthState cond body t s = some x ∧ cond x = true ∧ k = body x := by
  rw [nthTick_of_nthState]
  cases nthState cond body t s with
  | none => simp
  | some x =>
    simp only [Option.some_bind]
    by_cases c : cond x = true
    · simp only [c, if_true]
      constructor
      · intro h
        exact ⟨x, rfl, c, (Option.some.inj h).symm⟩
      · rintro ⟨y, hy, -, h⟩
        rw [Option.some.inj hy, h]
    · simp [c]

theorem markedCount_le {Ctx : Type} (cond : LoopState Ctx → Bool)
    (body : LoopState Ctx → Tick Ctx) (t : Nat) (s : LoopState Ctx) :
    markedCount cond body t s ≤ t := by
  unfold markedCount
  calc List.countP _ (List.range t) ≤ (List.range t).length := List.countP_le_length _
    _ = t := List.length_range t

theorem markedCount_succ {Ctx : Type} (cond : LoopState Ctx → Bool)
    (body : LoopState Ctx → Tick Ctx) (t : Nat) (s : LoopState Ctx) (k : Tick Ctx)
    (h : nthTick cond body t s = some k) :
    markedCount cond body (t + 1) s =
      markedCount cond body t s + (if k.isFrameDumped = true then 1 else 0) := by
  unfold markedCount
  rw [List.range_succ, List.countP_append, List.countP_cons, List.countP_nil]
  simp only [h, Option.map_some', Option.getD_some]
  omega

/-- The two counters along a run: on entry to tick `t`, `frameCount` has
grown by `t` and `frameDumpCount` by the number of marked ticks so far. -/
theorem nthState_counters {Ctx : Type} (cond : LoopState Ctx → Bool)
    (body : LoopState Ctx → Tick Ctx) (hb : CountsFrames body) :
    ∀ (t : Nat) (s x : LoopState Ctx), nthState cond body t s = some x →
      s.frameCount + t < U64 → s.frameDumpCount + t < U64 →
        x.frameCount = s.frameCount + t ∧
        x.frameDumpCount = s.frameDumpCount + markedCount cond body t s := by
  intro t
  induction t with
  | zero =>
    intro s x h _ _
    have e : s = x := Option.some.inj h
    rw [← e]
    exact ⟨rfl, rfl⟩
  | succ m ih =>
    intro s x' h h1 h2
    obtain ⟨x, hx, hk, -, e, hx'⟩ := (nthState_succ_iff cond body m s x').mp h
    obtain ⟨a, b⟩ := ih s x hx (by omega) (by omega)
    obtain ⟨c, d⟩ := (hb x).2 e
    have le := markedCount_le cond body m s
    rw [hx', c, d, markedCount_succ cond body m s (body x) hk, a, b]
    constructor
    · rw [add64_one_of_lt (by omega)]
      omega
    · by_cases f : (body x).isFrameDumped = true
      · rw [if_pos f, if_pos f, add64_one_of_lt (by omega)]
        omega
      · rw [if_neg f, if_neg f]
        omega

namespace InastitchCpp

theorem tick_countsFrames (w : Externals) (o : Options) : CountsFrames (tick w o) := by
  intro x
  rw [tick_eq]
  exact ⟨fun h => absurd h (by simp [tickRest]), fun _ => ⟨rfl, rfl⟩⟩

end InastitchCpp

namespace MainCpp

theorem file_tick_countsFrames (w : Externals) (o : Options) : CountsFrames (tick w o) := by
  intro x
  by_cases e : ((tickSync w o x).eofContext0 && (tickSync w o x).eofContext1 &&
      (tickSync w o x).eofContext2) = true
  · rw [tick_of_eof w o x e]
    exact ⟨fun _ => ⟨rfl, rfl, rfl⟩, fun h => absurd h (by simp [tickBreak])⟩
  · rw [tick_of_not_eof w o x e]
    exact ⟨fun h => absurd h (by simp [tickRest]), fun _ => ⟨rfl, rfl⟩⟩

end MainCpp

/-! ## Dump marking and dump indices -/

namespace InastitchCpp

theorem tick_isFrameDumped (w : Externals) (o : Options)
    (s : LoopState GenericInputStreamContext) :
    (tick w o s).isFrameDumped =
      (decide (s.frameCount ≥ o.frameDumpOffsetId) &&
        decide ((tick w o s).frameAbsTime ≥ o.frameDumpOffsetTime)) := by
  rw [tick_eq]
  rfl

theorem tick_frameDumpIdx (w : Externals) (o : Options)
    (s : LoopState GenericInputStreamContext) :
    (tick w o s).frameDumpIdx =
      if o.isDumpFrameIdRelativeToOffset = true then s.frameDumpCount else s.frameCount := by
  rw [tick_eq]
  rfl

end InastitchCpp

namespace MainCpp

theorem file_tick_isFrameDumped (w : Externals) (o : Options) (s : LoopState FileContext)
    (h : (tick w o s).exited = false) :
    (tick w o s).isFrameDumped =
      (decide (s.frameCount ≥ o.frameDumpOffsetId) &&
        decide ((tick w o s).frameAbsTime ≥ o.frameDumpOffsetTime)) := by
  by_cases e : ((tickSync w o s).eofContext0 && (tickSync w o s).eofContext1 &&
      (tickSync w o s).eofContext2) = true
  · rw [tick_of_eof w o s e] at h
    exact absurd h (by simp [tickBreak])
  · rw [tick_of_not_eof w o s e]
    rfl

theorem file_tick_frameDumpIdx (w : Externals) (o : Options) (s : LoopState FileContext)
    (h : (tick w o s).exited = false) :
    (tick w o s).frameDumpIdx =
      if o.isDumpFrameIdRelativeToOffset = true then s.frameDumpCount else s.frameCount := by
  by_cases e : ((tickSync w o s).eofContext0 && (tickSync w o s).eofContext1 &&
      (tickSync w o s).eofContext2) = true
  · rw [tick_of_eof w o s e] at h
    exact absurd h (by simp [tickBreak])
  · rw [tick_of_not_eof w o s e]
    rfl

end MainCpp

/-- C11: in every tick of both drivers that gets past the end-of-file test
(every tick of `inastitch.cpp`; in `main.cpp` every tick not left by
`break`), `isFrameDumped` is true if and only if
`frameCount >= frameDumpOffsetId` and the tick's reference time
`frameAbsTime >= frameDumpOffsetTime`. -/
theorem c11_isFrameDumped_iff (wi : InastitchCpp.Externals) (wm : MainCpp.Externals)
    (o : Options) (si : LoopState InastitchCpp.GenericInputStreamContext)
    (sm : LoopState MainCpp.FileContext) (hx : (MainCpp.tick wm o sm).exited = false) :
    ((InastitchCpp.tick wi o si).isFrameDumped = true ↔
      si.frameCount ≥ o.frameDumpOffsetId ∧
        (InastitchCpp.tick wi o si).frameAbsTime ≥ o.frameDumpOffsetTime) ∧
    ((MainCpp.tick wm o sm).isFrameDumped = true ↔
      sm.frameCount ≥ o.frameDumpOffsetId ∧
        (MainCpp.tick wm o sm).frameAbsTime ≥ o.frameDumpOffsetTime) := by
  rw [InastitchCpp.tick_isFrameDumped, MainCpp.file_tick_isFrameDumped wm o sm hx]
  simp

/-- C11 on tick 0 of a concrete run of each driver with
`frameDumpOffsetId` 1: the tick is not marked, since `frameCount` is 0. -/
theorem c11_isFrameDumped_witness :
    (((InastitchCpp.tick (InastitchCpp.demoExternals 1 1 1) (dumpOptions 1 0 false)
          InastitchCpp.demoStart).isFrameDumped = true ↔
        InastitchCpp.demoStart.frameCount ≥ (dumpOptions 1 0 false).frameDumpOffsetId ∧
          (InastitchCpp.tick (InastitchCpp.demoExternals 1 1 1) (dumpOptions 1 0 false)
            InastitchCpp.demoStart).frameAbsTime ≥ (dumpOptions 1 0 false).frameDumpOffsetTime) ∧
      ((MainCpp.tick (MainCpp.demoExternals 1 1 1) (dumpOptions 1 0 false)
          MainCpp.demoStart).isFrameDumped = true ↔
        MainCpp.demoStart.frameCount ≥ (dumpOptions 1 0 false).frameDumpOffsetId ∧
          (MainCpp.tick (MainCpp.demoExternals 1 1 1) (dumpOptions 1 0 false)
            MainCpp.demoStart).frameAbsTime ≥ (dumpOptions 1 0 false).frameDumpOffsetTime)) ∧
    ((InastitchCpp.tick (InastitchCpp.demoExternals 1 1 1) (dumpOptions 1 0 false)
        InastitchCpp.demoStart).isFrameDumped = false ∧
      (MainCpp.tick (MainCpp.demoExternals 1 1 1) (dumpOptions 1 0 false)
        MainCpp.demoStart).isFrameDumped = false ∧
      (InastitchCpp.tick (InastitchCpp.demoExternals 1 1 1) (dumpOptions 0 0 false)
        InastitchCpp.demoStart).isFrameDumped = true ∧
      (MainCpp.tick (MainCpp.demoExternals 1 1 1) (dumpOptions 0 0 false)
        MainCpp.demoStart).isFrameDumped = true) :=
  ⟨c11_isFrameDumped_iff (InastitchCpp.demoExternals 1 1 1) (MainCpp.demoExternals 1 1 1)
      (dumpOptions 1 0 false) InastitchCpp.demoStart MainCpp.demoStart (by decide),
    by decide⟩

namespace InastitchCpp

/-- The dump index of tick `t` of a run of `inastitch.cpp` that starts with
both counters at 0. -/
theorem tickAt_frameDumpIdx (w : Externals) (o : Options)
    (s : LoopState GenericInputStreamContext) (t : Nat) (k : Tick GenericInputStreamContext)
    (h : tickAt w o t s = some k) (h0 : s.frameCount = 0) (h1 : s.frameDumpCount = 0)
    (ht : t < U64) :
    (∃ x, stateAt w o t s = some x ∧ k = tick w o x ∧ x.frameCount = t ∧
      x.frameDumpCount = markedBefore w o t s ∧
      k.frameDumpIdx =
        if o.isDumpFrameIdRelativeToOffset = true then x.frameDumpCount else x.frameCount) ∧
    (o.isDumpFrameIdRelativeToOffset = true → k.frameDumpIdx = markedBefore w o t s) ∧
    (o.isDumpFrameIdRelativeToOffset = false → k.frameDumpIdx = t) := by
  obtain ⟨x, hx, -, hk⟩ := (nthTick_iff _ _ t s k).mp h
  obtain ⟨a, b⟩ := nthState_counters _ _ (tick_countsFrames w o) t s x hx (by omega) (by omega)
  rw [h0, Nat.zero_add] at a
  rw [h1, Nat.zero_add] at b
  have e := tick_frameDumpIdx w o x
  rw [← hk] at e
  refine ⟨⟨x, hx, hk, a, b, e⟩, fun f => ?_, fun f => ?_⟩
  · rw [e, if_pos f]
    exact b
  · rw [e, if_neg (by simp [f])]
    exact a

end InastitchCpp

namespace MainCpp

/-- The dump index of tick `t` of a run of `main.cpp` that starts with both
counters at 0, for a tick not left by `break`. -/
theorem file_tickAt_frameDumpIdx (w : Externals) (o : Options) (s : LoopState FileContext)
    (t : Nat) (k : Tick FileContext) (h : tickAt w o t s = some k) (hx : k.exited = false)
    (h0 : s.frameCount = 0) (h1 : s.frameDumpCount = 0) (ht : t < U64) :
    (∃ x, stateAt w o t s = some x ∧ k = tick w o x ∧ x.frameCount = t ∧
      x.frameDumpCount = markedBefore w o t s ∧
      k.frameDumpIdx =
        if o.isDumpFrameIdRelativeToOffset = true then x.frameDumpCount else x.frameCount) ∧
    (o.isDumpFrameIdRelativeToOffset = true → k.frameDumpIdx = markedBefore w o t s) ∧
    (o.isDumpFrameIdRelativeToOffset = false → k.frameDumpIdx = t) := by
  obtain ⟨x, hs, -, hk⟩ := (nthTick_iff _ _ t s k).mp h
  obtain ⟨a, b⟩ :=
    nthState_counters _ _ (file_tick_countsFrames w o) t s x hs (by omega) (by omega)
  rw [h0, Nat.zero_add] at a
  rw [h1, Nat.zero_add] at b
  rw [hk] at hx
  have e := file_tick_frameDumpIdx w o x hx
  rw [← hk] at e
  refine ⟨⟨x, hs, hk, a, b, e⟩, fun f => ?_, fun f => ?_⟩
  · rw [e, if_pos f]
    exact b
  · rw [e, if_neg (by simp [f])]
    exact a

end MainCpp

/-- C12: in every tick of both drivers the dump index `frameDumpIdx` is
`frameDumpCount` when the frame-dump-id-from-0 flag is set and `frameCount`
otherwise (the counters as on entry to the tick). Along a run that starts
with both counters at 0, `frameDumpCount` on entry to tick `t` is the number
of marked ticks before `t`, so with the flag set the successive marked
ticks get the indices 0, 1, 2, ... without gaps; with the flag clear tick
`t` gets index `t`. -/
theorem c12_dump_index (wi : InastitchCpp.Externals) (wm : MainCpp.Externals) (o : Options)
    (si : LoopState InastitchCpp.GenericInputStreamContext) (sm : LoopState MainCpp.FileContext)
    (t : Nat) (ki : Tick InastitchCpp.GenericInputStreamContext) (km : Tick MainCpp.FileContext)
    (hi : InastitchCpp.tickAt wi o t si = some ki) (hm : MainCpp.tickAt wm o t sm = some km)
    (hx : km.exited = false) (hi0 : si.frameCount = 0) (hi1 : si.frameDumpCount = 0)
    (hm0 : sm.frameCount = 0) (hm1 : sm.frameDumpCount = 0) (ht : t < U64) :
    ((∃ x, InastitchCpp.stateAt wi o t si = some x ∧ ki = InastitchCpp.tick wi o x ∧
        x.frameCount = t ∧ x.frameDumpCount = InastitchCpp.markedBefore wi o t si ∧
        ki.frameDumpIdx =
          if o.isDumpFrameIdRelativeToOffset = true then x.frameDumpCount else x.frameCount) ∧
      (o.isDumpFrameIdRelativeToOffset = true →
        ki.frameDumpIdx = InastitchCpp.markedBefore wi o t si) ∧
      (o.isDumpFrameIdRelativeToOffset = false → ki.frameDumpIdx = t)) ∧
    ((∃ x, MainCpp.stateAt wm o t sm = some x ∧ km = MainCpp.tick wm o x ∧
        x.frameCount = t ∧ x.frameDumpCount = MainCpp.markedBefore wm o t sm ∧
        km.frameDumpIdx =
          if o.isDumpFrameIdRelativeToOffset = true then x.frameDumpCount else x.frameCount) ∧
      (o.isDumpFrameIdRelativeToOffset = true →
        km.frameDumpIdx = MainCpp.markedBefore wm o t sm) ∧
      (o.isDumpFrameIdRelativeToOffset = false → km.frameDumpIdx = t)) :=
  ⟨InastitchCpp.tickAt_frameDumpIdx wi o si t ki hi hi0 hi1 ht,
    MainCpp.file_tickAt_frameDumpIdx wm o sm t km hm hx hm0 hm1 ht⟩

/-- C12 on a concrete run of each driver with dumps from frame 1 on and the
flag set: tick 0 is not marked, ticks 1 and 2 are marked and get the dump
indices 0 and 1. -/
theorem c12_dump_index_witness :
    ((((dumpOptions 1 0 true).isDumpFrameIdRelativeToOffset = true →
          InastitchCpp.reindexTick2.frameDumpIdx =
            InastitchCpp.markedBefore (InastitchCpp.demoExternals 1 1 1) (dumpOptions 1 0 true) 2
              InastitchCpp.demoStart) ∧
        ((dumpOptions 1 0 true).isDumpFrameIdRelativeToOffset = true →
          MainCpp.reindexTick2.frameDumpIdx =
            MainCpp.markedBefore (MainCpp.demoExternals 1 1 1) (dumpOptions 1 0 true) 2
              MainCpp.demoStart))) ∧
    (InastitchCpp.reindexTick0.isFrameDumped = false ∧
      InastitchCpp.reindexTick1.isFrameDumped = true ∧
      InastitchCpp.reindexTick1.frameDumpIdx = 0 ∧
      InastitchCpp.reindexTick2.isFrameDumped = true ∧
      InastitchCpp.reindexTick2.frameDumpIdx = 1 ∧
      MainCpp.reindexTick0.isFrameDumped = false ∧
      MainCpp.reindexTick1.isFrameDumped = true ∧
      MainCpp.reindexTick1.frameDumpIdx = 0 ∧
      MainCpp.reindexTick2.isFrameDumped = true ∧
      MainCpp.reindexTick2.frameDumpIdx = 1) :=
  have h := c12_dump_index (InastitchCpp.demoExternals 1 1 1) (MainCpp.demoExternals 1 1 1)
    (dumpOptions 1 0 true) InastitchCpp.demoStart MainCpp.demoStart 2
    InastitchCpp.reindexTick2 MainCpp.reindexTick2 rfl rfl (by decide) rfl rfl rfl rfl
    (by decide)
  ⟨⟨h.1.2.1, h.2.2.1⟩, by decide⟩

/-- The counters of a run that starts with both at 0: their values on
entry to tick `t` and what tick `t` does to them. -/
theorem nthState_counter_steps {Ctx : Type} (cond : LoopState Ctx → Bool)
    (body : LoopState Ctx → Tick Ctx) (hb : CountsFrames body) (t : Nat)
    (s x : LoopState Ctx) (h : nthState cond body t s = some x) (h0 : s.frameCount = 0)
    (h1 : s.frameDumpCount = 0) (ht : t < U64) :
    x.frameCount = t ∧ x.frameDumpCount = markedCount cond body t s ∧
    x.frameDumpCount ≤ x.frameCount ∧
    (∀ k, nthTick cond body t s = some k →
      (k.exited = true →
        k.next.frameCount = x.frameCount ∧ k.next.frameDumpCount = x.frameDumpCount) ∧
      (k.exited = false → t + 1 < U64 →
        k.next.frameCount = x.frameCount + 1 ∧
        k.next.frameDumpCount = x.frameDumpCount + (if k.isFrameDumped = true then 1 else 0) ∧
        k.next.frameDumpCount ≤ k.next.frameCount)) := by
  obtain ⟨a, b⟩ := nthState_counters cond body hb t s x h (by omega) (by omega)
  rw [h0, Nat.zero_add] at a
  rw [h1, Nat.zero_add] at b
  have le := markedCount_le cond body t s
  refine ⟨a, b, by omega, fun k hk => ?_⟩
  obtain ⟨y, hy, -, e⟩ := (nthTick_iff cond body t s k).mp hk
  have exy : y = x := Option.some.inj (hy.symm.trans h)
  rw [exy] at e
  rw [e]
  refine ⟨fun ex => ⟨((hb x).1 ex).1, ((hb x).1 ex).2.1⟩, fun ex lt => ?_⟩
  obtain ⟨c, d⟩ := (hb x).2 ex
  rw [c, d, add64_one_of_lt (by omega)]
  by_cases f : (body x).isFrameDumped = true
  · rw [if_pos f, if_pos f, add64_one_of_lt (by omega)]
    exact ⟨rfl, rfl, by omega⟩
  · rw [if_neg f, if_neg f]
    exact ⟨rfl, rfl, by omega⟩

/-- C13: along a run of either driver that starts with both counters at 0,
in the state on entry to tick `t` (for fewer than `2 ^ 64` ticks, so that
the `uint64_t` counters have not wrapped) `frameCount` is `t` and
`frameDumpCount` is the number of marked ticks so far, hence
`frameDumpCount <= frameCount`; a completed tick adds exactly 1 to
`frameCount` and adds 1 to `frameDumpCount` exactly when it is marked, 0
otherwise, and a tick left by `break` changes neither, so both counters are
non-decreasing and the inequality holds in the state the tick leaves. -/
theorem c13_dump_count_le_frame_count (wi : InastitchCpp.Externals) (wm : MainCpp.Externals)
    (o : Options) (si : LoopState InastitchCpp.GenericInputStreamContext)
    (sm : LoopState MainCpp.FileContext) (t : Nat)
    (xi : LoopState InastitchCpp.GenericInputStreamContext) (xm : LoopState MainCpp.FileContext)
    (hi : InastitchCpp.stateAt wi o t si = some xi) (hm : MainCpp.stateAt wm o t sm = some xm)
    (hi0 : si.frameCount = 0) (hi1 : si.frameDumpCount = 0)
    (hm0 : sm.frameCount = 0) (hm1 : sm.frameDumpCount = 0) (ht : t < U64) :
    (xi.frameCount = t ∧ xi.frameDumpCount = InastitchCpp.markedBefore wi o t si ∧
      xi.frameDumpCount ≤ xi.frameCount ∧
      (∀ k, InastitchCpp.tickAt wi o t si = some k →
        (k.exited = true →
          k.next.frameCount = xi.frameCount ∧ k.next.frameDumpCount = xi.frameDumpCount) ∧
        (k.exited = false → t + 1 < U64 →
          k.next.frameCount = xi.frameCount + 1 ∧
          k.next.frameDumpCount =
            xi.frameDumpCount + (if k.isFrameDumped = true then 1 else 0) ∧
          k.next.frameDumpCount ≤ k.next.frameCount))) ∧
    (xm.frameCount = t ∧ xm.frameDumpCount = MainCpp.markedBefore wm o t sm ∧
      xm.frameDumpCount ≤ xm.frameCount ∧
      (∀ k, MainCpp.tickAt wm o t sm = some k →
        (k.exited = true →
          k.next.frameCount = xm.frameCount ∧ k.next.frameDumpCount = xm.frameDumpCount) ∧
        (k.exited = false → t + 1 < U64 →
          k.next.frameCount = xm.frameCount + 1 ∧
          k.next.frameDumpCount =
            xm.frameDumpCount + (if k.isFrameDumped = true then 1 else 0) ∧
          k.next.frameDumpCount ≤ k.next.frameCount))) :=
  ⟨nthState_counter_steps _ _ (InastitchCpp.tick_countsFrames wi o) t si xi hi hi0 hi1 ht,
    nthState_counter_steps _ _ (MainCpp.file_tick_countsFrames wm o) t sm xm hm hm0 hm1 ht⟩

/-- C13 on the concrete run of each driver with dumps from frame 1 on: on
entry to tick 2 `frameCount` is 2 and `frameDumpCount` is 1, and tick 2
leaves them at 3 and 2. -/
theorem c13_dump_count_witness :
    ((InastitchCpp.reindexTick1.next.frameCount = 2 ∧
        InastitchCpp.reindexTick1.next.frameDumpCount ≤
          InastitchCpp.reindexTick1.next.frameCount) ∧
      (MainCpp.reindexTick1.next.frameCount = 2 ∧
        MainCpp.reindexTick1.next.frameDumpCount ≤ MainCpp.reindexTick1.next.frameCount)) ∧
    (InastitchCpp.reindexTick1.next.frameDumpCount = 1 ∧
      InastitchCpp.reindexTick2.next.frameCount = 3 ∧
      InastitchCpp.reindexTick2.next.frameDumpCount = 2 ∧
      MainCpp.reindexTick1.next.frameDumpCount = 1 ∧
      MainCpp.reindexTick2.next.frameCount = 3 ∧
      MainCpp.reindexTick2.next.frameDumpCount = 2) :=
  have h := c13_dump_count_le_frame_count (InastitchCpp.demoExternals 1 1 1)
    (MainCpp.demoExternals 1 1 1) (dumpOptions 1 0 true) InastitchCpp.demoStart
    MainCpp.demoStart 2 InastitchCpp.reindexTick1.next MainCpp.reindexTick1.next rfl rfl
    rfl rfl rfl rfl (by decide)
  ⟨⟨⟨h.1.1, h.1.2.2.1⟩, ⟨h.2.1, h.2.2.2.1⟩⟩, by decide⟩

theorem markedCount_zero {Ctx : Type} (cond : LoopState Ctx → Bool)
    (body : LoopState Ctx → Tick Ctx) (t : Nat) (s : LoopState Ctx)
    (h : ∀ i, i < t → ∀ k, nthTick cond body i s = some k → k.isFrameDumped = false) :
    markedCount cond body t s = 0 := by
  unfold markedCount
  rw [List.countP_eq_zero]
  intro i hi
  have lt : i < t := List.mem_range.mp hi
  cases e : nthTick cond body i s with
  | none => simp
  | some k => simp [h i lt k e]

/-- C14: with the frame-dump-id-from-0 flag set, in a run of either driver
that starts with both counters at 0, whatever `frameDumpOffsetId` and
`frameDumpOffsetTime` are, the first tick marked for dump (tick `t` marked,
no tick before it marked) is entered with `frameDumpCount == 0`, uses dump
index 0, and leaves `frameDumpCount` at 1. -/
theorem c14_first_dump_index_zero (wi : InastitchCpp.Externals) (wm : MainCpp.Externals)
    (o : Options) (si : LoopState InastitchCpp.GenericInputStreamContext)
    (sm : LoopState MainCpp.FileContext) (t : Nat)
    (ki : Tick InastitchCpp.GenericInputStreamContext) (km : Tick MainCpp.FileContext)
    (hi : InastitchCpp.tickAt wi o t si = some ki) (hm : MainCpp.tickAt wm o t sm = some km)
    (hi0 : si.frameCount = 0) (hi1 : si.frameDumpCount = 0)
    (hm0 : sm.frameCount = 0) (hm1 : sm.frameDumpCount = 0) (ht : t + 1 < U64)
    (flag : o.isDumpFrameIdRelativeToOffset = true)
    (mi : ki.isFrameDumped = true) (mm : km.isFrameDumped = true)
    (fi : ∀ i, i < t → ∀ k, InastitchCpp.tickAt wi o i si = some k → k.isFrameDumped = false)
    (fm : ∀ i, i < t → ∀ k, MainCpp.tickAt wm o i sm = some k → k.isFrameDumped = false) :
    ((∃ x, InastitchCpp.stateAt wi o t si = some x ∧ ki = InastitchCpp.tick wi o x ∧
        x.frameDumpCount = 0) ∧
      ki.frameDumpIdx = 0 ∧ ki.next.frameDumpCount = 1) ∧
    ((∃ x, MainCpp.stateAt wm o t sm = some x ∧ km = MainCpp.tick wm o x ∧
        x.frameDumpCount = 0) ∧
      km.frameDumpIdx = 0 ∧ km.next.frameDumpCount = 1) := by
  have zi : InastitchCpp.markedBefore wi o t si = 0 := markedCount_zero _ _ t si fi
  have zm : MainCpp.markedBefore wm o t sm = 0 := markedCount_zero _ _ t sm fm
  have xm : km.exited = false := by
    obtain ⟨y, -, -, e⟩ := (nthTick_iff _ _ t sm km).mp hm
    cases ex : km.exited with
    | false => rfl
    | true =>
      rw [e] at ex mm
      rw [((MainCpp.file_tick_countsFrames wm o y).1 ex).2.2] at mm
      exact absurd mm (by simp)
  have xi : ki.exited = false := by
    obtain ⟨y, -, -, e⟩ := (nthTick_iff _ _ t si ki).mp hi
    rw [e]
    exact (InastitchCpp.tick_never_exits wi o y).1
  obtain ⟨⟨x, a1, a2, -, a4, -⟩, a5, -⟩ :=
    InastitchCpp.tickAt_frameDumpIdx wi o si t ki hi hi0 hi1 (by omega)
  obtain ⟨⟨y, b1, b2, -, b4, -⟩, b5, -⟩ :=
    MainCpp.file_tickAt_frameDumpIdx wm o sm t km hm xm hm0 hm1 (by omega)
  have si' := (nthState_counter_steps _ _ (InastitchCpp.tick_countsFrames wi o) t si x a1
    hi0 hi1 (by omega)).2.2.2 ki hi
  have sm' := (nthState_counter_steps _ _ (MainCpp.file_tick_countsFrames wm o) t sm y b1
    hm0 hm1 (by omega)).2.2.2 km hm
  have ni := (si'.2 xi ht).2.1
  have nm := (sm'.2 xm ht).2.1
  rw [a4, zi, if_pos mi] at ni
  rw [b4, zm, if_pos mm] at nm
  exact ⟨⟨⟨x, a1, a2, a4.trans zi⟩, (a5 flag).trans zi, ni⟩,
    ⟨⟨y, b1, b2, b4.trans zm⟩, (b5 flag).trans zm, nm⟩⟩

/-- C14 on the concrete run of each driver with dumps from frame 1 on and
the flag set: tick 1 is the first marked tick, it uses dump index 0 and
leaves `frameDumpCount` at 1. -/
theorem c14_first_dump_index_witness :
    ((InastitchCpp.reindexTick1.frameDumpIdx = 0 ∧
        InastitchCpp.reindexTick1.next.frameDumpCount = 1) ∧
      (MainCpp.reindexTick1.frameDumpIdx = 0 ∧ MainCpp.reindexTick1.next.frameDumpCount = 1)) ∧
    (InastitchCpp.reindexTick0.isFrameDumped = false ∧
      InastitchCpp.reindexTick1.isFrameDumped = true ∧
      InastitchCpp.reindexTick0.next.frameDumpCount = 0 ∧
      MainCpp.reindexTick0.isFrameDumped = false ∧
      MainCpp.reindexTick1.isFrameDumped = true ∧
      MainCpp.reindexTick0.next.frameDumpCount = 0) :=
  have h := c14_first_dump_index_zero (InastitchCpp.demoExternals 1 1 1)
    (MainCpp.demoExternals 1 1 1) (dumpOptions 1 0 true) InastitchCpp.demoStart
    MainCpp.demoStart 1 InastitchCpp.reindexTick1 MainCpp.reindexTick1 rfl rfl rfl rfl rfl rfl
    (by decide) rfl (by decide) (by decide)
    (fun i hi k hk => by
      have e : i = 0 := by omega
      subst e
      have := Option.some.inj hk
      rw [← this]
      decide)
    (fun i hi k hk => by
      have e : i = 0 := by omega
      subst e
      have := Option.some.inj hk
      rw [← this]
      decide)
  ⟨⟨h.1.2, h.2.2⟩, by decide⟩

/-- Scenario C for any loop body that counts and marks like the drivers:
with `frameDumpOffsetId` 5 and `frameDumpOffsetTime` 0, in a run that starts
with both counters at 0 and completes tick 5, ticks 0 to 4 are not marked
and tick 5 is, entered with `frameCount` 5 and `frameDumpCount` 0. -/
theorem nthTick_scenarioC {Ctx : Type} (cond : LoopState Ctx → Bool)
    (body : LoopState Ctx → Tick Ctx) (o : Options) (hb : CountsFrames body)
    (hmk : MarksByOffsets o body) (hid : o.frameDumpOffsetId = 5)
    (htime : o.frameDumpOffsetTime = 0) (s : LoopState Ctx) (h0 : s.frameCount = 0)
    (h1 : s.frameDumpCount = 0) (k5 : Tick Ctx) (h5 : nthTick cond body 5 s = some k5)
    (hx : k5.exited = false) :
    (∀ i, i < 5 → ∀ k, nthTick cond body i s = some k → k.isFrameDumped = false) ∧
    k5.isFrameDumped = true ∧
    ∃ x, nthState cond body 5 s = some x ∧ k5 = body x ∧ x.frameCount = 5 ∧
      x.frameDumpCount = 0 := by
  have big : (5 : Nat) + 1 < U64 := by decide
  have early : ∀ i, i < 5 → ∀ k, nthTick cond body i s = some k → k.isFrameDumped = false := by
    intro i hi k hk
    obtain ⟨y, hy, -, e⟩ := (nthTick_iff cond body i s k).mp hk
    have fc := (nthState_counter_steps cond body hb i s y hy h0 h1 (by omega)).1
    rw [e]
    cases ex : (body y).exited with
    | true => exact ((hb y).1 ex).2.2
    | false =>
      rw [hmk y ex, fc, hid]
      simp
      omega
  obtain ⟨x, hxs, -, e⟩ := (nthTick_iff cond body 5 s k5).mp h5
  obtain ⟨fc, fd, -, -⟩ := nthState_counter_steps cond body hb 5 s x hxs h0 h1 (by omega)
  refine ⟨early, ?_, x, hxs, e, fc, ?_⟩
  · rw [e] at hx ⊢
    rw [hmk x hx, fc, hid, htime]
    simp
  · rw [fd]
    exact markedCount_zero cond body 5 s early

namespace InastitchCpp

theorem tick_marksByOffsets (w : Externals) (o : Options) : MarksByOffsets o (tick w o) :=
  fun x _ => tick_isFrameDumped w o x

end InastitchCpp

namespace MainCpp

theorem file_tick_marksByOffsets (w : Externals) (o : Options) : MarksByOffsets o (tick w o) :=
  fun x h => file_tick_isFrameDumped w o x h

end MainCpp

/-- C15 (Scenario C): with `frameDumpOffsetId = 5`, `frameDumpOffsetTime = 0`
and the re-indexing flag off, in every run of either driver that starts
with both counters at 0 and completes tick 5 (at least 6 ticks), ticks 0 to
4 are not marked for dump and tick 5 is the first marked one; it is entered
with `frameCount == 5` and `frameDumpCount == 0`, and its dump index is 5. -/
theorem c15_scenario_offset_five (wi : InastitchCpp.Externals) (wm : MainCpp.Externals)
    (o : Options) (si : LoopState InastitchCpp.GenericInputStreamContext)
    (sm : LoopState MainCpp.FileContext)
    (ki : Tick InastitchCpp.GenericInputStreamContext) (km : Tick MainCpp.FileContext)
    (hid : o.frameDumpOffsetId = 5) (htime : o.frameDumpOffsetTime = 0)
    (flag : o.isDumpFrameIdRelativeToOffset = false)
    (hi : InastitchCpp.tickAt wi o 5 si = some ki) (hm : MainCpp.tickAt wm o 5 sm = some km)
    (hx : km.exited = false) (hi0 : si.frameCount = 0) (hi1 : si.frameDumpCount = 0)
    (hm0 : sm.frameCount = 0) (hm1 : sm.frameDumpCount = 0) :
    ((∀ i, i < 5 → ∀ k, InastitchCpp.tickAt wi o i si = some k → k.isFrameDumped = false) ∧
      ki.isFrameDumped = true ∧
      (∃ x, InastitchCpp.stateAt wi o 5 si = some x ∧ ki = InastitchCpp.tick wi o x ∧
        x.frameCount = 5 ∧ x.frameDumpCount = 0) ∧
      ki.frameDumpIdx = 5) ∧
    ((∀ i, i < 5 → ∀ k, MainCpp.tickAt wm o i sm = some k → k.isFrameDumped = false) ∧
      km.isFrameDumped = true ∧
      (∃ x, MainCpp.stateAt wm o 5 sm = some x ∧ km = MainCpp.tick wm o x ∧
        x.frameCount = 5 ∧ x.frameDumpCount = 0) ∧
      km.frameDumpIdx = 5) := by
  have xi : ki.exited = false := by
    obtain ⟨y, -, -, e⟩ := (nthTick_iff _ _ 5 si ki).mp hi
    rw [e]
    exact (InastitchCpp.tick_never_exits wi o y).1
  obtain ⟨a1, a2, a3⟩ := nthTick_scenarioC _ _ o (InastitchCpp.tick_countsFrames wi o)
    (InastitchCpp.tick_marksByOffsets wi o) hid htime si hi0 hi1 ki hi xi
  obtain ⟨b1, b2, b3⟩ := nthTick_scenarioC _ _ o (MainCpp.file_tick_countsFrames wm o)
    (MainCpp.file_tick_marksByOffsets wm o) hid htime sm hm0 hm1 km hm hx
  exact ⟨⟨a1, a2, a3,
      (InastitchCpp.tickAt_frameDumpIdx wi o si 5 ki hi hi0 hi1 (by decide)).2.2 flag⟩,
    ⟨b1, b2, b3,
      (MainCpp.file_tickAt_frameDumpIdx wm o sm 5 km hm hx hm0 hm1 (by decide)).2.2 flag⟩⟩

/-- C15 on the concrete run of each driver: ticks 0 to 4 are not marked,
tick 5 is, entered with `frameDumpCount` 0 after five unmarked ticks. -/
theorem c15_scenario_witness :
    ((InastitchCpp.scenarioCTick 5).isFrameDumped = true ∧
      (InastitchCpp.scenarioCTick 5).frameDumpIdx = 5 ∧
      (MainCpp.scenarioCTick 5).isFrameDumped = true ∧
      (MainCpp.scenarioCTick 5).frameDumpIdx = 5) ∧
    ((InastitchCpp.scenarioCTick 0).isFrameDumped = false ∧
      (InastitchCpp.scenarioCTick 4).isFrameDumped = false ∧
      (InastitchCpp.scenarioCTick 4).next.frameCount = 5 ∧
      (InastitchCpp.scenarioCTick 4).next.frameDumpCount = 0 ∧
      (InastitchCpp.scenarioCTick 5).next.frameDumpCount = 1 ∧
      (MainCpp.scenarioCTick 0).isFrameDumped = false ∧
      (MainCpp.scenarioCTick 4).isFrameDumped = false ∧
      (MainCpp.scenarioCTick 4).next.frameCount = 5 ∧
      (MainCpp.scenarioCTick 4).next.frameDumpCount = 0 ∧
      (MainCpp.scenarioCTick 5).next.frameDumpCount = 1) :=
  have h := c15_scenario_offset_five (InastitchCpp.demoExternals 1 1 1)
    (MainCpp.demoExternals 1 1 1) (dumpOptions 5 0 false) InastitchCpp.demoStart
    MainCpp.demoStart (InastitchCpp.scenarioCTick 5) (MainCpp.scenarioCTick 5) rfl rfl rfl
    rfl rfl (by decide) rfl rfl rfl rfl
  ⟨⟨h.1.2.1, h.1.2.2.2, h.2.2.1, h.2.2.2.2⟩, by decide⟩

/-! ## The dump ceiling -/

theorem loopCondition_dumpCount {Ctx : Type} (wsc : Nat → Bool) (o : Options)
    (x : LoopState Ctx) (h : loopCondition wsc o x = true) :
    x.frameDumpCount < o.maxDumpFrameCount := by
  unfold loopCondition at h
  rw [Bool.and_eq_true] at h
  exact of_decide_eq_true h.2

theorem loopCondition_of_ceiling {Ctx : Type} (wsc : Nat → Bool) (o : Options)
    (x : LoopState Ctx) (h : o.maxDumpFrameCount ≤ x.frameDumpCount) :
    loopCondition wsc o x = false := by
  cases e : loopCondition wsc o x with
  | false => rfl
  | true =>
    have := loopCondition_dumpCount wsc o x e
    omega

theorem whileLoop_of_not_cond {Ctx : Type} (cond : LoopState Ctx → Bool)
    (body : LoopState Ctx → Tick Ctx) (fuel : Nat) (s : LoopState Ctx) (h : cond s = false) :
    whileLoop cond body fuel s = some s := by
  cases fuel with
  | zero => simp [whileLoop, h]
  | succ n => simp [whileLoop, h]

theorem nthState_invariant {Ctx : Type} (cond : LoopState Ctx → Bool)
    (body : LoopState Ctx → Tick Ctx) (P : LoopState Ctx → Prop)
    (hP : ∀ x, P x → cond x = true → P (body x).next) :
    ∀ (t : Nat) (s x : LoopState Ctx), nthState cond body t s = some x → P s → P x := by
  intro t
  induction t with
  | zero =>
    intro s x h hs
    have e : s = x := Option.some.inj h
    rw [← e]
    exact hs
  | succ m ih =>
    intro s x' h hs
    obtain ⟨x, hx, -, c, -, e⟩ := (nthState_succ_iff cond body m s x').mp h
    rw [e]
    exact hP x (ih s x hx hs) c

theorem whileLoop_invariant {Ctx : Type} (cond : LoopState Ctx → Bool)
    (body : LoopState Ctx → Tick Ctx) (P : LoopState Ctx → Prop)
    (hP : ∀ x, P x → cond x = true → P (body x).next) :
    ∀ (fuel : Nat) (s x : LoopState Ctx), whileLoop cond body fuel s = some x → P s → P x := by
  intro fuel
  induction fuel with
  | zero =>
    intro s x h hs
    unfold whileLoop at h
    by_cases c : cond s = true
    · rw [if_pos c] at h
      exact absurd h (by simp)
    · rw [if_neg c] at h
      have e : s = x := Option.some.inj h
      rw [← e]
      exact hs
  | succ n ih =>
    intro s x h hs
    unfold whileLoop at h
    by_cases c : cond s = true
    · rw [if_pos c] at h
      dsimp only at h
      by_cases e : (body s).exited = true
      · rw [if_pos e] at h
        have e' : (body s).next = x := Option.some.inj h
        rw [← e']
        exact hP s hs c
      · rw [if_neg e] at h
        exact ih _ x h (hP s hs c)
    · rw [if_neg c] at h
      have e : s = x := Option.some.inj h
      rw [← e]
      exact hs

/-- A loop body that counts like the drivers keeps `frameDumpCount` at or
below a ceiling that its loop condition enforces. -/
theorem dumpCount_step {Ctx : Type} (cond : LoopState Ctx → Bool)
    (body : LoopState Ctx → Tick Ctx) (ceiling : Nat) (hb : CountsFrames body)
    (hc : ∀ x, cond x = true → x.frameDumpCount < ceiling) (hmax : ceiling < U64)
    (x : LoopState Ctx) (_h : x.frameDumpCount ≤ ceiling) (c : cond x = true) :
    (body x).next.frameDumpCount ≤ ceiling := by
  have lt := hc x c
  cases e : (body x).exited with
  | true =>
    rw [((hb x).1 e).2.1]
    omega
  | false =>
    rw [((hb x).2 e).2]
    by_cases f : (body x).isFrameDumped = true
    · rw [if_pos f, add64_one_of_lt (by omega)]
      omega
    · rw [if_neg f]
      omega

/-- Below the ceiling nothing wraps: `frameDumpCount` on entry to tick `t`
is the start value plus the number of marked ticks so far. -/
theorem nthState_dumpCount {Ctx : Type} (cond : LoopState Ctx → Bool)
    (body : LoopState Ctx → Tick Ctx) (ceiling : Nat) (hb : CountsFrames body)
    (hc : ∀ x, cond x = true → x.frameDumpCount < ceiling) (hmax : ceiling < U64) :
    ∀ (t : Nat) (s x : LoopState Ctx), nthState cond body t s = some x →
      x.frameDumpCount = s.frameDumpCount + markedCount cond body t s := by
  intro t
  induction t with
  | zero =>
    intro s x h
    have e : s = x := Option.some.inj h
    rw [← e]
    rfl
  | succ m ih =>
    intro s x' h
    obtain ⟨x, hx, hk, c, e, hx'⟩ := (nthState_succ_iff cond body m s x').mp h
    have lt := hc x c
    rw [hx', ((hb x).2 e).2, markedCount_succ cond body m s (body x) hk, ih s x hx]
    by_cases f : (body x).isFrameDumped = true
    · rw [if_pos f, if_pos f, add64_one_of_lt (by rw [← ih s x hx]; omega)]
      omega
    · rw [if_neg f, if_neg f]
      omega

/-- The dump ceiling for any loop body that counts like the drivers, run
under the drivers' loop condition from a state with `frameDumpCount` 0. -/
theorem run_respects_ceiling {Ctx : Type} (wsc : Nat → Bool) (o : Options)
    (body : LoopState Ctx → Tick Ctx) (hb : CountsFrames body)
    (hmax : o.maxDumpFrameCount < U64) (s : LoopState Ctx) (h0 : s.frameDumpCount = 0) :
    (∀ t k, nthTick (loopCondition wsc o) body t s = some k →
      ∃ x, nthState (loopCondition wsc o) body t s = some x ∧ k = body x ∧
        x.frameDumpCount < o.maxDumpFrameCount) ∧
    (∀ t x, nthState (loopCondition wsc o) body t s = some x →
      x.frameDumpCount ≤ o.maxDumpFrameCount ∧
      markedCount (loopCondition wsc o) body t s ≤ o.maxDumpFrameCount) ∧
    (∀ fuel x, whileLoop (loopCondition wsc o) body fuel s = some x →
      x.frameDumpCount ≤ o.maxDumpFrameCount) ∧
    (∀ fuel (x : LoopState Ctx), o.maxDumpFrameCount ≤ x.frameDumpCount →
      whileLoop (loopCondition wsc o) body fuel x = some x ∧
      nthTick (loopCondition wsc o) body 0 x = none) := by
  have hc : ∀ x : LoopState Ctx, loopCondition wsc o x = true →
      x.frameDumpCount < o.maxDumpFrameCount := loopCondition_dumpCount wsc o
  have step := dumpCount_step (loopCondition wsc o) body o.maxDumpFrameCount hb hc hmax
  have start : s.frameDumpCount ≤ o.maxDumpFrameCount := by omega
  refine ⟨fun t k h => ?_, fun t x h => ?_, fun fuel x h => ?_, fun fuel x h => ?_⟩
  · obtain ⟨x, hx, c, e⟩ := (nthTick_iff _ _ t s k).mp h
    exact ⟨x, hx, e, hc x c⟩
  · have le := nthState_invariant _ body (fun y => y.frameDumpCount ≤ o.maxDumpFrameCount)
      step t s x h start
    have eq := nthState_dumpCount _ body o.maxDumpFrameCount hb hc hmax t s x h
    rw [h0, Nat.zero_add] at eq
    exact ⟨le, by omega⟩
  · exact whileLoop_invariant _ body (fun y => y.frameDumpCount ≤ o.maxDumpFrameCount)
      step fuel s x h start
  · have c := loopCondition_of_ceiling wsc o x h
    refine ⟨whileLoop_of_not_cond _ body fuel x c, ?_⟩
    simp [nthTick, c]

/-- C16: in both drivers, for a 64-bit `maxDumpFrameCount` and a run that
starts with `frameDumpCount` 0: every tick body is entered with
`frameDumpCount < maxDumpFrameCount`; in every state on entry to a tick,
and in every state in which the loop is left, `frameDumpCount <=
maxDumpFrameCount`, and the number of marked (dumped) ticks so far is at
most the ceiling; and in a state with `frameDumpCount >= maxDumpFrameCount`
the loop stops at once, without running a tick body. -/
theorem c16_dump_ceiling (wi : InastitchCpp.Externals) (wm : MainCpp.Externals) (o : Options)
    (si : LoopState InastitchCpp.GenericInputStreamContext) (sm : LoopState MainCpp.FileContext)
    (hmax : o.maxDumpFrameCount < U64) (hi0 : si.frameDumpCount = 0)
    (hm0 : sm.frameDumpCount = 0) :
    ((∀ t k, InastitchCpp.tickAt wi o t si = some k →
        ∃ x, InastitchCpp.stateAt wi o t si = some x ∧ k = InastitchCpp.tick wi o x ∧
          x.frameDumpCount < o.maxDumpFrameCount) ∧
      (∀ t x, InastitchCpp.stateAt wi o t si = some x →
        x.frameDumpCount ≤ o.maxDumpFrameCount ∧
        InastitchCpp.markedBefore wi o t si ≤ o.maxDumpFrameCount) ∧
      (∀ fuel x, InastitchCpp.renderLoop wi o fuel si = some x →
        x.frameDumpCount ≤ o.maxDumpFrameCount) ∧
      (∀ fuel (x : LoopState InastitchCpp.GenericInputStreamContext),
        o.maxDumpFrameCount ≤ x.frameDumpCount →
        InastitchCpp.renderLoop wi o fuel x = some x ∧ InastitchCpp.tickAt wi o 0 x = none)) ∧
    ((∀ t k, MainCpp.tickAt wm o t sm = some k →
        ∃ x, MainCpp.stateAt wm o t sm = some x ∧ k = MainCpp.tick wm o x ∧
          x.frameDumpCount < o.maxDumpFrameCount) ∧
      (∀ t x, MainCpp.stateAt wm o t sm = some x →
        x.frameDumpCount ≤ o.maxDumpFrameCount ∧
        MainCpp.markedBefore wm o t sm ≤ o.maxDumpFrameCount) ∧
      (∀ fuel x, MainCpp.renderLoop wm o fuel sm = some x →
        x.frameDumpCount ≤ o.maxDumpFrameCount) ∧
      (∀ fuel (x : LoopState MainCpp.FileContext),
        o.maxDumpFrameCount ≤ x.frameDumpCount →
        MainCpp.renderLoop wm o fuel x = some x ∧ MainCpp.tickAt wm o 0 x = none)) :=
  ⟨run_respects_ceiling wi.windowShouldClose o (InastitchCpp.tick wi o)
      (InastitchCpp.tick_countsFrames wi o) hmax si hi0,
    run_respects_ceiling wm.windowShouldClose o (MainCpp.tick wm o)
      (MainCpp.file_tick_countsFrames wm o) hmax sm hm0⟩

/-- C16 on a concrete run of each driver with a dump ceiling of 3 and every
tick marked: the loop stops after three ticks with `frameDumpCount` 3. -/
theorem c16_dump_ceiling_witness :
    ((∀ fuel x, InastitchCpp.renderLoop (InastitchCpp.demoExternals 1 1 1) (demoOptions 50 3)
          fuel InastitchCpp.demoStart = some x →
        x.frameDumpCount ≤ (demoOptions 50 3).maxDumpFrameCount) ∧
      (∀ fuel x, MainCpp.renderLoop (MainCpp.demoExternals 1 1 1) (demoOptions 50 3)
          fuel MainCpp.demoStart = some x →
        x.frameDumpCount ≤ (demoOptions 50 3).maxDumpFrameCount)) ∧
    ((InastitchCpp.renderLoop (InastitchCpp.demoExternals 1 1 1) (demoOptions 50 3) 2
        InastitchCpp.demoStart).isNone = true ∧
      (InastitchCpp.renderLoop (InastitchCpp.demoExternals 1 1 1) (demoOptions 50 3) 3
        InastitchCpp.demoStart).map (fun s => (s.frameCount, s.frameDumpCount)) = some (3, 3) ∧
      (MainCpp.renderLoop (MainCpp.demoExternals 1 1 1) (demoOptions 50 3) 2
        MainCpp.demoStart).isNone = true ∧
      (MainCpp.renderLoop (MainCpp.demoExternals 1 1 1) (demoOptions 50 3) 3
        MainCpp.demoStart).map (fun s => (s.frameCount, s.frameDumpCount)) = some (3, 3)) :=
  have h := c16_dump_ceiling (InastitchCpp.demoExternals 1 1 1) (MainCpp.demoExternals 1 1 1)
    (demoOptions 50 3) InastitchCpp.demoStart MainCpp.demoStart (by decide) rfl rfl
  ⟨⟨h.1.2.2.1, h.2.2.2.1⟩, by decide⟩

/-! ## The exit summary -/

theorem rateSummary_ne_notice (frameCount : Nat) (renderTimeMs : Int) :
    rateSummary frameCount renderTimeMs ≠ ExitReport.noFrameRendered := by
  unfold rateSummary
  dsimp only
  split <;> simp

namespace InastitchCpp

/-- With a dump ceiling of 0 the loop of `inastitch.cpp` is left before any
tick body runs, and the notice is printed when `frameCount` is 0. -/
theorem renderAndReport_zero_ceiling (w : Externals) (o : Options) (fuel : Nat)
    (s : LoopState GenericInputStreamContext) (renderTimeMs : Int)
    (h : o.maxDumpFrameCount = 0) :
    renderAndReport w o fuel s renderTimeMs = some (s, exitSummary s.frameCount renderTimeMs) ∧
    tickAt w o 0 s = none := by
  have c : loopCondition w.windowShouldClose o s = false :=
    loopCondition_of_ceiling _ o s (by omega)
  unfold renderAndReport renderLoop tickAt
  rw [whileLoop_of_not_cond _ _ fuel s c]
  exact ⟨rfl, by simp [nthTick, c]⟩

end InastitchCpp

namespace MainCpp

/-- With a dump ceiling of 0 the loop of `main.cpp` is left before any tick
body runs, and the summary statement is executed all the same. -/
theorem file_renderAndReport_zero_ceiling (w : Externals) (o : Options) (fuel : Nat)
    (s : LoopState FileContext) (renderTimeMs : Int) (h : o.maxDumpFrameCount = 0) :
    renderAndReport w o fuel s renderTimeMs = some (s, rateSummary s.frameCount renderTimeMs) ∧
    tickAt w o 0 s = none := by
  have c : loopCondition w.windowShouldClose o s = false :=
    loopCondition_of_ceiling _ o s (by omega)
  unfold renderAndReport renderLoop tickAt
  rw [whileLoop_of_not_cond _ _ fuel s c]
  exact ⟨rfl, by simp [nthTick, c]⟩

end MainCpp

/-- C17: with `maxDumpFrameCount = 0` both drivers leave the loop without
running a tick body, with `frameCount == 0`, `frameDumpCount == 0` and no
file written. `inastitch.cpp` then prints the "No frame rendered" notice
(first part, for all inputs). `main.cpp` does not (second part): it has no
such branch, it executes the frame-count/rate summary, whose rate divides
by `renderTimeMs/1000`: a division by zero for a render time below one
second (as after a loop that did not run), and the summary line
otherwise. -/
theorem c17_zero_ceiling_exit :
    (∀ (w : InastitchCpp.Externals) (o : Options) (maxRgbaBufferSize : Nat) (rgba : Nat → Nat)
        (fuel : Nat) (renderTimeMs : Int), o.maxDumpFrameCount = 0 →
        InastitchCpp.tickAt w o 0 (InastitchCpp.initialState w maxRgbaBufferSize rgba) = none ∧
        (InastitchCpp.renderAndReport w o fuel (InastitchCpp.initialState w maxRgbaBufferSize rgba)
            renderTimeMs).map
          (fun r => (r.1.frameCount, r.1.frameDumpCount, r.1.files, r.1.outJpegFile,
            r.1.outPtsFile, r.2))
          = some (0, 0, [], [], [], ExitReport.noFrameRendered)) ∧
    (∀ (w : MainCpp.Externals) (o : Options) (maxRgbaBufferSize : Nat) (rgba : Nat → Nat)
        (fuel : Nat) (renderTimeMs : Int), o.maxDumpFrameCount = 0 →
        MainCpp.tickAt w o 0 (MainCpp.initialState w maxRgbaBufferSize rgba) = none ∧
        (MainCpp.renderAndReport w o fuel (MainCpp.initialState w maxRgbaBufferSize rgba)
            renderTimeMs).map
          (fun r => (r.1.frameCount, r.1.frameDumpCount, r.1.files, r.1.outJpegFile,
            r.1.outPtsFile, r.2))
          = some (0, 0, [], [], [], rateSummary 0 renderTimeMs) ∧
        rateSummary 0 renderTimeMs ≠ ExitReport.noFrameRendered) ∧
    ((MainCpp.renderAndReport (MainCpp.demoExternals 1 1 1) (demoOptions 50 0) 0
        MainCpp.demoStart 0).map (fun r => (r.1.frameCount, r.2))
        = some (0, ExitReport.divisionByZero) ∧
      (MainCpp.renderAndReport (MainCpp.demoExternals 1 1 1) (demoOptions 50 0) 0
        MainCpp.demoStart 999).map (fun r => (r.1.frameCount, r.2))
        = some (0, ExitReport.divisionByZero) ∧
      (MainCpp.renderAndReport (MainCpp.demoExternals 1 1 1) (demoOptions 50 0) 0
        MainCpp.demoStart 2500).map (fun r => (r.1.frameCount, r.2))
        = some (0, ExitReport.summary "0 frames rendered in 2500ms (0 fps)") ∧
      (InastitchCpp.renderAndReport (InastitchCpp.demoExternals 1 1 1) (demoOptions 50 0) 0
        InastitchCpp.demoStart 0).map (fun r => (r.1.frameCount, r.2))
        = some (0, ExitReport.noFrameRendered)) := by
  refine ⟨fun w o m rgba fuel ms h => ?_, fun w o m rgba fuel ms h => ?_, ?_⟩
  · obtain ⟨a, b⟩ := InastitchCpp.renderAndReport_zero_ceiling w o fuel
      (InastitchCpp.initialState w m rgba) ms h
    rw [a]
    exact ⟨b, rfl⟩
  · obtain ⟨a, b⟩ := MainCpp.file_renderAndReport_zero_ceiling w o fuel
      (MainCpp.initialState w m rgba) ms h
    rw [a]
    exact ⟨b, rfl, rateSummary_ne_notice 0 ms⟩
  · refine ⟨by decide, by decide, ?_, by decide⟩
    rfl

/-! ## The first tick -/

theorem sub64_self (a : Nat) : sub64 a a = 0 := by
  unfold sub64
  have e : a + U64 - a = U64 := by omega
  rw [e, Nat.mod_self]

theorem add64_zero_zero : add64 0 0 = 0 := by
  decide

namespace InastitchCpp

theorem tickRest_first (w : Externals) (o : Options) (s : LoopState GenericInputStreamContext)
    (y : Sync GenericInputStreamContext) (f : s.isFirstFrame = true) (r : s.frameRelTime = 0) :
    (tickRest w o s y).frameDiffTime = 0 ∧ (tickRest w o s y).next.frameRelTime = 0 ∧
    (tickRest w o s y).next.lastFrameAbsTime = (tickRest w o s y).frameAbsTime ∧
    (tickRest w o s y).next.isFirstFrame = false := by
  simp [tickRest, f, r, sub64_self, add64_zero_zero]

end InastitchCpp

namespace MainCpp

theorem file_tickRest_first (w : Externals) (o : Options) (s : LoopState FileContext)
    (y : Sync FileContext) (f : s.isFirstFrame = true) (r : s.frameRelTime = 0) :
    (tickRest w o s y).frameDiffTime = 0 ∧ (tickRest w o s y).next.frameRelTime = 0 ∧
    (tickRest w o s y).next.lastFrameAbsTime = (tickRest w o s y).frameAbsTime ∧
    (tickRest w o s y).next.isFirstFrame = false := by
  simp [tickRest, f, r, sub64_self, add64_zero_zero]

theorem tick_rest_of_not_exited (w : Externals) (o : Options) (s : LoopState FileContext)
    (h : (tick w o s).exited = false) : tick w o s = tickRest w o s (tickSync w o s) := by
  apply tick_of_not_eof
  intro e
  rw [tick_of_eof w o s e] at h
  exact absurd h (by simp [tickBreak])

end MainCpp

/-- C18: at the first tick of a run of either driver (`isFirstFrame` set,
`frameRelTime` 0, as the loop variables are initialised; in `main.cpp` a
tick not left by `break`), whatever the sources' timestamps,
`lastFrameAbsTime` is seeded with the tick's reference time, so
`frameDiffTime` is 0 and `frameRelTime` stays 0; the tick leaves
`lastFrameAbsTime` at the reference time and clears `isFirstFrame`. -/
theorem c18_first_tick_seeded (wi : InastitchCpp.Externals) (wm : MainCpp.Externals)
    (o : Options) (si : LoopState InastitchCpp.GenericInputStreamContext)
    (sm : LoopState MainCpp.FileContext)
    (fi : si.isFirstFrame = true) (ri : si.frameRelTime = 0)
    (fm : sm.isFirstFrame = true) (rm : sm.frameRelTime = 0)
    (hx : (MainCpp.tick wm o sm).exited = false) :
    ((InastitchCpp.tick wi o si).frameDiffTime = 0 ∧
      (InastitchCpp.tick wi o si).next.frameRelTime = 0 ∧
      (InastitchCpp.tick wi o si).next.lastFrameAbsTime
        = (InastitchCpp.tick wi o si).frameAbsTime ∧
      (InastitchCpp.tick wi o si).next.isFirstFrame = false) ∧
    ((MainCpp.tick wm o sm).frameDiffTime = 0 ∧
      (MainCpp.tick wm o sm).next.frameRelTime = 0 ∧
      (MainCpp.tick wm o sm).next.lastFrameAbsTime = (MainCpp.tick wm o sm).frameAbsTime ∧
      (MainCpp.tick wm o sm).next.isFirstFrame = false) := by
  rw [InastitchCpp.tick_eq, MainCpp.tick_rest_of_not_exited wm o sm hx]
  exact ⟨InastitchCpp.tickRest_first wi o si _ fi ri, MainCpp.file_tickRest_first wm o sm _ fm rm⟩

/-- C18 on tick 0 of the demonstration run of each driver (sources stamped
40000): the reference time is 40000, the delta and the relative time are
0. -/
theorem c18_first_tick_witness :
    ((InastitchCpp.demoTick0.frameDiffTime = 0 ∧ InastitchCpp.demoTick0.next.frameRelTime = 0) ∧
      (MainCpp.demoTick0.frameDiffTime = 0 ∧ MainCpp.demoTick0.next.frameRelTime = 0)) ∧
    (InastitchCpp.demoTick0.frameAbsTime = 40000 ∧
      InastitchCpp.demoTick0.next.lastFrameAbsTime = 40000 ∧
      MainCpp.demoTick0.frameAbsTime = 40000 ∧
      MainCpp.demoTick0.next.lastFrameAbsTime = 40000) :=
  have h := c18_first_tick_seeded (InastitchCpp.demoExternals 1 1 1)
    (MainCpp.demoExternals 1 1 1) (demoOptions 50 10) InastitchCpp.demoStart MainCpp.demoStart
    rfl rfl rfl rfl (by decide)
  ⟨⟨⟨h.1.1, h.1.2.1⟩, ⟨h.2.1, h.2.2.1⟩⟩, by decide⟩

/-! ## Output dump -/

namespace InastitchCpp

/-- No tick of `inastitch.cpp` writes to the output file or its sidecar. -/
theorem tick_output_untouched (w : Externals) (o : Options)
    (s : LoopState GenericInputStreamContext) :
    (tick w o s).next.outJpegFile = s.outJpegFile ∧
    (tick w o s).next.outPtsFile = s.outPtsFile := by
  rw [tick_eq]
  exact ⟨rfl, rfl⟩

end InastitchCpp

namespace MainCpp

/-- What a tick of `main.cpp` appends to the output file and its sidecar. -/
theorem tick_output (w : Externals) (o : Options) (s : LoopState FileContext) :
    ((tick w o s).exited = false → (tick w o s).isFrameDumped = true → o.outFilename ≠ "" →
      (tick w o s).next.outJpegFile = s.outJpegFile ++ [w.encode (tick w o s).framebuffer] ∧
      (tick w o s).next.outPtsFile = s.outPtsFile ++
        [toString (tick w o s).frameAbsTime ++ " " ++ toString (tick w o s).next.frameRelTime
          ++ " " ++ toString (tick w o s).frameDiffTime ++ "\n"]) ∧
    ((tick w o s).isFrameDumped = false →
      (tick w o s).next.outJpegFile = s.outJpegFile ∧
      (tick w o s).next.outPtsFile = s.outPtsFile) := by
  by_cases e : ((tickSync w o s).eofContext0 && (tickSync w o s).eofContext1 &&
      (tickSync w o s).eofContext2) = true
  · rw [tick_of_eof w o s e]
    exact ⟨fun h => absurd h (by simp [tickBreak]), fun _ => ⟨rfl, rfl⟩⟩
  · rw [tick_of_not_eof w o s e]
    refine ⟨fun _ m n => ?_, fun m => ?_⟩
    · simp only [tickRest] at m ⊢
      simp [m, n]
    · simp only [tickRest] at m ⊢
      simp [m]

end MainCpp

/-- C19: `main.cpp` does it (first part, for all inputs): on a tick marked
for dump with a non-empty output file name, the encoded host framebuffer is
appended to the output file and the one line
`frameAbsTime frameRelTime frameDiffTime` (decimal, single spaces, newline)
to its `.pts` sidecar, and on an unmarked tick nothing is appended.
`inastitch.cpp` does not (second part): its output block is compiled out,
no tick ever appends to either file; on tick 0 of the demonstration run,
marked and with output file `out.mjpeg`, both stay empty while `main.cpp`
writes the frame and the line `40000 0 0`. -/
theorem c19_output_dump :
    (∀ (w : MainCpp.Externals) (o : Options) (s : LoopState MainCpp.FileContext),
      ((MainCpp.tick w o s).exited = false → (MainCpp.tick w o s).isFrameDumped = true →
        o.outFilename ≠ "" →
        (MainCpp.tick w o s).next.outJpegFile =
          s.outJpegFile ++ [w.encode (MainCpp.tick w o s).framebuffer] ∧
        (MainCpp.tick w o s).next.outPtsFile = s.outPtsFile ++
          [toString (MainCpp.tick w o s).frameAbsTime ++ " " ++
            toString (MainCpp.tick w o s).next.frameRelTime ++ " " ++
            toString (MainCpp.tick w o s).frameDiffTime ++ "\n"]) ∧
      ((MainCpp.tick w o s).isFrameDumped = false →
        (MainCpp.tick w o s).next.outJpegFile = s.outJpegFile ∧
        (MainCpp.tick w o s).next.outPtsFile = s.outPtsFile)) ∧
    (∀ (w : InastitchCpp.Externals) (o : Options)
        (s : LoopState InastitchCpp.GenericInputStreamContext),
      (InastitchCpp.tick w o s).next.outJpegFile = s.outJpegFile ∧
      (InastitchCpp.tick w o s).next.outPtsFile = s.outPtsFile) ∧
    (InastitchCpp.dumpTick0.isFrameDumped = true ∧
      (dumpOptions 0 0 false).outFilename ≠ "" ∧
      InastitchCpp.dumpTick0.next.outJpegFile = [] ∧
      InastitchCpp.dumpTick0.next.outPtsFile = [] ∧
      MainCpp.dumpTick0.isFrameDumped = true ∧
      MainCpp.dumpTick0.next.outJpegFile = [[]] ∧
      MainCpp.dumpTick0.next.outPtsFile = ["40000 0 0\n"]) :=
  ⟨MainCpp.tick_output, InastitchCpp.tick_output_untouched, by decide⟩

/-! ## Input dump -/

theorem fileContent_none (l : List FileWrite) (n : String) (h : ∀ f, f ∈ l → f.name ≠ n) :
    fileContent l n = none := by
  induction l with
  | nil => rfl
  | cons f fs ih =>
    unfold fileContent
    rw [ih (fun g hg => h g (List.mem_cons_of_mem f hg))]
    dsimp only
    rw [if_neg (h f (List.mem_cons_self f fs))]

theorem fileContent_of_mem_nodup (l : List FileWrite) (e : FileWrite) (he : e ∈ l)
    (hn : (l.map (fun f => f.name)).Nodup) : fileContent l e.name = some e.data := by
  induction l with
  | nil => exact absurd he (List.not_mem_nil e)
  | cons f fs ih =>
    rw [List.map_cons, List.nodup_cons] at hn
    unfold fileContent
    rcases List.mem_cons.mp he with h | h
    · subst h
      have none : fileContent fs e.name = none := by
        apply fileContent_none
        intro g hg hname
        exact hn.1 (List.mem_map.mpr ⟨g, hg, hname⟩)
      rw [none]
      dsimp only
      rw [if_pos rfl]
    · rw [ih h hn.2]

theorem fileContent_append_some (a b : List FileWrite) (n : String) (d : FileData)
    (h : fileContent b n = some d) : fileContent (a ++ b) n = some d := by
  induction a with
  | nil => exact h
  | cons f fs ih =>
    rw [List.cons_append]
    unfold fileContent
    rw [ih]

theorem string_append_left_cancel (p a b : String) (h : p ++ a = p ++ b) : a = b := by
  have e := congrArg String.data h
  rw [String.data_append, String.data_append] at e
  exact String.ext (List.append_cancel_left e)

theorem dumpSuffixes_names_nodup (p : String) : (dumpSuffixes.map (fun x => p ++ x)).Nodup :=
  List.Nodup.map (fun a b h => string_append_left_cancel p a b h) (by decide)

theorem inputDumpFiles_names (p : String) (i : Nat) (k : String) (payload : List Nat)
    (size a r f : Nat) :
    (inputDumpFiles p i k payload size a r f).map (fun x => x.name) =
      [p ++ toString i ++ ("in" ++ k ++ ".jpg"), p ++ toString i ++ ("in" ++ k ++ ".jpg.pts")] := by
  simp only [inputDumpFiles, List.map_cons, List.map_nil, String.append_assoc]
  rfl

theorem outputDumpFiles_names (p : String) (i : Nat) (d : List Nat) (t : String) :
    (outputDumpFiles p i d t).map (fun x => x.name) =
      [p ++ toString i ++ "out.jpg", p ++ toString i ++ "out.jpg.pts"] := by
  simp only [outputDumpFiles, List.map_cons, List.map_nil, String.append_assoc]
  rfl

theorem ite_sublist {α : Type} (c : Prop) [Decidable c] (l : List α) :
    (if c then l else []).Sublist l := by
  split
  · exact List.Sublist.refl l
  · exact List.nil_sublist l

/-- The files one tick can write have pairwise different names. -/
theorem dump_writes_nodup (p : String) (i : Nat) (c0 c1 c2 c3 : Prop) [Decidable c0]
    [Decidable c1] [Decidable c2] [Decidable c3] (l0 l1 l2 : List Nat)
    (z0 a0 r0 f0 z1 a1 r1 f1 z2 a2 r2 f2 : Nat) (d : List Nat) (t : String) :
    (((if c0 then inputDumpFiles p i "0" l0 z0 a0 r0 f0 else []) ++
      (if c1 then inputDumpFiles p i "1" l1 z1 a1 r1 f1 else []) ++
      (if c2 then inputDumpFiles p i "2" l2 z2 a2 r2 f2 else []) ++
      (if c3 then outputDumpFiles p i d t else [])).map (fun x => x.name)).Nodup := by
  have full : ((inputDumpFiles p i "0" l0 z0 a0 r0 f0 ++ inputDumpFiles p i "1" l1 z1 a1 r1 f1 ++
      inputDumpFiles p i "2" l2 z2 a2 r2 f2 ++ outputDumpFiles p i d t).map
        (fun x => x.name)).Nodup := by
    rw [List.map_append, List.map_append, List.map_append, inputDumpFiles_names,
      inputDumpFiles_names, inputDumpFiles_names, outputDumpFiles_names]
    exact dumpSuffixes_names_nodup (p ++ toString i)
  refine List.Nodup.sublist (List.Sublist.map _ ?_) full
  exact List.Sublist.append (List.Sublist.append (List.Sublist.append (ite_sublist _ _)
    (ite_sublist _ _)) (ite_sublist _ _)) (ite_sublist _ _)

theorem inputDumpFiles_eq (p : String) (i : Nat) (k x : String) (hx : "in" ++ k ++ ".jpg" = x)
    (l : List Nat) (z a r f : Nat) :
    inputDumpFiles p i k l z a r f =
      [ { name := p ++ toString i ++ x, data := FileData.bytes (l.take z) },
        { name := p ++ toString i ++ x ++ ".pts",
          data := FileData.text (toString a ++ " " ++ toString r ++ " " ++ toString f ++ "\n") } ] := by
  subst hx
  simp only [inputDumpFiles, String.append_assoc]

namespace InastitchCpp

theorem decodeTask_files (w : Externals) (o : Options) (b : Bool) (i : Nat) (k x : String)
    (hx : "in" ++ k ++ ".jpg" = x) (c : GenericInputStreamContext) (f : List FileWrite) :
    (decodeTask w o b i x c f).2 = f ++ expectedInputDump o b i k c := by
  unfold decodeTask expectedInputDump
  rw [inputDumpFiles_eq o.frameDumpPath i k x hx]
  by_cases h : c.jpegBufferSize > 0 ∧ c.timeDelay < o.maxDelay
  · rw [if_pos h]
    by_cases hb : b = true
    · by_cases hp : o.frameDumpPath = ""
      · simp [hb, hp]
      · simp [hb, hp, h.1, h.2, dumpJpegAndPtsAndTxt]
    · simp [hb]
  · rw [if_neg h]
    have : ¬ (b = true ∧ o.frameDumpPath ≠ "" ∧ 0 < c.jpegBufferSize ∧
        c.timeDelay < o.maxDelay) := fun g => h ⟨g.2.2.1, g.2.2.2⟩
    rw [if_neg this]
    simp

/-- The files a tick of `inastitch.cpp` writes are the expected input
dumps, appended to the log in the order of the sources. -/
theorem tick_files (w : Externals) (o : Options) (s : LoopState GenericInputStreamContext) :
    (tick w o s).next.files = s.files ++ expectedWrites w o s := by
  unfold expectedWrites
  rw [tick_eq]
  simp only [tickRest]
  rw [decodeTask_files w o _ _ "2" "in2.jpg" rfl, decodeTask_files w o _ _ "1" "in1.jpg" rfl,
    decodeTask_files w o _ _ "0" "in0.jpg" rfl]
  simp only [List.append_assoc]

end InastitchCpp

namespace MainCpp

theorem decodeStep_files (w : Externals) (o : Options) (b : Bool) (i : Nat) (k x : String)
    (hx : "in" ++ k ++ ".jpg" = x) (c : FileContext) (f : List FileWrite) :
    (decodeStep w o b i x c f).2 = f ++ expectedInputDump o b i k c := by
  unfold decodeStep expectedInputDump
  rw [inputDumpFiles_eq o.frameDumpPath i k x hx]
  by_cases h : c.timeDelay < o.maxDelay
  · rw [if_pos h]
    by_cases hb : b = true
    · by_cases hp : o.frameDumpPath = ""
      · simp [hb, hp]
      · simp [hb, hp, h, dumpJpegAndPtsAndTxt]
    · simp [hb]
  · rw [if_neg h]
    have : ¬ (b = true ∧ o.frameDumpPath ≠ "" ∧ c.timeDelay < o.maxDelay) := fun g => h g.2.2
    rw [if_neg this]
    simp

/-- The files a tick of `main.cpp` writes are the expected input dumps, in
the order of the sources, followed by the per-tick output dump. -/
theorem file_tick_files (w : Externals) (o : Options) (s : LoopState FileContext) :
    (tick w o s).next.files = s.files ++ (expectedWrites w o s ++ outputWrites w o s) := by
  unfold expectedWrites outputWrites
  by_cases e : ((tickSync w o s).eofContext0 && (tickSync w o s).eofContext1 &&
      (tickSync w o s).eofContext2) = true
  · rw [tick_of_eof w o s e]
    simp [tickBreak, expectedInputDump]
  · rw [tick_of_not_eof w o s e]
    simp only [tickRest]
    rw [decodeStep_files w o _ _ "2" "in2.jpg" rfl, decodeStep_files w o _ _ "1" "in1.jpg" rfl,
      decodeStep_files w o _ _ "0" "in0.jpg" rfl]
    by_cases m : (decide (s.frameCount ≥ o.frameDumpOffsetId) &&
        decide ((tickSync w o s).frameAbsTime ≥ o.frameDumpOffsetTime)) = true
    · by_cases hp : o.frameDumpPath = ""
      · simp [m, hp]
      · simp [m, hp, outputDumpFiles]
    · simp [m]

end MainCpp

namespace InastitchCpp

theorem expectedWrites_nodup (w : Externals) (o : Options)
    (s : LoopState GenericInputStreamContext) :
    ((expectedWrites w o s).map (fun x => x.name)).Nodup := by
  have h := dump_writes_nodup o.frameDumpPath (tick w o s).frameDumpIdx
    ((tick w o s).isFrameDumped = true ∧ o.frameDumpPath ≠ "" ∧
      0 < (tickSync w o s).ctx0.jpegBufferSize ∧ (tickSync w o s).ctx0.timeDelay < o.maxDelay)
    ((tick w o s).isFrameDumped = true ∧ o.frameDumpPath ≠ "" ∧
      0 < (tickSync w o s).ctx1.jpegBufferSize ∧ (tickSync w o s).ctx1.timeDelay < o.maxDelay)
    ((tick w o s).isFrameDumped = true ∧ o.frameDumpPath ≠ "" ∧
      0 < (tickSync w o s).ctx2.jpegBufferSize ∧ (tickSync w o s).ctx2.timeDelay < o.maxDelay)
    False
    (tickSync w o s).ctx0.jpegBuffer (tickSync w o s).ctx1.jpegBuffer
    (tickSync w o s).ctx2.jpegBuffer
    (tickSync w o s).ctx0.jpegBufferSize (tickSync w o s).ctx0.absTime
    (tickSync w o s).ctx0.relTime (tickSync w o s).ctx0.offTime
    (tickSync w o s).ctx1.jpegBufferSize (tickSync w o s).ctx1.absTime
    (tickSync w o s).ctx1.relTime (tickSync w o s).ctx1.offTime
    (tickSync w o s).ctx2.jpegBufferSize (tickSync w o s).ctx2.absTime
    (tickSync w o s).ctx2.relTime (tickSync w o s).ctx2.offTime [] ""
  rw [if_neg (fun f => f), List.append_nil] at h
  exact h

/-- After a tick of `inastitch.cpp`, every expected input-dump file holds
the expected data. -/
theorem tick_fileContent (w : Externals) (o : Options) (s : LoopState GenericInputStreamContext)
    (e : FileWrite) (he : e ∈ expectedWrites w o s) :
    fileContent (tick w o s).next.files e.name = some e.data := by
  rw [tick_files]
  exact fileContent_append_some _ _ _ _
    (fileContent_of_mem_nodup _ e he (expectedWrites_nodup w o s))

end InastitchCpp

namespace MainCpp

theorem file_expectedWrites_nodup (w : Externals) (o : Options) (s : LoopState FileContext) :
    ((expectedWrites w o s ++ outputWrites w o s).map (fun x => x.name)).Nodup :=
  dump_writes_nodup o.frameDumpPath (tick w o s).frameDumpIdx
    ((tick w o s).isFrameDumped = true ∧ o.frameDumpPath ≠ "" ∧
      (tickSync w o s).ctx0.timeDelay < o.maxDelay)
    ((tick w o s).isFrameDumped = true ∧ o.frameDumpPath ≠ "" ∧
      (tickSync w o s).ctx1.timeDelay < o.maxDelay)
    ((tick w o s).isFrameDumped = true ∧ o.frameDumpPath ≠ "" ∧
      (tickSync w o s).ctx2.timeDelay < o.maxDelay)
    ((tick w o s).isFrameDumped = true ∧ o.frameDumpPath ≠ "")
    (tickSync w o s).ctx0.decoderJpeg (tickSync w o s).ctx1.decoderJpeg
    (tickSync w o s).ctx2.decoderJpeg
    (tickSync w o s).ctx0.jpegBufferSize (tickSync w o s).ctx0.absTime
    (tickSync w o s).ctx0.relTime (tickSync w o s).ctx0.offTime
    (tickSync w o s).ctx1.jpegBufferSize (tickSync w o s).ctx1.absTime
    (tickSync w o s).ctx1.relTime (tickSync w o s).ctx1.offTime
    (tickSync w o s).ctx2.jpegBufferSize (tickSync w o s).ctx2.absTime
    (tickSync w o s).ctx2.relTime (tickSync w o s).ctx2.offTime
    (w.encode (tick w o s).framebuffer)
    (toString (tick w o s).frameAbsTime ++ " " ++ toString (tick w o s).next.frameRelTime ++ " " ++
      toString (tick w o s).frameDiffTime)

/-- After a tick of `main.cpp`, every expected input-dump file holds the
expected data. -/
theorem file_tick_fileContent (w : Externals) (o : Options) (s : LoopState FileContext)
    (e : FileWrite) (he : e ∈ expectedWrites w o s) :
    fileContent (tick w o s).next.files e.name = some e.data := by
  rw [file_tick_files]
  exact fileContent_append_some _ _ _ _
    (fileContent_of_mem_nodup _ e (List.mem_append_left _ he) (file_expectedWrites_nodup w o s))

end MainCpp

namespace InastitchCpp

theorem expectedInputDump_mem (w : Externals) (o : Options)
    (s : LoopState GenericInputStreamContext) (k : String) (c : GenericInputStreamContext)
    (h : (k, c) ∈ [("0", (tickSync w o s).ctx0), ("1", (tickSync w o s).ctx1),
      ("2", (tickSync w o s).ctx2)])
    (e : FileWrite)
    (he : e ∈ expectedInputDump o (tick w o s).isFrameDumped (tick w o s).frameDumpIdx k c) :
    e ∈ expectedWrites w o s := by
  unfold expectedWrites
  simp only [List.mem_cons, Prod.mk.injEq, List.mem_singleton, List.not_mem_nil, or_false] at h
  rcases h with ⟨rfl, rfl⟩ | ⟨rfl, rfl⟩ | ⟨rfl, rfl⟩
  · exact List.mem_append_left _ (List.mem_append_left _ he)
  · exact List.mem_append_left _ (List.mem_append_right _ he)
  · exact List.mem_append_right _ he

theorem tick_input_dump (w : Externals) (o : Options) (s : LoopState GenericInputStreamContext)
    (k : String) (c : GenericInputStreamContext)
    (h : (k, c) ∈ [("0", (tickSync w o s).ctx0), ("1", (tickSync w o s).ctx1),
      ("2", (tickSync w o s).ctx2)])
    (hm : (tick w o s).isFrameDumped = true) (hp : o.frameDumpPath ≠ "")
    (hz : 0 < c.jpegBufferSize) (hd : c.timeDelay < o.maxDelay) :
    fileContent (tick w o s).next.files
        (o.frameDumpPath ++ toString (tick w o s).frameDumpIdx ++ "in" ++ k ++ ".jpg")
      = some (FileData.bytes (c.jpegBuffer.take c.jpegBufferSize)) ∧
    fileContent (tick w o s).next.files
        (o.frameDumpPath ++ toString (tick w o s).frameDumpIdx ++ "in" ++ k ++ ".jpg" ++ ".pts")
      = some (FileData.text (toString c.absTime ++ " " ++ toString c.relTime ++ " " ++
          toString c.offTime ++ "\n")) := by
  have e : expectedInputDump o (tick w o s).isFrameDumped (tick w o s).frameDumpIdx k c =
      inputDumpFiles o.frameDumpPath (tick w o s).frameDumpIdx k c.jpegBuffer c.jpegBufferSize
        c.absTime c.relTime c.offTime := by
    unfold expectedInputDump
    rw [if_pos ⟨hm, hp, hz, hd⟩]
  constructor
  · exact tick_fileContent w o s _ (expectedInputDump_mem w o s k c h _
      (by rw [e]; exact List.mem_cons_self _ _))
  · exact tick_fileContent w o s _ (expectedInputDump_mem w o s k c h _
      (by rw [e]; exact List.mem_cons_of_mem _ (List.mem_cons_self _ _)))

end InastitchCpp

namespace MainCpp

theorem file_expectedInputDump_mem (w : Externals) (o : Options) (s : LoopState FileContext)
    (k : String) (c : FileContext)
    (h : (k, c) ∈ [("0", (tickSync w o s).ctx0), ("1", (tickSync w o s).ctx1),
      ("2", (tickSync w o s).ctx2)])
    (e : FileWrite)
    (he : e ∈ expectedInputDump o (tick w o s).isFrameDumped (tick w o s).frameDumpIdx k c) :
    e ∈ expectedWrites w o s := by
  unfold expectedWrites
  simp only [List.mem_cons, Prod.mk.injEq, List.mem_singleton, List.not_mem_nil, or_false] at h
  rcases h with ⟨rfl, rfl⟩ | ⟨rfl, rfl⟩ | ⟨rfl, rfl⟩
  · exact List.mem_append_left _ (List.mem_append_left _ he)
  · exact List.mem_append_left _ (List.mem_append_right _ he)
  · exact List.mem_append_right _ he

theorem file_tick_input_dump (w : Externals) (o : Options) (s : LoopState FileContext)
    (k : String) (c : FileContext)
    (h : (k, c) ∈ [("0", (tickSync w o s).ctx0), ("1", (tickSync w o s).ctx1),
      ("2", (tickSync w o s).ctx2)])
    (hm : (tick w o s).isFrameDumped = true) (hp : o.frameDumpPath ≠ "")
    (hd : c.timeDelay < o.maxDelay) :
    fileContent (tick w o s).next.files
        (o.frameDumpPath ++ toString (tick w o s).frameDumpIdx ++ "in" ++ k ++ ".jpg")
      = some (FileData.bytes (c.decoderJpeg.take c.jpegBufferSize)) ∧
    fileContent (tick w o s).next.files
        (o.frameDumpPath ++ toString (tick w o s).frameDumpIdx ++ "in" ++ k ++ ".jpg" ++ ".pts")
      = some (FileData.text (toString c.absTime ++ " " ++ toString c.relTime ++ " " ++
          toString c.offTime ++ "\n")) := by
  have e : expectedInputDump o (tick w o s).isFrameDumped (tick w o s).frameDumpIdx k c =
      inputDumpFiles o.frameDumpPath (tick w o s).frameDumpIdx k c.decoderJpeg c.jpegBufferSize
        c.absTime c.relTime c.offTime := by
    unfold expectedInputDump
    rw [if_pos ⟨hm, hp, hd⟩]
  constructor
  · exact file_tick_fileContent w o s _ (file_expectedInputDump_mem w o s k c h _
      (by rw [e]; exact List.mem_cons_self _ _))
  · exact file_tick_fileContent w o s _ (file_expectedInputDump_mem w o s k c h _
      (by rw [e]; exact List.mem_cons_of_mem _ (List.mem_cons_self _ _)))

end MainCpp

/-- C20: in both drivers, in every tick marked for dump with a non-empty
dump path, for every source `k` in 0, 1, 2 that is decoded in the tick (lag
below `maxDelay`; in `inastitch.cpp` also a non-empty payload), after the
tick the file `frameDumpPath ++ decimal(frameDumpIdx) ++ "in" ++ k ++ ".jpg"`
holds exactly the first `jpegBufferSize` bytes of the source's encoded
payload and the file of that name followed by `".pts"` holds exactly the one
line `absTime relTime offTime` (decimal, single spaces, newline). The
tick's whole file log is the expected dumps in source order (followed in
`main.cpp` by the per-tick output dump). -/
theorem c20_input_dump_files (wi : InastitchCpp.Externals) (wm : MainCpp.Externals)
    (o : Options) (si : LoopState InastitchCpp.GenericInputStreamContext)
    (sm : LoopState MainCpp.FileContext) :
    ((InastitchCpp.tick wi o si).next.files = si.files ++ InastitchCpp.expectedWrites wi o si ∧
      (∀ k c, (k, c) ∈ [("0", (InastitchCpp.tickSync wi o si).ctx0),
            ("1", (InastitchCpp.tickSync wi o si).ctx1),
            ("2", (InastitchCpp.tickSync wi o si).ctx2)] →
        (InastitchCpp.tick wi o si).isFrameDumped = true → o.frameDumpPath ≠ "" →
        0 < c.jpegBufferSize → c.timeDelay < o.maxDelay →
        fileContent (InastitchCpp.tick wi o si).next.files
            (o.frameDumpPath ++ toString (InastitchCpp.tick wi o si).frameDumpIdx ++ "in" ++ k
              ++ ".jpg")
          = some (FileData.bytes (c.jpegBuffer.take c.jpegBufferSize)) ∧
        fileContent (InastitchCpp.tick wi o si).next.files
            (o.frameDumpPath ++ toString (InastitchCpp.tick wi o si).frameDumpIdx ++ "in" ++ k
              ++ ".jpg" ++ ".pts")
          = some (FileData.text (toString c.absTime ++ " " ++ toString c.relTime ++ " " ++
              toString c.offTime ++ "\n")) ∧
        (c.jpegBufferSize ≤ c.jpegBuffer.length →
          (c.jpegBuffer.take c.jpegBufferSize).length = c.jpegBufferSize))) ∧
    ((MainCpp.tick wm o sm).next.files =
        sm.files ++ (MainCpp.expectedWrites wm o sm ++ MainCpp.outputWrites wm o sm) ∧
      (∀ k c, (k, c) ∈ [("0", (MainCpp.tickSync wm o sm).ctx0),
            ("1", (MainCpp.tickSync wm o sm).ctx1),
            ("2", (MainCpp.tickSync wm o sm).ctx2)] →
        (MainCpp.tick wm o sm).isFrameDumped = true → o.frameDumpPath ≠ "" →
        c.timeDelay < o.maxDelay →
        fileContent (MainCpp.tick wm o sm).next.files
            (o.frameDumpPath ++ toString (MainCpp.tick wm o sm).frameDumpIdx ++ "in" ++ k
              ++ ".jpg")
          = some (FileData.bytes (c.decoderJpeg.take c.jpegBufferSize)) ∧
        fileContent (MainCpp.tick wm o sm).next.files
            (o.frameDumpPath ++ toString (MainCpp.tick wm o sm).frameDumpIdx ++ "in" ++ k
              ++ ".jpg" ++ ".pts")
          = some (FileData.text (toString c.absTime ++ " " ++ toString c.relTime ++ " " ++
              toString c.offTime ++ "\n")) ∧
        (c.jpegBufferSize ≤ c.decoderJpeg.length →
          (c.decoderJpeg.take c.jpegBufferSize).length = c.jpegBufferSize))) := by
  refine ⟨⟨InastitchCpp.tick_files wi o si, fun k c h hm hp hz hd => ?_⟩,
    ⟨MainCpp.file_tick_files wm o sm, fun k c h hm hp hd => ?_⟩⟩
  · obtain ⟨a, b⟩ := InastitchCpp.tick_input_dump wi o si k c h hm hp hz hd
    exact ⟨a, b, fun le => by rw [List.length_take]; omega⟩
  · obtain ⟨a, b⟩ := MainCpp.file_tick_input_dump wm o sm k c h hm hp hd
    exact ⟨a, b, fun le => by rw [List.length_take]; omega⟩

/-- C20 on tick 0 of the demonstration run of each driver with dump path
`dump/`: the six input-dump files and what they hold (each source delivers
one byte, stamped 80000 by the advance of this tick). -/
theorem c20_input_dump_witness :
    fileContent InastitchCpp.dumpTick0.next.files "dump/0in0.jpg" = some (FileData.bytes [7]) ∧
    fileContent InastitchCpp.dumpTick0.next.files "dump/0in0.jpg.pts"
      = some (FileData.text "80000 0 0\n") ∧
    fileContent InastitchCpp.dumpTick0.next.files "dump/0in1.jpg" = some (FileData.bytes [8]) ∧
    fileContent InastitchCpp.dumpTick0.next.files "dump/0in2.jpg.pts"
      = some (FileData.text "80000 0 0\n") ∧
    InastitchCpp.dumpTick0.next.files.length = 6 ∧
    fileContent MainCpp.dumpTick0.next.files "dump/0in0.jpg" = some (FileData.bytes [7]) ∧
    fileContent MainCpp.dumpTick0.next.files "dump/0in0.jpg.pts"
      = some (FileData.text "80000 0 0\n") ∧
    fileContent MainCpp.dumpTick0.next.files "dump/0in2.jpg" = some (FileData.bytes [9]) ∧
    MainCpp.dumpTick0.next.files.length = 8 ∧
    (InastitchCpp.dumpTick0.next.files = InastitchCpp.demoStart.files ++
      InastitchCpp.expectedWrites (InastitchCpp.demoExternals 1 1 1) (dumpOptions 0 0 false)
        InastitchCpp.demoStart) :=
  ⟨by decide, by decide, by decide, by decide, by decide, by decide, by decide, by decide,
    by decide,
    (c20_input_dump_files (InastitchCpp.demoExternals 1 1 1) (MainCpp.demoExternals 1 1 1)
      (dumpOptions 0 0 false) InastitchCpp.demoStart MainCpp.demoStart).1.1⟩

/-! ## The source that holds the minimum -/

theorem min_lag_zero (a0 a1 a2 : Nat) :
    sub64 a0 (min a0 (min a1 a2)) = 0 ∨ sub64 a1 (min a0 (min a1 a2)) = 0 ∨
      sub64 a2 (min a0 (min a1 a2)) = 0 := by
  have h : min a0 (min a1 a2) = a0 ∨ min a0 (min a1 a2) = a1 ∨ min a0 (min a1 a2) = a2 := by
    omega
  rcases h with h | h | h
  · left
    rw [h]
    exact sub64_self a0
  · right
    left
    rw [h]
    exact sub64_self a1
  · right
    right
    rw [h]
    exact sub64_self a2

namespace InastitchCpp

theorem tickSync_lag (w : Externals) (o : Options) (s : LoopState GenericInputStreamContext) :
    (tickSync w o s).ctx0.timeDelay
      = sub64 s.ctx0.absTime (min s.ctx0.absTime (min s.ctx1.absTime s.ctx2.absTime)) ∧
    (tickSync w o s).ctx1.timeDelay
      = sub64 s.ctx1.absTime (min s.ctx0.absTime (min s.ctx1.absTime s.ctx2.absTime)) ∧
    (tickSync w o s).ctx2.timeDelay
      = sub64 s.ctx2.absTime (min s.ctx0.absTime (min s.ctx1.absTime s.ctx2.absTime)) := by
  obtain ⟨t0, t1, t2⟩ := tick_timeDelay w o s
  obtain ⟨d0, d1, d2⟩ := tickSync_timeDelay w o s
  rw [tick_frameAbsTime] at t0 t1 t2
  exact ⟨d0.trans t0, d1.trans t1, d2.trans t2⟩

theorem tickSync_advanced (w : Externals) (o : Options)
    (s : LoopState GenericInputStreamContext) :
    AdvancedIffEligible o.maxDelay s.ctx0 (tickSync w o s).ctx0 ∧
    AdvancedIffEligible o.maxDelay s.ctx1 (tickSync w o s).ctx1 ∧
    AdvancedIffEligible o.maxDelay s.ctx2 (tickSync w o s).ctx2 :=
  ⟨advance_spec _ _ _, advance_spec _ _ _, advance_spec _ _ _⟩

theorem tick_min_source (w : Externals) (o : Options) (s : LoopState GenericInputStreamContext) :
    ((tickSync w o s).ctx0.timeDelay = 0 ∧
        (0 < o.maxDelay → (tickSync w o s).ctx0.parserCalls = s.ctx0.parserCalls + 1)) ∨
      ((tickSync w o s).ctx1.timeDelay = 0 ∧
        (0 < o.maxDelay → (tickSync w o s).ctx1.parserCalls = s.ctx1.parserCalls + 1)) ∨
      ((tickSync w o s).ctx2.timeDelay = 0 ∧
        (0 < o.maxDelay → (tickSync w o s).ctx2.parserCalls = s.ctx2.parserCalls + 1)) := by
  obtain ⟨t0, t1, t2⟩ := tickSync_lag w o s
  obtain ⟨a0, a1, a2⟩ := tickSync_advanced w o s
  rcases min_lag_zero s.ctx0.absTime s.ctx1.absTime s.ctx2.absTime with h | h | h
  · exact Or.inl ⟨t0.trans h, fun m => a0.1.mpr (by rw [t0.trans h]; exact m)⟩
  · exact Or.inr (Or.inl ⟨t1.trans h, fun m => a1.1.mpr (by rw [t1.trans h]; exact m)⟩)
  · exact Or.inr (Or.inr ⟨t2.trans h, fun m => a2.1.mpr (by rw [t2.trans h]; exact m)⟩)

theorem tick_zero_ceiling (w : Externals) (o : Options) (s : LoopState GenericInputStreamContext)
    (h : o.maxDelay = 0) :
    ((tickSync w o s).ctx0.parserCalls = s.ctx0.parserCalls ∧
      (tickSync w o s).ctx1.parserCalls = s.ctx1.parserCalls ∧
      (tickSync w o s).ctx2.parserCalls = s.ctx2.parserCalls) ∧
    (WhiteFilled (tickSync w o s).ctx0 (tick w o s).next.ctx0 ∧
      WhiteFilled (tickSync w o s).ctx1 (tick w o s).next.ctx1 ∧
      WhiteFilled (tickSync w o s).ctx2 (tick w o s).next.ctx2) := by
  obtain ⟨a0, a1, a2⟩ := tickSync_advanced w o s
  obtain ⟨⟨b0, i0, x0, f0, e0⟩, ⟨b1, i1, x1, f1, e1⟩, ⟨b2, i2, x2, f2, e2⟩⟩ := tick_ctx w o s
  have z : ∀ c : GenericInputStreamContext, o.maxDelay ≤ c.timeDelay := fun c => by omega
  refine ⟨⟨(a0.2 (z _)).1, (a1.2 (z _)).1, (a2.2 (z _)).1⟩, ?_, ?_, ?_⟩
  · rw [e0]
    exact (decodeTask_rule w o b0 i0 x0 _ f0).1 (z _)
  · rw [e1]
    exact (decodeTask_rule w o b1 i1 x1 _ f1).1 (z _)
  · rw [e2]
    exact (decodeTask_rule w o b2 i2 x2 _ f2).1 (z _)

end InastitchCpp

namespace MainCpp

theorem file_decodeWhite_whiteFilled (c : FileContext) : WhiteFilled c (decodeWhite c) :=
  ⟨fun j h => decodeWhiteLoop_white c.rgbaBufferSize c.decoderRgba j h, rfl⟩

theorem file_advance_stale_eof (p : Nat → List Nat → List Nat × Nat) (q : Nat → PtsRead)
    (m : Nat) (c : FileContext) (h : m ≤ c.timeDelay) : (advance p q m c).2 = false := by
  unfold advance
  rw [if_neg (by omega)]

theorem file_tickSync_lag (w : Externals) (o : Options) (s : LoopState FileContext) :
    (tickSync w o s).ctx0.timeDelay
      = sub64 s.ctx0.absTime (min s.ctx0.absTime (min s.ctx1.absTime s.ctx2.absTime)) ∧
    (tickSync w o s).ctx1.timeDelay
      = sub64 s.ctx1.absTime (min s.ctx0.absTime (min s.ctx1.absTime s.ctx2.absTime)) ∧
    (tickSync w o s).ctx2.timeDelay
      = sub64 s.ctx2.absTime (min s.ctx0.absTime (min s.ctx1.absTime s.ctx2.absTime)) := by
  obtain ⟨t0, t1, t2⟩ := file_tick_timeDelay w o s
  obtain ⟨d0, d1, d2⟩ := file_tickSync_timeDelay w o s
  rw [file_tick_frameAbsTime] at t0 t1 t2
  exact ⟨d0.trans t0, d1.trans t1, d2.trans t2⟩

theorem file_tickSync_advanced (w : Externals) (o : Options) (s : LoopState FileContext) :
    AdvancedIffEligible o.maxDelay s.ctx0 (tickSync w o s).ctx0 ∧
    AdvancedIffEligible o.maxDelay s.ctx1 (tickSync w o s).ctx1 ∧
    AdvancedIffEligible o.maxDelay s.ctx2 (tickSync w o s).ctx2 :=
  ⟨file_advance_spec _ _ _ _, file_advance_spec _ _ _ _, file_advance_spec _ _ _ _⟩

theorem file_tick_min_source (w : Externals) (o : Options) (s : LoopState FileContext) :
    ((tickSync w o s).ctx0.timeDelay = 0 ∧
        (0 < o.maxDelay → (tickSync w o s).ctx0.parserCalls = s.ctx0.parserCalls + 1)) ∨
      ((tickSync w o s).ctx1.timeDelay = 0 ∧
        (0 < o.maxDelay → (tickSync w o s).ctx1.parserCalls = s.ctx1.parserCalls + 1)) ∨
      ((tickSync w o s).ctx2.timeDelay = 0 ∧
        (0 < o.maxDelay → (tickSync w o s).ctx2.parserCalls = s.ctx2.parserCalls + 1)) := by
  obtain ⟨t0, t1, t2⟩ := file_tickSync_lag w o s
  obtain ⟨a0, a1, a2⟩ := file_tickSync_advanced w o s
  rcases min_lag_zero s.ctx0.absTime s.ctx1.absTime s.ctx2.absTime with h | h | h
  · exact Or.inl ⟨t0.trans h, fun m => a0.1.mpr (by rw [t0.trans h]; exact m)⟩
  · exact Or.inr (Or.inl ⟨t1.trans h, fun m => a1.1.mpr (by rw [t1.trans h]; exact m)⟩)
  · exact Or.inr (Or.inr ⟨t2.trans h, fun m => a2.1.mpr (by rw [t2.trans h]; exact m)⟩)

theorem file_tick_zero_ceiling (w : Externals) (o : Options) (s : LoopState FileContext)
    (h : o.maxDelay = 0) :
    ((tickSync w o s).ctx0.parserCalls = s.ctx0.parserCalls ∧
      (tickSync w o s).ctx1.parserCalls = s.ctx1.parserCalls ∧
      (tickSync w o s).ctx2.parserCalls = s.ctx2.parserCalls) ∧
    (tick w o s).exited = false ∧
    (WhiteFilled (tickSync w o s).ctx0 (tick w o s).next.ctx0 ∧
      WhiteFilled (tickSync w o s).ctx1 (tick w o s).next.ctx1 ∧
      WhiteFilled (tickSync w o s).ctx2 (tick w o s).next.ctx2) := by
  obtain ⟨a0, a1, a2⟩ := file_tickSync_advanced w o s
  have z : ∀ c : FileContext, o.maxDelay ≤ c.timeDelay := fun c => by omega
  have e : ¬ ((tickSync w o s).eofContext0 && (tickSync w o s).eofContext1 &&
      (tickSync w o s).eofContext2) = true := by
    have e0 : (tickSync w o s).eofContext0 = false := file_advance_stale_eof _ _ _ _ (z _)
    rw [e0]
    simp
  refine ⟨⟨(a0.2 (z _)).1, (a1.2 (z _)).1, (a2.2 (z _)).1⟩, ?_, ?_, ?_, ?_⟩
  · rw [tick_of_not_eof w o s e]
    rfl
  · rw [tick_of_not_eof w o s e]
    simp only [tickRest]
    rw [decodeStep_stale w o _ _ _ _ _ (z _)]
    exact file_decodeWhite_whiteFilled _
  · rw [tick_of_not_eof w o s e]
    simp only [tickRest]
    rw [decodeStep_stale w o _ _ _ _ _ (z _)]
    exact file_decodeWhite_whiteFilled _
  · rw [tick_of_not_eof w o s e]
    simp only [tickRest]
    rw [decodeStep_stale w o _ _ _ _ _ (z _)]
    exact file_decodeWhite_whiteFilled _

end MainCpp

/-- C28: in every tick of both drivers some source has lag 0 (the one that
holds the minimum). With `maxDelay > 0` that source is eligible and its
parser is called in this tick. With `maxDelay == 0` no source is eligible,
no parser is called, and the decode stage white-fills all three sources
(every byte below `rgbaBufferSize` is `0xFF`, no decoder call); in
`main.cpp` such a tick is not left by `break`. -/
theorem c28_min_source_lag_zero (wi : InastitchCpp.Externals) (wm : MainCpp.Externals)
    (o : Options) (si : LoopState InastitchCpp.GenericInputStreamContext)
    (sm : LoopState MainCpp.FileContext) :
    ((((InastitchCpp.tickSync wi o si).ctx0.timeDelay = 0 ∧
          (0 < o.maxDelay → (InastitchCpp.tickSync wi o si).ctx0.timeDelay < o.maxDelay ∧
            (InastitchCpp.tick wi o si).next.ctx0.parserCalls = si.ctx0.parserCalls + 1)) ∨
        ((InastitchCpp.tickSync wi o si).ctx1.timeDelay = 0 ∧
          (0 < o.maxDelay → (InastitchCpp.tickSync wi o si).ctx1.timeDelay < o.maxDelay ∧
            (InastitchCpp.tick wi o si).next.ctx1.parserCalls = si.ctx1.parserCalls + 1)) ∨
        ((InastitchCpp.tickSync wi o si).ctx2.timeDelay = 0 ∧
          (0 < o.maxDelay → (InastitchCpp.tickSync wi o si).ctx2.timeDelay < o.maxDelay ∧
            (InastitchCpp.tick wi o si).next.ctx2.parserCalls = si.ctx2.parserCalls + 1))) ∧
      (o.maxDelay = 0 →
        (¬ (InastitchCpp.tickSync wi o si).ctx0.timeDelay < o.maxDelay ∧
          ¬ (InastitchCpp.tickSync wi o si).ctx1.timeDelay < o.maxDelay ∧
          ¬ (InastitchCpp.tickSync wi o si).ctx2.timeDelay < o.maxDelay) ∧
        ((InastitchCpp.tick wi o si).next.ctx0.parserCalls = si.ctx0.parserCalls ∧
          (InastitchCpp.tick wi o si).next.ctx1.parserCalls = si.ctx1.parserCalls ∧
          (InastitchCpp.tick wi o si).next.ctx2.parserCalls = si.ctx2.parserCalls) ∧
        (InastitchCpp.WhiteFilled (InastitchCpp.tickSync wi o si).ctx0
            (InastitchCpp.tick wi o si).next.ctx0 ∧
          InastitchCpp.WhiteFilled (InastitchCpp.tickSync wi o si).ctx1
            (InastitchCpp.tick wi o si).next.ctx1 ∧
          InastitchCpp.WhiteFilled (InastitchCpp.tickSync wi o si).ctx2
            (InastitchCpp.tick wi o si).next.ctx2))) ∧
    ((((MainCpp.tickSync wm o sm).ctx0.timeDelay = 0 ∧
          (0 < o.maxDelay → (MainCpp.tickSync wm o sm).ctx0.timeDelay < o.maxDelay ∧
            (MainCpp.tick wm o sm).next.ctx0.parserCalls = sm.ctx0.parserCalls + 1)) ∨
        ((MainCpp.tickSync wm o sm).ctx1.timeDelay = 0 ∧
          (0 < o.maxDelay → (MainCpp.tickSync wm o sm).ctx1.timeDelay < o.maxDelay ∧
            (MainCpp.tick wm o sm).next.ctx1.parserCalls = sm.ctx1.parserCalls + 1)) ∨
        ((MainCpp.tickSync wm o sm).ctx2.timeDelay = 0 ∧
          (0 < o.maxDelay → (MainCpp.tickSync wm o sm).ctx2.timeDelay < o.maxDelay ∧
            (MainCpp.tick wm o sm).next.ctx2.parserCalls = sm.ctx2.parserCalls + 1))) ∧
      (o.maxDelay = 0 →
        (¬ (MainCpp.tickSync wm o sm).ctx0.timeDelay < o.maxDelay ∧
          ¬ (MainCpp.tickSync wm o sm).ctx1.timeDelay < o.maxDelay ∧
          ¬ (MainCpp.tickSync wm o sm).ctx2.timeDelay < o.maxDelay) ∧
        ((MainCpp.tick wm o sm).next.ctx0.parserCalls = sm.ctx0.parserCalls ∧
          (MainCpp.tick wm o sm).next.ctx1.parserCalls = sm.ctx1.parserCalls ∧
          (MainCpp.tick wm o sm).next.ctx2.parserCalls = sm.ctx2.parserCalls) ∧
        (MainCpp.tick wm o sm).exited = false ∧
        (MainCpp.WhiteFilled (MainCpp.tickSync wm o sm).ctx0 (MainCpp.tick wm o sm).next.ctx0 ∧
          MainCpp.WhiteFilled (MainCpp.tickSync wm o sm).ctx1 (MainCpp.tick wm o sm).next.ctx1 ∧
          MainCpp.WhiteFilled (MainCpp.tickSync wm o sm).ctx2
            (MainCpp.tick wm o sm).next.ctx2))) := by
  obtain ⟨p0, p1, p2⟩ := InastitchCpp.tick_parserCalls wi o si
  obtain ⟨q0, q1, q2⟩ := MainCpp.file_tick_parserCalls wm o sm
  rw [p0, p1, p2, q0, q1, q2]
  refine ⟨⟨?_, fun h => ?_⟩, ⟨?_, fun h => ?_⟩⟩
  · rcases InastitchCpp.tick_min_source wi o si with ⟨z, a⟩ | ⟨z, a⟩ | ⟨z, a⟩
    · exact Or.inl ⟨z, fun m => ⟨by omega, a m⟩⟩
    · exact Or.inr (Or.inl ⟨z, fun m => ⟨by omega, a m⟩⟩)
    · exact Or.inr (Or.inr ⟨z, fun m => ⟨by omega, a m⟩⟩)
  · obtain ⟨a, b⟩ := InastitchCpp.tick_zero_ceiling wi o si h
    exact ⟨⟨by omega, by omega, by omega⟩, a, b⟩
  · rcases MainCpp.file_tick_min_source wm o sm with ⟨z, a⟩ | ⟨z, a⟩ | ⟨z, a⟩
    · exact Or.inl ⟨z, fun m => ⟨by omega, a m⟩⟩
    · exact Or.inr (Or.inl ⟨z, fun m => ⟨by omega, a m⟩⟩)
    · exact Or.inr (Or.inr ⟨z, fun m => ⟨by omega, a m⟩⟩)
  · obtain ⟨a, b, c⟩ := MainCpp.file_tick_zero_ceiling wm o sm h
    exact ⟨⟨by omega, by omega, by omega⟩, a, b, c⟩

/-! ## A source that was never decoded -/

namespace InastitchCpp

theorem advance_nullUntilDecoded (p : Nat → Nat → StreamFrame) (m : Nat)
    (c : GenericInputStreamContext) (h : NullUntilDecoded c) :
    NullUntilDecoded (advance p m c).1 := by
  unfold advance getFrame
  split <;> exact h

theorem decodeTask_nullUntilDecoded (w : Externals) (o : Options) (b : Bool) (i : Nat)
    (x : String) (c : GenericInputStreamContext) (f : List FileWrite)
    (h : NullUntilDecoded c) : NullUntilDecoded (decodeTask w o b i x c f).1 := by
  unfold decodeTask
  split
  · intro e
    exact absurd e (Nat.succ_ne_zero _)
  · exact h

theorem tick_nullUntilDecoded (w : Externals) (o : Options)
    (s : LoopState GenericInputStreamContext) (h : EachSource NullUntilDecoded s) :
    EachSource NullUntilDecoded (tick w o s).next := by
  obtain ⟨⟨b0, i0, x0, f0, e0⟩, ⟨b1, i1, x1, f1, e1⟩, ⟨b2, i2, x2, f2, e2⟩⟩ := tick_ctx w o s
  unfold EachSource
  rw [e0, e1, e2]
  exact ⟨decodeTask_nullUntilDecoded w o _ _ _ _ _ (advance_nullUntilDecoded _ _ _ h.1),
    decodeTask_nullUntilDecoded w o _ _ _ _ _ (advance_nullUntilDecoded _ _ _ h.2.1),
    decodeTask_nullUntilDecoded w o _ _ _ _ _ (advance_nullUntilDecoded _ _ _ h.2.2)⟩

theorem initialState_nullUntilDecoded (w : Externals) (n : Nat) (rgba : Nat → Nat) :
    EachSource NullUntilDecoded (initialState w n rgba) :=
  ⟨fun _ => rfl, fun _ => rfl, fun _ => rfl⟩

/-- The draw calls of a tick read the three `rgbaBuffer` pointers the decode
stage left. -/
theorem tick_draw_input (w : Externals) (o : Options) (s : LoopState GenericInputStreamContext) :
    ∃ i : ComposeInput, (tick w o s).composed = some (w.compose i) ∧
      i.bmpBuffer0 = deref (tick w o s).next.ctx0.rgbaBuffer (tick w o s).next.ctx0.decoderRgba ∧
      i.bmpBuffer1 = deref (tick w o s).next.ctx1.rgbaBuffer (tick w o s).next.ctx1.decoderRgba ∧
      i.bmpBuffer2 = deref (tick w o s).next.ctx2.rgbaBuffer (tick w o s).next.ctx2.decoderRgba := by
  rw [tick_eq]
  exact ⟨_, rfl, rfl, rfl, rfl⟩

end InastitchCpp

namespace MainCpp

theorem file_advance_nullUntilDecoded (p : Nat → List Nat → List Nat × Nat) (q : Nat → PtsRead)
    (m : Nat) (c : FileContext) (h : NullUntilDecoded c) :
    NullUntilDecoded (advance p q m c).1 := by
  unfold advance parseFrame
  split <;> exact h

theorem decodeStep_nullUntilDecoded (w : Externals) (o : Options) (b : Bool) (i : Nat)
    (x : String) (c : FileContext) (f : List FileWrite)
    (h : NullUntilDecoded c) : NullUntilDecoded (decodeStep w o b i x c f).1 := by
  unfold decodeStep
  split
  · intro e
    exact absurd e (Nat.succ_ne_zero _)
  · exact h

theorem file_tick_nullUntilDecoded (w : Externals) (o : Options) (s : LoopState FileContext)
    (h : EachSource NullUntilDecoded s) : EachSource NullUntilDecoded (tick w o s).next := by
  unfold tick
  dsimp only
  split
  · exact ⟨file_advance_nullUntilDecoded _ _ _ _ h.1, file_advance_nullUntilDecoded _ _ _ _ h.2.1,
      file_advance_nullUntilDecoded _ _ _ _ h.2.2⟩
  · exact ⟨decodeStep_nullUntilDecoded w o _ _ _ _ _ (file_advance_nullUntilDecoded _ _ _ _ h.1),
      decodeStep_nullUntilDecoded w o _ _ _ _ _ (file_advance_nullUntilDecoded _ _ _ _ h.2.1),
      decodeStep_nullUntilDecoded w o _ _ _ _ _ (file_advance_nullUntilDecoded _ _ _ _ h.2.2)⟩

theorem file_initialState_nullUntilDecoded (w : Externals) (n : Nat) (rgba : Nat → Nat) :
    EachSource NullUntilDecoded (initialState w n rgba) :=
  ⟨fun _ => rfl, fun _ => rfl, fun _ => rfl⟩

/-- The draw calls of a tick that is not left by `break` read the three
`rgbaBuffer` pointers the decode stage left. -/
theorem file_tick_draw_input (w : Externals) (o : Options) (s : LoopState FileContext)
    (h : (tick w o s).exited = false) :
    ∃ i : ComposeInput, (tick w o s).composed = some (w.compose i) ∧
      i.bmpBuffer0 = deref (tick w o s).next.ctx0.rgbaBuffer (tick w o s).next.ctx0.decoderRgba ∧
      i.bmpBuffer1 = deref (tick w o s).next.ctx1.rgbaBuffer (tick w o s).next.ctx1.decoderRgba ∧
      i.bmpBuffer2 = deref (tick w o s).next.ctx2.rgbaBuffer (tick w o s).next.ctx2.decoderRgba := by
  rw [tick_rest_of_not_exited w o s h]
  exact ⟨_, rfl, rfl, rfl, rfl⟩

end MainCpp


/-- C30: `decodeWhite` leaves the field `rgbaBuffer` as it was and only
`decodeJpeg` assigns it (the pointer `Decoder::decode` returns). In a run of
either driver from the state in which the loop is entered, a source whose
decoder has not been called up to and including tick `t` (`decodeCalls` is
still 0: every tick so far took the white branch for it) still has a null
`rgbaBuffer` after the decode stage of tick `t`, and the draw calls of
tick `t` get no buffer for that source (the `bmpBuffer != nullptr` test
fails), whatever `decodeWhite` wrote into the decoder's RGBA buffer. In
`main.cpp` the draw calls are those of a tick not left by `break`. -/
theorem c30_never_decoded_source_skipped (wi : InastitchCpp.Externals) (wm : MainCpp.Externals)
    (o : Options) (n : Nat) (rgba : Nat → Nat) (t : Nat)
    (ki : Tick InastitchCpp.GenericInputStreamContext) (km : Tick MainCpp.FileContext)
    (hi : InastitchCpp.tickAt wi o t (InastitchCpp.initialState wi n rgba) = some ki)
    (hm : MainCpp.tickAt wm o t (MainCpp.initialState wm n rgba) = some km) :
    ((∀ c, (InastitchCpp.decodeWhite c).rgbaBuffer = c.rgbaBuffer) ∧
      (∀ c, (InastitchCpp.decodeJpeg wi c).rgbaBuffer
        = (wi.decode c.jpegBuffer c.jpegBufferSize c.decoderRgba).ptr) ∧
      ∃ i : ComposeInput, ki.composed = some (wi.compose i) ∧
        (ki.next.ctx0.decodeCalls = 0 →
          ki.next.ctx0.rgbaBuffer = BufferPtr.null ∧ i.bmpBuffer0 = none) ∧
        (ki.next.ctx1.decodeCalls = 0 →
          ki.next.ctx1.rgbaBuffer = BufferPtr.null ∧ i.bmpBuffer1 = none) ∧
        (ki.next.ctx2.decodeCalls = 0 →
          ki.next.ctx2.rgbaBuffer = BufferPtr.null ∧ i.bmpBuffer2 = none)) ∧
    ((∀ c, (MainCpp.decodeWhite c).rgbaBuffer = c.rgbaBuffer) ∧
      (∀ c, (MainCpp.decodeJpeg wm c).rgbaBuffer = (wm.decode c.decoderJpeg c.decoderRgba).ptr) ∧
      (km.next.ctx0.decodeCalls = 0 → km.next.ctx0.rgbaBuffer = BufferPtr.null) ∧
      (km.next.ctx1.decodeCalls = 0 → km.next.ctx1.rgbaBuffer = BufferPtr.null) ∧
      (km.next.ctx2.decodeCalls = 0 → km.next.ctx2.rgbaBuffer = BufferPtr.null) ∧
      (km.exited = false →
        ∃ i : ComposeInput, km.composed = some (wm.compose i) ∧
          (km.next.ctx0.decodeCalls = 0 → i.bmpBuffer0 = none) ∧
          (km.next.ctx1.decodeCalls = 0 → i.bmpBuffer1 = none) ∧
          (km.next.ctx2.decodeCalls = 0 → i.bmpBuffer2 = none))) := by
  obtain ⟨x, hx, -, ex⟩ := (nthTick_iff _ _ t _ ki).mp hi
  obtain ⟨y, hy, -, ey⟩ := (nthTick_iff _ _ t _ km).mp hm
  have px : EachSource InastitchCpp.NullUntilDecoded x :=
    nthState_invariant _ _ (EachSource InastitchCpp.NullUntilDecoded)
      (fun z hz _ => InastitchCpp.tick_nullUntilDecoded wi o z hz) t _ x hx
      (InastitchCpp.initialState_nullUntilDecoded wi n rgba)
  have py : EachSource MainCpp.NullUntilDecoded y :=
    nthState_invariant _ _ (EachSource MainCpp.NullUntilDecoded)
      (fun z hz _ => MainCpp.file_tick_nullUntilDecoded wm o z hz) t _ y hy
      (MainCpp.file_initialState_nullUntilDecoded wm n rgba)
  obtain ⟨a0, a1, a2⟩ := InastitchCpp.tick_nullUntilDecoded wi o x px
  obtain ⟨b0, b1, b2⟩ := MainCpp.file_tick_nullUntilDecoded wm o y py
  rw [ex, ey]
  refine ⟨⟨fun _ => rfl, fun _ => rfl, ?_⟩, fun _ => rfl, fun _ => rfl, b0, b1, b2, fun e => ?_⟩
  · obtain ⟨i, hc, i0, i1, i2⟩ := InastitchCpp.tick_draw_input wi o x
    refine ⟨i, hc, fun z => ⟨a0 z, ?_⟩, fun z => ⟨a1 z, ?_⟩, fun z => ⟨a2 z, ?_⟩⟩
    · rw [i0, a0 z]
      rfl
    · rw [i1, a1 z]
      rfl
    · rw [i2, a2 z]
      rfl
  · obtain ⟨i, hc, i0, i1, i2⟩ := MainCpp.file_tick_draw_input wm o y e
    refine ⟨i, hc, fun z => ?_, fun z => ?_, fun z => ?_⟩
    · rw [i0, b0 z]
      rfl
    · rw [i1, b1 z]
      rfl
    · rw [i2, b2 z]
      rfl

/-- C30 at the run of both drivers on the demonstration externals with a lag
ceiling of 0: after tick 1 no decoder has been called, the decode stage
of tick 1 has filled the four bytes of source 0 with `0xFF`, and the
three pointers are still null. -/
theorem c30_never_decoded_witness :
    InastitchCpp.tickAt (InastitchCpp.demoExternals 1 1 1) (demoOptions 0 10) 1
        (InastitchCpp.initialState (InastitchCpp.demoExternals 1 1 1) 4 (fun _ => 0))
      = some InastitchCpp.whiteTick1 ∧
    MainCpp.tickAt (MainCpp.demoExternals 1 1 1) (demoOptions 0 10) 1
        (MainCpp.initialState (MainCpp.demoExternals 1 1 1) 4 (fun _ => 0))
      = some MainCpp.whiteTick1 ∧
    InastitchCpp.whiteTick1.next.ctx0.decodeCalls = 0 ∧
    MainCpp.whiteTick1.next.ctx0.decodeCalls = 0 ∧
    MainCpp.whiteTick1.exited = false ∧
    (List.range 4).map InastitchCpp.whiteTick1.next.ctx0.decoderRgba = [255, 255, 255, 255] ∧
    (List.range 4).map MainCpp.whiteTick1.next.ctx0.decoderRgba = [255, 255, 255, 255] ∧
    InastitchCpp.whiteTick1.next.ctx0.rgbaBuffer = BufferPtr.null ∧
    MainCpp.whiteTick1.next.ctx0.rgbaBuffer = BufferPtr.null :=
  have h := c30_never_decoded_source_skipped (InastitchCpp.demoExternals 1 1 1)
    (MainCpp.demoExternals 1 1 1) (demoOptions 0 10) 4 (fun _ => 0) 1
    InastitchCpp.whiteTick1 MainCpp.whiteTick1 rfl rfl
  ⟨rfl, rfl, by decide, by decide, by decide, by decide, by decide,
    (h.1.2.2.choose_spec.2.1 (by decide)).1, h.2.2.2.1 (by decide)⟩

/-! ## The rate of the exit summary -/

theorem rateSummary_below_one_second (frameCount : Nat) (renderTimeMs : Int)
    (h0 : 0 ≤ renderTimeMs) (h1 : renderTimeMs < 1000) :
    rateSummary frameCount renderTimeMs = ExitReport.divisionByZero := by
  unfold rateSummary
  have e : Int.tdiv renderTimeMs 1000 = 0 := by
    rw [Int.tdiv_eq_ediv h0 (by decide)]
    omega
  simp [e]

theorem rateSummary_from_one_second (frameCount : Nat) (renderTimeMs : Int)
    (h0 : 1000 ≤ renderTimeMs) (h1 : renderTimeMs < 2 ^ 63) :
    rateSummary frameCount renderTimeMs ≠ ExitReport.divisionByZero := by
  unfold rateSummary
  have e : Int.tdiv renderTimeMs 1000 = renderTimeMs / 1000 :=
    Int.tdiv_eq_ediv (by omega) (by decide)
  have u : (U64 : Int) = 18446744073709551616 := by
    unfold U64
    norm_num
  have d : ((Int.tdiv renderTimeMs 1000) % (U64 : Int)).toNat ≠ 0 := by
    rw [e, u]
    omega
  dsimp only
  rw [if_neg d]
  simp

/-- C24: the rate `frameCount/(renderTimeMs/1000)` of the exit summary is
not defined for every `renderTimeMs >= 0`. The divisor is the integer
quotient `renderTimeMs/1000`, which is 0 for every render time below one
second: both drivers then divide by zero, `inastitch.cpp` whenever
`frameCount > 0` and `main.cpp` for every `frameCount`. From one second on
the divisor is not zero. A run of ten ticks that lasts 500 ms leaves the
loop with `frameCount == 10` and divides by zero; at 2500 ms it prints
5 fps. -/
theorem c24_rate_division_by_zero :
    (∀ (frameCount : Nat) (renderTimeMs : Int), 0 < frameCount → 0 ≤ renderTimeMs →
        renderTimeMs < 1000 →
        InastitchCpp.exitSummary frameCount renderTimeMs = ExitReport.divisionByZero ∧
        MainCpp.exitSummary frameCount renderTimeMs = ExitReport.divisionByZero) ∧
    (∀ (frameCount : Nat) (renderTimeMs : Int), 0 < frameCount → 1000 ≤ renderTimeMs →
        renderTimeMs < 2 ^ 63 →
        InastitchCpp.exitSummary frameCount renderTimeMs ≠ ExitReport.divisionByZero ∧
        MainCpp.exitSummary frameCount renderTimeMs ≠ ExitReport.divisionByZero) ∧
    ((InastitchCpp.renderAndReport (InastitchCpp.demoExternals 1 1 1) (demoOptions 50 10) 10
        InastitchCpp.demoStart 500).map (fun r => (r.1.frameCount, r.2))
        = some (10, ExitReport.divisionByZero) ∧
      (MainCpp.renderAndReport (MainCpp.demoExternals 1 1 1) (demoOptions 50 10) 10
        MainCpp.demoStart 500).map (fun r => (r.1.frameCount, r.2))
        = some (10, ExitReport.divisionByZero) ∧
      (InastitchCpp.renderAndReport (InastitchCpp.demoExternals 1 1 1) (demoOptions 50 10) 10
        InastitchCpp.demoStart 2500).map (fun r => (r.1.frameCount, r.2))
        = some (10, ExitReport.summary "10 frames rendered in 2500ms (5 fps)") ∧
      (MainCpp.renderAndReport (MainCpp.demoExternals 1 1 1) (demoOptions 50 10) 10
        MainCpp.demoStart 2500).map (fun r => (r.1.frameCount, r.2))
        = some (10, ExitReport.summary "10 frames rendered in 2500ms (5 fps)")) := by
  refine ⟨fun n ms hn h0 h1 => ?_, fun n ms hn h0 h1 => ?_, ?_⟩
  · unfold InastitchCpp.exitSummary MainCpp.exitSummary
    rw [if_neg (by omega)]
    exact ⟨rateSummary_below_one_second n ms h0 h1, rateSummary_below_one_second n ms h0 h1⟩
  · unfold InastitchCpp.exitSummary MainCpp.exitSummary
    rw [if_neg (by omega)]
    exact ⟨rateSummary_from_one_second n ms h0 h1, rateSummary_from_one_second n ms h0 h1⟩
  · exact ⟨by decide, by decide, by decide, by decide⟩

/-! ## The capacity of the decoded-pixel buffers -/

theorem maxRgbaBufferSize_exact (w h : Nat) (b : w * h * 4 ≤ 2 ^ 31 - 1) :
    maxRgbaBufferSize w h = some (w * h * 4) := by
  have b1 : ((w : Int) * (h : Int)) * 4 ≤ 2147483647 := by
    have : (((w * h * 4 : Nat)) : Int) ≤ ((2 ^ 31 - 1 : Nat) : Int) := Int.ofNat_le.mpr b
    push_cast at this
    linarith
  have n1 : (0 : Int) ≤ (w : Int) * (h : Int) := by positivity
  unfold maxRgbaBufferSize inStreamMaxRgbBufferSize mulInt INT_MIN INT_MAX
  rw [if_pos ⟨by linarith, by linarith⟩]
  simp only [Option.some_bind]
  rw [if_pos ⟨by linarith, by linarith⟩]
  simp only [Option.map_some']
  congr 1
  unfold toUint32
  have e : (w : Int) * (h : Int) * 4 = ((w * h * 4 : Nat) : Int) := by push_cast; ring
  rw [e]
  omega

theorem maxRgbaBufferSize_overflow (w h : Nat) (b : 2 ^ 31 - 1 < w * h * 4) :
    maxRgbaBufferSize w h = none := by
  have b1 : (2147483647 : Int) < ((w : Int) * (h : Int)) * 4 := by
    have : ((2 ^ 31 - 1 : Nat) : Int) < (((w * h * 4 : Nat)) : Int) := Int.ofNat_lt.mpr b
    push_cast at this
    linarith
  unfold maxRgbaBufferSize inStreamMaxRgbBufferSize mulInt INT_MIN INT_MAX
  by_cases c : -(2 ^ 31 : Int) ≤ (w : Int) * (h : Int) ∧ (w : Int) * (h : Int) ≤ 2 ^ 31 - 1
  · rw [if_pos c]
    simp only [Option.some_bind]
    rw [if_neg (by intro x; linarith [x.2])]
    rfl
  · rw [if_neg c]
    rfl

/-- C25: the capacity `inStreamMaxRgbBufferSize` is `width * height * 4`
exactly as long as that product fits a C++ `int` (at most `2 ^ 31 - 1`),
as for the default 640 x 480. For the remaining 16-bit sizes the `int`
multiplication overflows: 32768 x 32768 has `width * height = 2 ^ 30` in
range and `* 4` out of range, 65535 x 65535 overflows at the first product,
and `65535 * 65535 * 4` does not fit the `uint32_t` parameter either. No
loop state is reached with a defined capacity for those sizes. -/
theorem c25_buffer_size_overflow :
    (∀ w h : Nat, w * h * 4 ≤ 2 ^ 31 - 1 → maxRgbaBufferSize w h = some (w * h * 4)) ∧
    (∀ w h : Nat, 2 ^ 31 - 1 < w * h * 4 → maxRgbaBufferSize w h = none) ∧
    maxRgbaBufferSize 640 480 = some 1228800 ∧
    (32768 < 2 ^ 16 ∧ mulInt 32768 32768 = some (2 ^ 30) ∧ mulInt (2 ^ 30) 4 = none ∧
      maxRgbaBufferSize 32768 32768 = none) ∧
    (65535 < 2 ^ 16 ∧ mulInt 65535 65535 = none ∧ maxRgbaBufferSize 65535 65535 = none ∧
      ¬ 65535 * 65535 * 4 < 2 ^ 32) ∧
    ((InastitchCpp.enterLoop (InastitchCpp.demoExternals 1 1 1) 640 480 (fun _ => 0)).map
        (fun s => (s.ctx0.rgbaBufferSize, s.ctx1.rgbaBufferSize, s.ctx2.rgbaBufferSize))
        = some (1228800, 1228800, 1228800) ∧
      (MainCpp.enterLoop (MainCpp.demoExternals 1 1 1) 640 480 (fun _ => 0)).map
        (fun s => (s.ctx0.rgbaBufferSize, s.ctx1.rgbaBufferSize, s.ctx2.rgbaBufferSize))
        = some (1228800, 1228800, 1228800) ∧
      (InastitchCpp.enterLoop (InastitchCpp.demoExternals 1 1 1) 32768 32768 (fun _ => 0)).map
        (fun s => s.ctx0.rgbaBufferSize) = none ∧
      (MainCpp.enterLoop (MainCpp.demoExternals 1 1 1) 32768 32768 (fun _ => 0)).map
        (fun s => s.ctx0.rgbaBufferSize) = none) := by
  refine ⟨maxRgbaBufferSize_exact, maxRgbaBufferSize_overflow, by decide,
    ⟨by decide, by decide, by decide, by decide⟩, ⟨by decide, by decide, by decide, by decide⟩,
    by decide, by decide, by decide, by decide⟩

/-! ## The default lag ceiling -/

theorem lag_below_default (a m : Nat) (ha : a < U64) (hm : m ≤ a) :
    sub64 a m < defaultMaxDelay ↔ ¬ (a = U64 - 1 ∧ m = 0) := by
  rw [sub64_of_le hm ha]
  unfold defaultMaxDelay
  unfold U64 at *
  omega

/-- C22 fails as stated: with `max-delay` at its default `2 ^ 64 - 1` and
sources stamped 0, `2 ^ 64 - 1`, 0, the lag of source 1 is `2 ^ 64 - 1`,
which is not below the ceiling. Both drivers leave source 1 where it is (no
parser call), make no decoder call for it and white-fill its buffer. -/
theorem c22_counterexample :
    (demoOptions defaultMaxDelay 10).maxDelay = 2 ^ 64 - 1 ∧
    (InastitchCpp.widestLagTick.frameAbsTime = 0 ∧
      InastitchCpp.widestLagTick.next.ctx1.timeDelay = 2 ^ 64 - 1 ∧
      ¬ InastitchCpp.widestLagTick.next.ctx1.timeDelay
        < (demoOptions defaultMaxDelay 10).maxDelay ∧
      InastitchCpp.widestLagTick.next.ctx1.parserCalls
        = (InastitchCpp.ctxAt (U64 - 1)).parserCalls ∧
      InastitchCpp.widestLagTick.next.ctx1.decodeCalls = 0 ∧
      InastitchCpp.widestLagTick.next.ctx1.rgbaBuffer = BufferPtr.null ∧
      (List.range 4).map InastitchCpp.widestLagTick.next.ctx1.decoderRgba
        = [0xFF, 0xFF, 0xFF, 0xFF] ∧
      InastitchCpp.widestLagTick.next.ctx0.decodeCalls = 1) ∧
    (MainCpp.widestLagTick.frameAbsTime = 0 ∧
      MainCpp.widestLagTick.exited = false ∧
      MainCpp.widestLagTick.next.ctx1.timeDelay = 2 ^ 64 - 1 ∧
      ¬ MainCpp.widestLagTick.next.ctx1.timeDelay < (demoOptions defaultMaxDelay 10).maxDelay ∧
      MainCpp.widestLagTick.next.ctx1.parserCalls = (MainCpp.ctxAt (U64 - 1)).parserCalls ∧
      MainCpp.widestLagTick.next.ctx1.decodeCalls = 0 ∧
      MainCpp.widestLagTick.next.ctx1.rgbaBuffer = BufferPtr.null ∧
      (List.range 4).map MainCpp.widestLagTick.next.ctx1.decoderRgba
        = [0xFF, 0xFF, 0xFF, 0xFF] ∧
      MainCpp.widestLagTick.next.ctx0.decodeCalls = 1) := by
  decide

/-- C22, as the code has it: with `max-delay` at its default `2 ^ 64 - 1`
and 64-bit timestamps, a source is eligible in a tick of either driver
exactly when its lag is not `2 ^ 64 - 1`, that is unless its timestamp is
`2 ^ 64 - 1` while the reference time is 0. In particular all three sources
are eligible in every tick whose reference time is not 0. -/
theorem c22_default_delay_eligibility (wi : InastitchCpp.Externals) (wm : MainCpp.Externals)
    (o : Options) (si : LoopState InastitchCpp.GenericInputStreamContext)
    (sm : LoopState MainCpp.FileContext) (hd : o.maxDelay = defaultMaxDelay)
    (i0 : si.ctx0.absTime < U64) (i1 : si.ctx1.absTime < U64) (i2 : si.ctx2.absTime < U64)
    (m0 : sm.ctx0.absTime < U64) (m1 : sm.ctx1.absTime < U64) (m2 : sm.ctx2.absTime < U64) :
    (((InastitchCpp.tickSync wi o si).ctx0.timeDelay < o.maxDelay ↔
        ¬ (si.ctx0.absTime = U64 - 1 ∧ (InastitchCpp.tick wi o si).frameAbsTime = 0)) ∧
      ((InastitchCpp.tickSync wi o si).ctx1.timeDelay < o.maxDelay ↔
        ¬ (si.ctx1.absTime = U64 - 1 ∧ (InastitchCpp.tick wi o si).frameAbsTime = 0)) ∧
      ((InastitchCpp.tickSync wi o si).ctx2.timeDelay < o.maxDelay ↔
        ¬ (si.ctx2.absTime = U64 - 1 ∧ (InastitchCpp.tick wi o si).frameAbsTime = 0)) ∧
      ((InastitchCpp.tick wi o si).frameAbsTime ≠ 0 →
        (InastitchCpp.tickSync wi o si).ctx0.timeDelay < o.maxDelay ∧
        (InastitchCpp.tickSync wi o si).ctx1.timeDelay < o.maxDelay ∧
        (InastitchCpp.tickSync wi o si).ctx2.timeDelay < o.maxDelay)) ∧
    (((MainCpp.tickSync wm o sm).ctx0.timeDelay < o.maxDelay ↔
        ¬ (sm.ctx0.absTime = U64 - 1 ∧ (MainCpp.tick wm o sm).frameAbsTime = 0)) ∧
      ((MainCpp.tickSync wm o sm).ctx1.timeDelay < o.maxDelay ↔
        ¬ (sm.ctx1.absTime = U64 - 1 ∧ (MainCpp.tick wm o sm).frameAbsTime = 0)) ∧
      ((MainCpp.tickSync wm o sm).ctx2.timeDelay < o.maxDelay ↔
        ¬ (sm.ctx2.absTime = U64 - 1 ∧ (MainCpp.tick wm o sm).frameAbsTime = 0)) ∧
      ((MainCpp.tick wm o sm).frameAbsTime ≠ 0 →
        (MainCpp.tickSync wm o sm).ctx0.timeDelay < o.maxDelay ∧
        (MainCpp.tickSync wm o sm).ctx1.timeDelay < o.maxDelay ∧
        (MainCpp.tickSync wm o sm).ctx2.timeDelay < o.maxDelay)) := by
  obtain ⟨a0, a1, a2⟩ := InastitchCpp.tickSync_lag wi o si
  obtain ⟨b0, b1, b2⟩ := MainCpp.file_tickSync_lag wm o sm
  rw [InastitchCpp.tick_frameAbsTime, MainCpp.file_tick_frameAbsTime, a0, a1, a2, b0, b1, b2, hd]
  have x0 := lag_below_default si.ctx0.absTime
    (min si.ctx0.absTime (min si.ctx1.absTime si.ctx2.absTime)) i0 (by omega)
  have x1 := lag_below_default si.ctx1.absTime
    (min si.ctx0.absTime (min si.ctx1.absTime si.ctx2.absTime)) i1 (by omega)
  have x2 := lag_below_default si.ctx2.absTime
    (min si.ctx0.absTime (min si.ctx1.absTime si.ctx2.absTime)) i2 (by omega)
  have y0 := lag_below_default sm.ctx0.absTime
    (min sm.ctx0.absTime (min sm.ctx1.absTime sm.ctx2.absTime)) m0 (by omega)
  have y1 := lag_below_default sm.ctx1.absTime
    (min sm.ctx0.absTime (min sm.ctx1.absTime sm.ctx2.absTime)) m1 (by omega)
  have y2 := lag_below_default sm.ctx2.absTime
    (min sm.ctx0.absTime (min sm.ctx1.absTime sm.ctx2.absTime)) m2 (by omega)
  exact ⟨⟨x0, x1, x2, fun h => ⟨x0.mpr (fun z => h z.2), x1.mpr (fun z => h z.2),
      x2.mpr (fun z => h z.2)⟩⟩,
    ⟨y0, y1, y2, fun h => ⟨y0.mpr (fun z => h z.2), y1.mpr (fun z => h z.2),
      y2.mpr (fun z => h z.2)⟩⟩⟩

/-- Scenario B with the default lag ceiling: sources stamped 100, 250, 100
are all eligible in both drivers (under a ceiling of 50 source 1 was
not). -/
theorem c22_default_delay_witness :
    (demoOptions defaultMaxDelay 10).maxDelay = defaultMaxDelay ∧
    (InastitchCpp.tickSync (InastitchCpp.demoExternals 1 1 1) (demoOptions defaultMaxDelay 10)
      (startState (InastitchCpp.ctxAt 100) (InastitchCpp.ctxAt 250)
        (InastitchCpp.ctxAt 100))).ctx1.timeDelay < (demoOptions defaultMaxDelay 10).maxDelay ∧
    (MainCpp.tickSync (MainCpp.demoExternals 1 1 1) (demoOptions defaultMaxDelay 10)
      (startState (MainCpp.ctxAt 100) (MainCpp.ctxAt 250)
        (MainCpp.ctxAt 100))).ctx1.timeDelay < (demoOptions defaultMaxDelay 10).maxDelay :=
  have h := c22_default_delay_eligibility (InastitchCpp.demoExternals 1 1 1)
    (MainCpp.demoExternals 1 1 1) (demoOptions defaultMaxDelay 10)
    (startState (InastitchCpp.ctxAt 100) (InastitchCpp.ctxAt 250) (InastitchCpp.ctxAt 100))
    (startState (MainCpp.ctxAt 100) (MainCpp.ctxAt 250) (MainCpp.ctxAt 100))
    rfl (by decide) (by decide) (by decide) (by decide) (by decide) (by decide)
  ⟨rfl, (h.1.2.2.2 (by decide)).2.1, (h.2.2.2.2 (by decide)).2.1⟩

/-! ## A source that has run out of frames -/

/-- C23 fails as stated: source 0 reports exhaustion in a tick (its advance
returns no bytes, `eofContext0` is set) while sources 1 and 2 deliver a
frame stamped 80000. In the next tick the minimum over the two sources that
are not exhausted is 80000, but the reference time is the timestamp the
exhausted source holds: 0 in `inastitch.cpp` (what its last `getFrame`
returned), 100 in `main.cpp` (the last value read from its PTS file). -/
theorem c23_counterexample :
    (InastitchCpp.endedTick0.eofContext0 = true ∧
      InastitchCpp.endedTick0.eofContext1 = false ∧
      InastitchCpp.endedTick0.eofContext2 = false ∧
      InastitchCpp.endedTick0.next.ctx0.jpegBufferSize = 0 ∧
      InastitchCpp.endedTick0.next.ctx0.absTime = 0 ∧
      min InastitchCpp.endedTick0.next.ctx1.absTime InastitchCpp.endedTick0.next.ctx2.absTime
        = 80000 ∧
      InastitchCpp.endedTick1.frameAbsTime = 0 ∧
      InastitchCpp.endedTick1.frameAbsTime
        ≠ min InastitchCpp.endedTick0.next.ctx1.absTime
            InastitchCpp.endedTick0.next.ctx2.absTime) ∧
    (MainCpp.endedTick0.eofContext0 = true ∧
      MainCpp.endedTick0.eofContext1 = false ∧
      MainCpp.endedTick0.eofContext2 = false ∧
      MainCpp.endedTick0.exited = false ∧
      MainCpp.endedTick0.next.ctx0.jpegBufferSize = 0 ∧
      MainCpp.endedTick0.next.ctx0.absTime = 100 ∧
      min MainCpp.endedTick0.next.ctx1.absTime MainCpp.endedTick0.next.ctx2.absTime = 80000 ∧
      MainCpp.endedTick1.frameAbsTime = 100 ∧
      MainCpp.endedTick1.frameAbsTime
        ≠ min MainCpp.endedTick0.next.ctx1.absTime MainCpp.endedTick0.next.ctx2.absTime) := by
  decide

/-- C23, as the code has it: in both drivers the reference time of the tick
that follows a tick is the minimum over the timestamps all three sources
hold after that tick, whether or not a source reported exhaustion in it.
A source that reported exhaustion and holds the smallest timestamp sets the
reference time. -/
theorem c23_reference_time_counts_exhausted (wi : InastitchCpp.Externals)
    (wm : MainCpp.Externals) (o : Options)
    (si : LoopState InastitchCpp.GenericInputStreamContext)
    (sm : LoopState MainCpp.FileContext) :
    ((InastitchCpp.tick wi o (InastitchCpp.tick wi o si).next).frameAbsTime
        = min (InastitchCpp.tick wi o si).next.ctx0.absTime
            (min (InastitchCpp.tick wi o si).next.ctx1.absTime
              (InastitchCpp.tick wi o si).next.ctx2.absTime) ∧
      ((InastitchCpp.tick wi o si).eofContext0 = true →
        (InastitchCpp.tick wi o si).next.ctx0.absTime
          ≤ (InastitchCpp.tick wi o si).next.ctx1.absTime →
        (InastitchCpp.tick wi o si).next.ctx0.absTime
          ≤ (InastitchCpp.tick wi o si).next.ctx2.absTime →
        (InastitchCpp.tick wi o (InastitchCpp.tick wi o si).next).frameAbsTime
          = (InastitchCpp.tick wi o si).next.ctx0.absTime) ∧
      ((InastitchCpp.tick wi o si).eofContext1 = true →
        (InastitchCpp.tick wi o si).next.ctx1.absTime
          ≤ (InastitchCpp.tick wi o si).next.ctx0.absTime →
        (InastitchCpp.tick wi o si).next.ctx1.absTime
          ≤ (InastitchCpp.tick wi o si).next.ctx2.absTime →
        (InastitchCpp.tick wi o (InastitchCpp.tick wi o si).next).frameAbsTime
          = (InastitchCpp.tick wi o si).next.ctx1.absTime) ∧
      ((InastitchCpp.tick wi o si).eofContext2 = true →
        (InastitchCpp.tick wi o si).next.ctx2.absTime
          ≤ (InastitchCpp.tick wi o si).next.ctx0.absTime →
        (InastitchCpp.tick wi o si).next.ctx2.absTime
          ≤ (InastitchCpp.tick wi o si).next.ctx1.absTime →
        (InastitchCpp.tick wi o (InastitchCpp.tick wi o si).next).frameAbsTime
          = (InastitchCpp.tick wi o si).next.ctx2.absTime)) ∧
    ((MainCpp.tick wm o (MainCpp.tick wm o sm).next).frameAbsTime
        = min (MainCpp.tick wm o sm).next.ctx0.absTime
            (min (MainCpp.tick wm o sm).next.ctx1.absTime
              (MainCpp.tick wm o sm).next.ctx2.absTime) ∧
      ((MainCpp.tick wm o sm).eofContext0 = true →
        (MainCpp.tick wm o sm).next.ctx0.absTime ≤ (MainCpp.tick wm o sm).next.ctx1.absTime →
        (MainCpp.tick wm o sm).next.ctx0.absTime ≤ (MainCpp.tick wm o sm).next.ctx2.absTime →
        (MainCpp.tick wm o (MainCpp.tick wm o sm).next).frameAbsTime
          = (MainCpp.tick wm o sm).next.ctx0.absTime) ∧
      ((MainCpp.tick wm o sm).eofContext1 = true →
        (MainCpp.tick wm o sm).next.ctx1.absTime ≤ (MainCpp.tick wm o sm).next.ctx0.absTime →
        (MainCpp.tick wm o sm).next.ctx1.absTime ≤ (MainCpp.tick wm o sm).next.ctx2.absTime →
        (MainCpp.tick wm o (MainCpp.tick wm o sm).next).frameAbsTime
          = (MainCpp.tick wm o sm).next.ctx1.absTime) ∧
      ((MainCpp.tick wm o sm).eofContext2 = true →
        (MainCpp.tick wm o sm).next.ctx2.absTime ≤ (MainCpp.tick wm o sm).next.ctx0.absTime →
        (MainCpp.tick wm o sm).next.ctx2.absTime ≤ (MainCpp.tick wm o sm).next.ctx1.absTime →
        (MainCpp.tick wm o (MainCpp.tick wm o sm).next).frameAbsTime
          = (MainCpp.tick wm o sm).next.ctx2.absTime)) := by
  rw [InastitchCpp.tick_frameAbsTime, MainCpp.file_tick_frameAbsTime]
  refine ⟨⟨rfl, fun _ a b => ?_, fun _ a b => ?_, fun _ a b => ?_⟩,
    ⟨rfl, fun _ a b => ?_, fun _ a b => ?_, fun _ a b => ?_⟩⟩ <;> omega

/-! ## Relative time -/

theorem add64_sub64_telescope (a l r : Nat) (hl : l < U64) (hr : r < U64) :
    add64 (sub64 l r) (sub64 a l) = sub64 a r := by
  unfold add64 sub64
  unfold U64 at *
  omega

theorem tick_tracksTime (w : InastitchCpp.Externals) (o : Options) :
    TracksTime (InastitchCpp.tick w o) := by
  intro x _
  rw [InastitchCpp.tick_eq]
  exact ⟨rfl, rfl, rfl, rfl⟩

theorem file_tick_tracksTime (w : MainCpp.Externals) (o : Options) :
    TracksTime (MainCpp.tick w o) := by
  intro x h
  rw [MainCpp.tick_rest_of_not_exited w o x h]
  exact ⟨rfl, rfl, rfl, rfl⟩

/-- The accumulated relative time after a completed tick is the distance
from the reference time of tick 0 to that of the tick, modulo `2 ^ 64`. -/
theorem nthTick_relTime {Ctx : Type} (cond : LoopState Ctx → Bool)
    (body : LoopState Ctx → Tick Ctx) (hb : TracksTime body) (s : LoopState Ctx)
    (k0 : Tick Ctx) (f : s.isFirstFrame = true) (r : s.frameRelTime = 0)
    (h0 : nthTick cond body 0 s = some k0) :
    ∀ (t : Nat) (kt : Tick Ctx),
      (∀ j kj, j ≤ t → nthTick cond body j s = some kj → kj.frameAbsTime < U64) →
      nthTick cond body t s = some kt → kt.exited = false →
      kt.next.frameRelTime = sub64 kt.frameAbsTime k0.frameAbsTime ∧
      kt.next.lastFrameAbsTime = kt.frameAbsTime ∧ kt.next.isFirstFrame = false := by
  intro t
  induction t with
  | zero =>
    intro kt _ ht e
    have ek : k0 = kt := Option.some.inj (h0.symm.trans ht)
    obtain ⟨x, hx, -, kx⟩ := (nthTick_iff cond body 0 s kt).mp ht
    have xs : s = x := Option.some.inj hx
    subst xs
    subst kx
    subst ek
    obtain ⟨d, a, l, i⟩ := hb s e
    rw [f] at d
    simp only [if_true] at d
    rw [sub64_self] at d
    rw [d, r, add64_zero_zero] at a
    rw [sub64_self]
    exact ⟨a, l, i⟩
  | succ m ih =>
    intro kt hbd ht e
    obtain ⟨x, hx, -, kx⟩ := (nthTick_iff cond body (m + 1) s kt).mp ht
    obtain ⟨y, -, hyk, -, ey, xy⟩ := (nthState_succ_iff cond body m s x).mp hx
    obtain ⟨p, q, i⟩ := ih (body y) (fun j kj hj hk => hbd j kj (by omega) hk) hyk ey
    subst xy
    subst kx
    obtain ⟨d, a, l, i'⟩ := hb _ e
    rw [i, q] at d
    simp only [Bool.false_eq_true, if_false] at d
    rw [p, d] at a
    rw [a]
    exact ⟨add64_sub64_telescope _ _ _ (hbd m (body y) (by omega) hyk) (hbd 0 k0 (by omega) h0),
      l, i'⟩

/-- C26: in a run of either driver from a state with `isFirstFrame` set and
`frameRelTime` 0 (as the loop variables are initialised), `frameRelTime`
after a completed tick `t` is the reference time of tick `t` minus the
reference time of tick 0, modulo `2 ^ 64`, whatever the sources'
timestamps; the reference times are 64-bit values. In `main.cpp` a
completed tick is one not left by `break`. -/
theorem c26_frameRelTime_telescopes (wi : InastitchCpp.Externals) (wm : MainCpp.Externals)
    (o : Options) (si : LoopState InastitchCpp.GenericInputStreamContext)
    (sm : LoopState MainCpp.FileContext) (t : Nat)
    (i0 it : Tick InastitchCpp.GenericInputStreamContext) (m0 mt : Tick MainCpp.FileContext)
    (fi : si.isFirstFrame = true) (ri : si.frameRelTime = 0)
    (fm : sm.isFirstFrame = true) (rm : sm.frameRelTime = 0)
    (bi : ∀ j kj, j ≤ t → InastitchCpp.tickAt wi o j si = some kj → kj.frameAbsTime < U64)
    (bm : ∀ j kj, j ≤ t → MainCpp.tickAt wm o j sm = some kj → kj.frameAbsTime < U64)
    (hi0 : InastitchCpp.tickAt wi o 0 si = some i0) (hit : InastitchCpp.tickAt wi o t si = some it)
    (hm0 : MainCpp.tickAt wm o 0 sm = some m0) (hmt : MainCpp.tickAt wm o t sm = some mt)
    (em : mt.exited = false) :
    it.next.frameRelTime = sub64 it.frameAbsTime i0.frameAbsTime ∧
    it.next.frameRelTime = (it.frameAbsTime + 2 ^ 64 - i0.frameAbsTime) % 2 ^ 64 ∧
    mt.next.frameRelTime = sub64 mt.frameAbsTime m0.frameAbsTime ∧
    mt.next.frameRelTime = (mt.frameAbsTime + 2 ^ 64 - m0.frameAbsTime) % 2 ^ 64 := by
  have ei : it.exited = false := by
    obtain ⟨x, -, -, kx⟩ := (nthTick_iff _ _ t si it).mp hit
    rw [kx]
    exact (InastitchCpp.tick_never_exits wi o x).1
  have a := (nthTick_relTime _ _ (tick_tracksTime wi o) si i0 fi ri hi0 t it bi hit ei).1
  have b := (nthTick_relTime _ _ (file_tick_tracksTime wm o) sm m0 fm rm hm0 t mt bm hmt em).1
  exact ⟨a, a, b, b⟩


theorem demo_reference_times (j : Nat) (kj : Tick InastitchCpp.GenericInputStreamContext)
    (hj : j ≤ 2)
    (h : InastitchCpp.tickAt (InastitchCpp.demoExternals 1 1 1) (demoOptions 50 10) j
      InastitchCpp.demoStart = some kj) : kj.frameAbsTime < U64 := by
  have c : j = 0 ∨ j = 1 ∨ j = 2 := by omega
  rcases c with c | c | c
  · subst c
    have e : InastitchCpp.demoTick0 = kj := Option.some.inj h
    rw [← e]
    decide
  · subst c
    have e : InastitchCpp.demoTick1 = kj := Option.some.inj h
    rw [← e]
    decide
  · subst c
    have e : InastitchCpp.demoTick2 = kj := Option.some.inj h
    rw [← e]
    decide

theorem file_demo_reference_times (j : Nat) (kj : Tick MainCpp.FileContext) (hj : j ≤ 2)
    (h : MainCpp.tickAt (MainCpp.demoExternals 1 1 1) (demoOptions 50 10) j
      MainCpp.demoStart = some kj) : kj.frameAbsTime < U64 := by
  have c : j = 0 ∨ j = 1 ∨ j = 2 := by omega
  rcases c with c | c | c
  · subst c
    have e : MainCpp.demoTick0 = kj := Option.some.inj h
    rw [← e]
    decide
  · subst c
    have e : MainCpp.demoTick1 = kj := Option.some.inj h
    rw [← e]
    decide
  · subst c
    have e : MainCpp.demoTick2 = kj := Option.some.inj h
    rw [← e]
    decide

/-- C26 on the demonstration run of both drivers (frames stamped 40000
microseconds apart): the reference times of ticks 0 and 2 are 40000 and
120000, and `frameRelTime` after tick 2 is 80000. -/
theorem c26_frameRelTime_witness :
    InastitchCpp.demoTick0.frameAbsTime = 40000 ∧
    InastitchCpp.demoTick2.frameAbsTime = 120000 ∧
    InastitchCpp.demoTick2.next.frameRelTime = 80000 ∧
    MainCpp.demoTick0.frameAbsTime = 40000 ∧
    MainCpp.demoTick2.frameAbsTime = 120000 ∧
    MainCpp.demoTick2.exited = false ∧
    MainCpp.demoTick2.next.frameRelTime = 80000 ∧
    InastitchCpp.demoTick2.next.frameRelTime
      = sub64 InastitchCpp.demoTick2.frameAbsTime InastitchCpp.demoTick0.frameAbsTime ∧
    MainCpp.demoTick2.next.frameRelTime
      = sub64 MainCpp.demoTick2.frameAbsTime MainCpp.demoTick0.frameAbsTime :=
  have h := c26_frameRelTime_telescopes (InastitchCpp.demoExternals 1 1 1)
    (MainCpp.demoExternals 1 1 1) (demoOptions 50 10) InastitchCpp.demoStart MainCpp.demoStart 2
    InastitchCpp.demoTick0 InastitchCpp.demoTick2 MainCpp.demoTick0 MainCpp.demoTick2
    rfl rfl rfl rfl demo_reference_times file_demo_reference_times rfl rfl rfl rfl (by decide)
  ⟨by decide, by decide, by decide, by decide, by decide, by decide, by decide, h.1, h.2.2.1⟩

/-! ## The frame a tick decodes -/

namespace InastitchCpp

theorem advance_decodesFetched (w : Externals) (o : Options) (p : Nat → Nat → StreamFrame)
    (b : Bool) (i : Nat) (k x : String) (ref : Nat) (before : GenericInputStreamContext)
    (f : List FileWrite) :
    DecodesFetched w o p b i k ref before
      (advance p o.maxDelay { before with timeDelay := sub64 before.absTime ref }).1
      (decodeTask w o b i x
        (advance p o.maxDelay { before with timeDelay := sub64 before.absTime ref }).1 f).1 := by
  by_cases h : sub64 before.absTime ref < o.maxDelay
  · have e : (advance p o.maxDelay { before with timeDelay := sub64 before.absTime ref }).1
        = (getFrame p 0 { before with timeDelay := sub64 before.absTime ref }).1 := by
      unfold advance
      rw [if_pos h]
    rw [e]
    refine ⟨rfl, fun _ => ⟨rfl, rfl, rfl, rfl, fun hp => ?_⟩, fun g => ?_⟩
    · rw [decodeTask_fresh w o b i x _ f h hp]
      refine ⟨rfl, rfl, fun hb hd => ?_⟩
      unfold expectedInputDump
      rw [if_pos ⟨hb, hd, hp, h⟩]
      rfl
    · exact absurd h (by
        have : (getFrame p 0 { before with timeDelay := sub64 before.absTime ref }).1.timeDelay
          = sub64 before.absTime ref := rfl
        omega)
  · have e : advance p o.maxDelay { before with timeDelay := sub64 before.absTime ref }
        = ({ before with timeDelay := sub64 before.absTime ref }, false) :=
      advance_stale p o.maxDelay _ (by
        show o.maxDelay ≤ sub64 before.absTime ref
        omega)
    rw [e]
    refine ⟨rfl, fun g => absurd g h, fun g => ⟨rfl, ?_, ?_⟩⟩
    · rw [decodeTask_stale w o b i x _ f g]
      rfl
    · unfold expectedInputDump
      rw [if_neg (fun z => h z.2.2.2)]

end InastitchCpp

namespace MainCpp

theorem file_advance_decodesFetched (w : Externals) (o : Options)
    (p : Nat → List Nat → List Nat × Nat) (q : Nat → PtsRead)
    (b : Bool) (i : Nat) (k x : String) (ref : Nat) (before : FileContext)
    (f : List FileWrite) :
    DecodesFetched w o p q b i k ref before
      (advance p q o.maxDelay { before with timeDelay := sub64 before.absTime ref }).1
      (decodeStep w o b i x
        (advance p q o.maxDelay { before with timeDelay := sub64 before.absTime ref }).1 f).1 := by
  by_cases h : sub64 before.absTime ref < o.maxDelay
  · have e : (advance p q o.maxDelay { before with timeDelay := sub64 before.absTime ref }).1
        = (parseFrame p q { before with timeDelay := sub64 before.absTime ref }).1 := by
      unfold advance
      rw [if_pos h]
    rw [e]
    refine ⟨rfl, fun _ => ⟨rfl, rfl, rfl, rfl, ?_⟩, fun g => ?_⟩
    · rw [decodeStep_fresh w o b i x _ f h]
      refine ⟨rfl, rfl, fun hb hd => ?_⟩
      unfold expectedInputDump
      rw [if_pos ⟨hb, hd, h⟩]
      rfl
    · exact absurd h (by
        have : (parseFrame p q { before with timeDelay := sub64 before.absTime ref }).1.timeDelay
          = sub64 before.absTime ref := rfl
        omega)
  · have e : advance p q o.maxDelay { before with timeDelay := sub64 before.absTime ref }
        = ({ before with timeDelay := sub64 before.absTime ref }, false) :=
      file_advance_stale p q o.maxDelay _ (by
        show o.maxDelay ≤ sub64 before.absTime ref
        omega)
    rw [e]
    refine ⟨rfl, fun g => absurd g h, fun g => ⟨rfl, ?_, ?_⟩⟩
    · rw [decodeStep_stale w o b i x _ f g]
      rfl
    · unfold expectedInputDump
      rw [if_neg (fun z => h z.2.2)]

end MainCpp


namespace InastitchCpp

theorem tick_decodesFetched (w : Externals) (o : Options)
    (s : LoopState GenericInputStreamContext) :
    DecodesFetched w o w.parser0 (tick w o s).isFrameDumped (tick w o s).frameDumpIdx "0"
      (tick w o s).frameAbsTime s.ctx0 (tickSync w o s).ctx0 (tick w o s).next.ctx0 ∧
    DecodesFetched w o w.parser1 (tick w o s).isFrameDumped (tick w o s).frameDumpIdx "1"
      (tick w o s).frameAbsTime s.ctx1 (tickSync w o s).ctx1 (tick w o s).next.ctx1 ∧
    DecodesFetched w o w.parser2 (tick w o s).isFrameDumped (tick w o s).frameDumpIdx "2"
      (tick w o s).frameAbsTime s.ctx2 (tickSync w o s).ctx2 (tick w o s).next.ctx2 := by
  rw [tick_eq]
  exact ⟨advance_decodesFetched w o w.parser0 _ _ "0" "in0.jpg" _ s.ctx0 _,
    advance_decodesFetched w o w.parser1 _ _ "1" "in1.jpg" _ s.ctx1 _,
    advance_decodesFetched w o w.parser2 _ _ "2" "in2.jpg" _ s.ctx2 _⟩

theorem tick_parserCalls_pos (w : Externals) (o : Options)
    (s : LoopState GenericInputStreamContext)
    (h : EachSource (fun c => 1 ≤ c.parserCalls) s) :
    EachSource (fun c => 1 ≤ c.parserCalls) (tick w o s).next := by
  obtain ⟨p0, p1, p2⟩ := tick_parserCalls w o s
  obtain ⟨h0, h1, h2⟩ := h
  unfold EachSource
  dsimp only
  rw [p0, p1, p2]
  unfold tickSync timeSync
  simp only [advance_parserCalls]
  refine ⟨?_, ?_, ?_⟩
  · split <;> omega
  · split <;> omega
  · split <;> omega

end InastitchCpp

namespace MainCpp

theorem file_tick_decodesFetched (w : Externals) (o : Options) (s : LoopState FileContext)
    (h : (tick w o s).exited = false) :
    DecodesFetched w o w.parser0 w.pts0 (tick w o s).isFrameDumped (tick w o s).frameDumpIdx "0"
      (tick w o s).frameAbsTime s.ctx0 (tickSync w o s).ctx0 (tick w o s).next.ctx0 ∧
    DecodesFetched w o w.parser1 w.pts1 (tick w o s).isFrameDumped (tick w o s).frameDumpIdx "1"
      (tick w o s).frameAbsTime s.ctx1 (tickSync w o s).ctx1 (tick w o s).next.ctx1 ∧
    DecodesFetched w o w.parser2 w.pts2 (tick w o s).isFrameDumped (tick w o s).frameDumpIdx "2"
      (tick w o s).frameAbsTime s.ctx2 (tickSync w o s).ctx2 (tick w o s).next.ctx2 := by
  rw [tick_rest_of_not_exited w o s h]
  exact ⟨file_advance_decodesFetched w o w.parser0 w.pts0 _ _ "0" "in0.jpg" _ s.ctx0 _,
    file_advance_decodesFetched w o w.parser1 w.pts1 _ _ "1" "in1.jpg" _ s.ctx1 _,
    file_advance_decodesFetched w o w.parser2 w.pts2 _ _ "2" "in2.jpg" _ s.ctx2 _⟩

theorem file_tick_parserCalls_pos (w : Externals) (o : Options) (s : LoopState FileContext)
    (h : EachSource (fun c => 1 ≤ c.parserCalls) s) :
    EachSource (fun c => 1 ≤ c.parserCalls) (tick w o s).next := by
  obtain ⟨p0, p1, p2⟩ := file_tick_parserCalls w o s
  obtain ⟨h0, h1, h2⟩ := h
  unfold EachSource
  dsimp only
  rw [p0, p1, p2]
  unfold tickSync timeSync
  simp only [file_advance_parserCalls]
  refine ⟨?_, ?_, ?_⟩
  · split <;> omega
  · split <;> omega
  · split <;> omega

end MainCpp

/-- C29: in every tick of both drivers the reference time is the minimum of
the timestamps the sources hold on entry to the tick and each lag is
computed from them, while an eligible source is advanced before the decode
stage: the frame handed to the decoder, and dumped in a marked tick with a
dump path, is the one returned by the parser call made in that tick (for
`inastitch.cpp` when that frame is not empty, for `main.cpp` in a tick not
left by `break`); a source that is not eligible is neither decoded nor
dumped in the tick. In a run from the state in which the loop is entered,
the contexts hold on entry to tick 0 the frame of parser call 0, whose
timestamps give the reference time of tick 0, and on entry to any tick `t`
every source has made at least one parser call: the call made in a tick has
a number of at least 1, so the frame of call 0 is never the one decoded or
dumped. -/
theorem c29_decoded_frame_is_fetched_in_tick (wi : InastitchCpp.Externals)
    (wm : MainCpp.Externals) (o : Options)
    (si : LoopState InastitchCpp.GenericInputStreamContext) (sm : LoopState MainCpp.FileContext)
    (n : Nat) (rgba : Nat → Nat) (t : Nat)
    (xi : LoopState InastitchCpp.GenericInputStreamContext) (xm : LoopState MainCpp.FileContext)
    (hi : InastitchCpp.stateAt wi o t (InastitchCpp.initialState wi n rgba) = some xi)
    (hm : MainCpp.stateAt wm o t (MainCpp.initialState wm n rgba) = some xm) :
    ((InastitchCpp.tick wi o si).frameAbsTime
        = min si.ctx0.absTime (min si.ctx1.absTime si.ctx2.absTime) ∧
      InastitchCpp.DecodesFetched wi o wi.parser0 (InastitchCpp.tick wi o si).isFrameDumped
        (InastitchCpp.tick wi o si).frameDumpIdx "0" (InastitchCpp.tick wi o si).frameAbsTime
        si.ctx0 (InastitchCpp.tickSync wi o si).ctx0 (InastitchCpp.tick wi o si).next.ctx0 ∧
      InastitchCpp.DecodesFetched wi o wi.parser1 (InastitchCpp.tick wi o si).isFrameDumped
        (InastitchCpp.tick wi o si).frameDumpIdx "1" (InastitchCpp.tick wi o si).frameAbsTime
        si.ctx1 (InastitchCpp.tickSync wi o si).ctx1 (InastitchCpp.tick wi o si).next.ctx1 ∧
      InastitchCpp.DecodesFetched wi o wi.parser2 (InastitchCpp.tick wi o si).isFrameDumped
        (InastitchCpp.tick wi o si).frameDumpIdx "2" (InastitchCpp.tick wi o si).frameAbsTime
        si.ctx2 (InastitchCpp.tickSync wi o si).ctx2 (InastitchCpp.tick wi o si).next.ctx2 ∧
      (InastitchCpp.tick wi o si).next.files = si.files ++ InastitchCpp.expectedWrites wi o si) ∧
    ((MainCpp.tick wm o sm).frameAbsTime
        = min sm.ctx0.absTime (min sm.ctx1.absTime sm.ctx2.absTime) ∧
      ((MainCpp.tick wm o sm).exited = false →
        MainCpp.DecodesFetched wm o wm.parser0 wm.pts0 (MainCpp.tick wm o sm).isFrameDumped
          (MainCpp.tick wm o sm).frameDumpIdx "0" (MainCpp.tick wm o sm).frameAbsTime
          sm.ctx0 (MainCpp.tickSync wm o sm).ctx0 (MainCpp.tick wm o sm).next.ctx0 ∧
        MainCpp.DecodesFetched wm o wm.parser1 wm.pts1 (MainCpp.tick wm o sm).isFrameDumped
          (MainCpp.tick wm o sm).frameDumpIdx "1" (MainCpp.tick wm o sm).frameAbsTime
          sm.ctx1 (MainCpp.tickSync wm o sm).ctx1 (MainCpp.tick wm o sm).next.ctx1 ∧
        MainCpp.DecodesFetched wm o wm.parser2 wm.pts2 (MainCpp.tick wm o sm).isFrameDumped
          (MainCpp.tick wm o sm).frameDumpIdx "2" (MainCpp.tick wm o sm).frameAbsTime
          sm.ctx2 (MainCpp.tickSync wm o sm).ctx2 (MainCpp.tick wm o sm).next.ctx2) ∧
      (MainCpp.tick wm o sm).next.files
        = sm.files ++ (MainCpp.expectedWrites wm o sm ++ MainCpp.outputWrites wm o sm)) ∧
    (((InastitchCpp.initialState wi n rgba).ctx0.absTime = (wi.parser0 0 0).absTime ∧
        (InastitchCpp.initialState wi n rgba).ctx1.absTime = (wi.parser1 0 0).absTime ∧
        (InastitchCpp.initialState wi n rgba).ctx2.absTime = (wi.parser2 0 0).absTime) ∧
      (InastitchCpp.tick wi o (InastitchCpp.initialState wi n rgba)).frameAbsTime
        = min (wi.parser0 0 0).absTime (min (wi.parser1 0 0).absTime (wi.parser2 0 0).absTime) ∧
      (1 ≤ xi.ctx0.parserCalls ∧ 1 ≤ xi.ctx1.parserCalls ∧ 1 ≤ xi.ctx2.parserCalls)) ∧
    (((MainCpp.initialState wm n rgba).ctx0.absTime = ((wm.pts0 0).absTime).getD 0 ∧
        (MainCpp.initialState wm n rgba).ctx1.absTime = ((wm.pts1 0).absTime).getD 0 ∧
        (MainCpp.initialState wm n rgba).ctx2.absTime = ((wm.pts2 0).absTime).getD 0) ∧
      (MainCpp.tick wm o (MainCpp.initialState wm n rgba)).frameAbsTime
        = min (((wm.pts0 0).absTime).getD 0)
            (min (((wm.pts1 0).absTime).getD 0) (((wm.pts2 0).absTime).getD 0)) ∧
      (1 ≤ xm.ctx0.parserCalls ∧ 1 ≤ xm.ctx1.parserCalls ∧ 1 ≤ xm.ctx2.parserCalls)) := by
  obtain ⟨a0, a1, a2⟩ := InastitchCpp.tick_decodesFetched wi o si
  have pi : EachSource (fun c => 1 ≤ c.parserCalls) xi :=
    nthState_invariant _ _ (EachSource (fun c => 1 ≤ c.parserCalls))
      (fun z hz _ => InastitchCpp.tick_parserCalls_pos wi o z hz) t _ xi hi
      ⟨Nat.le_refl 1, Nat.le_refl 1, Nat.le_refl 1⟩
  have pm : EachSource (fun c => 1 ≤ c.parserCalls) xm :=
    nthState_invariant _ _ (EachSource (fun c => 1 ≤ c.parserCalls))
      (fun z hz _ => MainCpp.file_tick_parserCalls_pos wm o z hz) t _ xm hm
      ⟨Nat.le_refl 1, Nat.le_refl 1, Nat.le_refl 1⟩
  exact ⟨⟨InastitchCpp.tick_frameAbsTime wi o si, a0, a1, a2, InastitchCpp.tick_files wi o si⟩,
    ⟨MainCpp.file_tick_frameAbsTime wm o sm, MainCpp.file_tick_decodesFetched wm o sm,
      MainCpp.file_tick_files wm o sm⟩,
    ⟨⟨rfl, rfl, rfl⟩, InastitchCpp.tick_frameAbsTime wi o _, pi⟩,
    ⟨⟨rfl, rfl, rfl⟩, MainCpp.file_tick_frameAbsTime wm o _, pm⟩⟩

/-- C29 on the demonstration run of both drivers (frames stamped 40000
microseconds apart, lag ceiling 50): the frame fetched before the loop is
stamped 40000 and gives the reference time of tick 0, and the frame source 0
holds at the decode stage of tick 0 is the one of parser call 1, stamped
80000. -/
theorem c29_decoded_frame_witness :
    InastitchCpp.stateAt (InastitchCpp.demoExternals 1 1 1) (demoOptions 50 10) 1
        (InastitchCpp.initialState (InastitchCpp.demoExternals 1 1 1) 4 (fun _ => 0))
      = some InastitchCpp.demoTick0.next ∧
    MainCpp.stateAt (MainCpp.demoExternals 1 1 1) (demoOptions 50 10) 1
        (MainCpp.initialState (MainCpp.demoExternals 1 1 1) 4 (fun _ => 0))
      = some MainCpp.demoTick0.next ∧
    InastitchCpp.demoStart.ctx0.absTime = 40000 ∧
    InastitchCpp.demoTick0.frameAbsTime = 40000 ∧
    InastitchCpp.demoTick0.next.ctx0.timeDelay < (demoOptions 50 10).maxDelay ∧
    InastitchCpp.demoTick0.next.ctx0.absTime = 80000 ∧
    InastitchCpp.demoTick0.next.ctx0.decodeCalls = 1 ∧
    MainCpp.demoStart.ctx0.absTime = 40000 ∧
    MainCpp.demoTick0.frameAbsTime = 40000 ∧
    MainCpp.demoTick0.next.ctx0.timeDelay < (demoOptions 50 10).maxDelay ∧
    MainCpp.demoTick0.next.ctx0.absTime = 80000 ∧
    MainCpp.demoTick0.next.ctx0.decodeCalls = 1 ∧
    (1 ≤ InastitchCpp.demoTick0.next.ctx0.parserCalls ∧
      1 ≤ MainCpp.demoTick0.next.ctx0.parserCalls) :=
  have h := c29_decoded_frame_is_fetched_in_tick (InastitchCpp.demoExternals 1 1 1)
    (MainCpp.demoExternals 1 1 1) (demoOptions 50 10) InastitchCpp.demoStart MainCpp.demoStart
    4 (fun _ => 0) 1 InastitchCpp.demoTick0.next MainCpp.demoTick0.next rfl rfl
  ⟨rfl, rfl, by decide, by decide, by decide, by decide, by decide, by decide, by decide,
    by decide, by decide, by decide, h.2.2.1.2.2.1, h.2.2.2.2.2.1⟩

/-! ## Sources that deliver their frames in time order -/

/-- Along a run whose states keep an invariant under which the reference
time does not decrease from a tick to the next, the reference time of a
tick is at most that of any later tick. -/
theorem nthTick_ref_mono {Ctx : Type} (cond : LoopState Ctx → Bool)
    (body : LoopState Ctx → Tick Ctx) (P : LoopState Ctx → Prop)
    (hP : ∀ x, P x → P (body x).next)
    (hS : ∀ x, P x → (body x).frameAbsTime ≤ (body (body x).next).frameAbsTime)
    (s : LoopState Ctx) (hs : P s) (t : Nat) (kt : Tick Ctx)
    (ht : nthTick cond body t s = some kt) :
    ∀ (d : Nat) (kd : Tick Ctx), nthTick cond body (t + d) s = some kd →
      kt.frameAbsTime ≤ kd.frameAbsTime := by
  intro d
  induction d with
  | zero =>
    intro kd hd
    have e : kt = kd := Option.some.inj (ht.symm.trans hd)
    rw [e]
  | succ m ih =>
    intro kd hd
    obtain ⟨x', hx', -, kx'⟩ := (nthTick_iff cond body (t + (m + 1)) s kd).mp hd
    obtain ⟨x, hx, hk, -, -, xx⟩ := (nthState_succ_iff cond body (t + m) s x').mp hx'
    have px : P x := nthState_invariant cond body P (fun z hz _ => hP z hz) (t + m) s x hx hs
    have a := ih (body x) hk
    have b := hS x px
    rw [kx', xx]
    omega

/-- The step from a tick to the next: the difference of the reference
times is the stored delta, without wrap. -/
theorem nthTick_diff_exact {Ctx : Type} (cond : LoopState Ctx → Bool)
    (body : LoopState Ctx → Tick Ctx) (hT : TracksTime body) (s : LoopState Ctx) (t : Nat)
    (ka kb : Tick Ctx) (ha : nthTick cond body t s = some ka)
    (hb : nthTick cond body (t + 1) s = some kb) (eb : kb.exited = false)
    (le : ka.frameAbsTime ≤ kb.frameAbsTime) (lt : kb.frameAbsTime < U64) :
    kb.frameDiffTime = kb.frameAbsTime - ka.frameAbsTime ∧
    ka.frameAbsTime + kb.frameDiffTime = kb.frameAbsTime := by
  obtain ⟨x', hx', -, kx'⟩ := (nthTick_iff cond body (t + 1) s kb).mp hb
  obtain ⟨x, -, hk, -, ex, xx⟩ := (nthState_succ_iff cond body t s x').mp hx'
  have e : ka = body x := Option.some.inj (ha.symm.trans hk)
  subst e
  subst kx'
  subst xx
  obtain ⟨-, -, l, i⟩ := hT x ex
  obtain ⟨d, -, -, -⟩ := hT _ eb
  rw [i, l] at d
  simp only [Bool.false_eq_true, if_false] at d
  rw [d, sub64_of_le le lt]
  omega

/-- Once a tick is marked, every later completed tick is marked, as long
as the frame counter has not wrapped. -/
theorem nthTick_marked_mono {Ctx : Type} (cond : LoopState Ctx → Bool)
    (body : LoopState Ctx → Tick Ctx) (o : Options) (hC : CountsFrames body)
    (hM : MarksByOffsets o body) (s : LoopState Ctx) (h0 : s.frameCount = 0)
    (h1 : s.frameDumpCount = 0) (t d : Nat) (kt kd : Tick Ctx)
    (ht : nthTick cond body t s = some kt) (hd : nthTick cond body (t + d) s = some kd)
    (lt : t + d < U64) (ed : kd.exited = false) (le : kt.frameAbsTime ≤ kd.frameAbsTime)
    (m : kt.isFrameDumped = true) : kd.isFrameDumped = true := by
  obtain ⟨x, hx, -, kx⟩ := (nthTick_iff cond body t s kt).mp ht
  obtain ⟨y, hy, -, ky⟩ := (nthTick_iff cond body (t + d) s kd).mp hd
  have cx := (nthState_counter_steps cond body hC t s x hx h0 h1 (by omega)).1
  have cy := (nthState_counter_steps cond body hC (t + d) s y hy h0 h1 lt).1
  subst kx
  subst ky
  have et : (body x).exited = false := by
    cases e : (body x).exited with
    | false => rfl
    | true =>
      have := ((hC x).1 e).2.2
      rw [this] at m
      exact absurd m (by simp)
  have mx := hM x et
  have my := hM y ed
  rw [mx] at m
  rw [my]
  simp only [Bool.and_eq_true, decide_eq_true_eq] at m ⊢
  omega


namespace InastitchCpp

theorem advance_inOrder (p : Nat → Nat → StreamFrame) (m : Nat) (c : GenericInputStreamContext)
    (hd : DeliversInOrder p) (h : InOrder p c) :
    InOrder p (advance p m c).1 ∧ c.absTime ≤ (advance p m c).1.absTime := by
  unfold advance getFrame
  split
  · exact ⟨⟨hd.2 _, fun k hk => hd.1 _ k (by
      have : c.parserCalls + 1 ≤ k := hk
      omega)⟩, h.2 _ (Nat.le_refl _)⟩
  · exact ⟨h, Nat.le_refl _⟩

theorem decodeTask_absTime (w : Externals) (o : Options) (b : Bool) (i : Nat) (x : String)
    (c : GenericInputStreamContext) (f : List FileWrite) :
    (decodeTask w o b i x c f).1.absTime = c.absTime := by
  unfold decodeTask decodeJpeg decodeWhite
  split <;> rfl

theorem decodeTask_inOrder (w : Externals) (o : Options) (b : Bool) (i : Nat) (x : String)
    (p : Nat → Nat → StreamFrame) (c : GenericInputStreamContext) (f : List FileWrite)
    (h : InOrder p c) : InOrder p (decodeTask w o b i x c f).1 := by
  unfold InOrder
  rw [decodeTask_absTime, decodeTask_parserCalls]
  exact h

theorem tick_sourcesInOrder (w : Externals) (o : Options)
    (x : LoopState GenericInputStreamContext)
    (hd : DeliversInOrder w.parser0 ∧ DeliversInOrder w.parser1 ∧ DeliversInOrder w.parser2)
    (h : SourcesInOrder w x) :
    SourcesInOrder w (tick w o x).next ∧
    (x.ctx0.absTime ≤ (tick w o x).next.ctx0.absTime ∧
      x.ctx1.absTime ≤ (tick w o x).next.ctx1.absTime ∧
      x.ctx2.absTime ≤ (tick w o x).next.ctx2.absTime) := by
  have a0 : InOrder w.parser0 (tickSync w o x).ctx0 ∧
      x.ctx0.absTime ≤ (tickSync w o x).ctx0.absTime :=
    advance_inOrder w.parser0 o.maxDelay _ hd.1 h.1
  have a1 : InOrder w.parser1 (tickSync w o x).ctx1 ∧
      x.ctx1.absTime ≤ (tickSync w o x).ctx1.absTime :=
    advance_inOrder w.parser1 o.maxDelay _ hd.2.1 h.2.1
  have a2 : InOrder w.parser2 (tickSync w o x).ctx2 ∧
      x.ctx2.absTime ≤ (tickSync w o x).ctx2.absTime :=
    advance_inOrder w.parser2 o.maxDelay _ hd.2.2 h.2.2
  rw [tick_eq]
  refine ⟨⟨decodeTask_inOrder w o _ _ _ _ _ _ a0.1, decodeTask_inOrder w o _ _ _ _ _ _ a1.1,
    decodeTask_inOrder w o _ _ _ _ _ _ a2.1⟩, ?_, ?_, ?_⟩
  · exact a0.2.trans (Nat.le_of_eq (decodeTask_absTime w o _ _ _ _ _).symm)
  · exact a1.2.trans (Nat.le_of_eq (decodeTask_absTime w o _ _ _ _ _).symm)
  · exact a2.2.trans (Nat.le_of_eq (decodeTask_absTime w o _ _ _ _ _).symm)

theorem initialState_sourcesInOrder (w : Externals) (n : Nat) (rgba : Nat → Nat)
    (hd : DeliversInOrder w.parser0 ∧ DeliversInOrder w.parser1 ∧ DeliversInOrder w.parser2) :
    SourcesInOrder w (initialState w n rgba) :=
  ⟨⟨hd.1.2 0, fun k _ => hd.1.1 0 k (Nat.zero_le k)⟩,
    ⟨hd.2.1.2 0, fun k _ => hd.2.1.1 0 k (Nat.zero_le k)⟩,
    ⟨hd.2.2.2 0, fun k _ => hd.2.2.1 0 k (Nat.zero_le k)⟩⟩

theorem tick_ref_step (w : Externals) (o : Options) (x : LoopState GenericInputStreamContext)
    (hd : DeliversInOrder w.parser0 ∧ DeliversInOrder w.parser1 ∧ DeliversInOrder w.parser2)
    (h : SourcesInOrder w x) :
    (tick w o x).frameAbsTime ≤ (tick w o (tick w o x).next).frameAbsTime ∧
    (tick w o x).frameAbsTime < U64 := by
  obtain ⟨-, a0, a1, a2⟩ := tick_sourcesInOrder w o x hd h
  have b := h.1.1
  rw [tick_frameAbsTime, tick_frameAbsTime]
  omega

end InastitchCpp

namespace MainCpp

theorem parseFrame_inOrder (p : Nat → List Nat → List Nat × Nat) (q : Nat → PtsRead)
    (c : FileContext) (hd : DeliversInOrder q) (h : InOrder q c) :
    InOrder q (parseFrame p q c).1 ∧ c.absTime ≤ (parseFrame p q c).1.absTime := by
  have ea : (parseFrame p q c).1.absTime = ((q c.parserCalls).absTime).getD c.absTime := rfl
  have ep : (parseFrame p q c).1.parserCalls = c.parserCalls + 1 := rfl
  unfold InOrder
  rw [ea, ep]
  cases e : (q c.parserCalls).absTime with
  | none =>
    exact ⟨⟨h.1, fun k v hk hv => h.2 k v (by omega) hv⟩, Nat.le_refl _⟩
  | some u =>
    exact ⟨⟨hd.2 _ u e, fun k v hk hv => hd.1 _ k u v (by omega) e hv⟩,
      h.2 _ u (Nat.le_refl _) e⟩

theorem file_advance_inOrder (p : Nat → List Nat → List Nat × Nat) (q : Nat → PtsRead) (m : Nat)
    (c : FileContext) (hd : DeliversInOrder q) (h : InOrder q c) :
    InOrder q (advance p q m c).1 ∧ c.absTime ≤ (advance p q m c).1.absTime := by
  unfold advance
  split
  · exact parseFrame_inOrder p q c hd h
  · exact ⟨h, Nat.le_refl _⟩

theorem decodeStep_absTime (w : Externals) (o : Options) (b : Bool) (i : Nat) (x : String)
    (c : FileContext) (f : List FileWrite) :
    (decodeStep w o b i x c f).1.absTime = c.absTime := by
  unfold decodeStep decodeJpeg decodeWhite
  split <;> rfl

theorem decodeStep_inOrder (w : Externals) (o : Options) (b : Bool) (i : Nat) (x : String)
    (q : Nat → PtsRead) (c : FileContext) (f : List FileWrite)
    (h : InOrder q c) : InOrder q (decodeStep w o b i x c f).1 := by
  unfold InOrder
  rw [decodeStep_absTime, decodeStep_parserCalls]
  exact h

theorem file_tick_sourcesInOrder (w : Externals) (o : Options) (x : LoopState FileContext)
    (hd : DeliversInOrder w.pts0 ∧ DeliversInOrder w.pts1 ∧ DeliversInOrder w.pts2)
    (h : SourcesInOrder w x) :
    SourcesInOrder w (tick w o x).next ∧
    (x.ctx0.absTime ≤ (tick w o x).next.ctx0.absTime ∧
      x.ctx1.absTime ≤ (tick w o x).next.ctx1.absTime ∧
      x.ctx2.absTime ≤ (tick w o x).next.ctx2.absTime) := by
  have a0 : InOrder w.pts0 (tickSync w o x).ctx0 ∧
      x.ctx0.absTime ≤ (tickSync w o x).ctx0.absTime :=
    file_advance_inOrder w.parser0 w.pts0 o.maxDelay _ hd.1 h.1
  have a1 : InOrder w.pts1 (tickSync w o x).ctx1 ∧
      x.ctx1.absTime ≤ (tickSync w o x).ctx1.absTime :=
    file_advance_inOrder w.parser1 w.pts1 o.maxDelay _ hd.2.1 h.2.1
  have a2 : InOrder w.pts2 (tickSync w o x).ctx2 ∧
      x.ctx2.absTime ≤ (tickSync w o x).ctx2.absTime :=
    file_advance_inOrder w.parser2 w.pts2 o.maxDelay _ hd.2.2 h.2.2
  by_cases e : ((tickSync w o x).eofContext0 && (tickSync w o x).eofContext1 &&
      (tickSync w o x).eofContext2) = true
  · rw [tick_of_eof w o x e]
    exact ⟨⟨a0.1, a1.1, a2.1⟩, a0.2, a1.2, a2.2⟩
  · rw [tick_of_not_eof w o x e]
    refine ⟨⟨decodeStep_inOrder w o _ _ _ _ _ _ a0.1, decodeStep_inOrder w o _ _ _ _ _ _ a1.1,
      decodeStep_inOrder w o _ _ _ _ _ _ a2.1⟩, ?_, ?_, ?_⟩
    · exact a0.2.trans (Nat.le_of_eq (decodeStep_absTime w o _ _ _ _ _).symm)
    · exact a1.2.trans (Nat.le_of_eq (decodeStep_absTime w o _ _ _ _ _).symm)
    · exact a2.2.trans (Nat.le_of_eq (decodeStep_absTime w o _ _ _ _ _).symm)

theorem file_initialState_sourcesInOrder (w : Externals) (n : Nat) (rgba : Nat → Nat)
    (hd : DeliversInOrder w.pts0 ∧ DeliversInOrder w.pts1 ∧ DeliversInOrder w.pts2) :
    SourcesInOrder w (initialState w n rgba) := by
  have z : InOrder w.pts0 (newContext n rgba) ∧ InOrder w.pts1 (newContext n rgba) ∧
      InOrder w.pts2 (newContext n rgba) := by
    have u : (0 : Nat) < U64 := by
      unfold U64
      omega
    exact ⟨⟨u, fun k v _ _ => Nat.zero_le v⟩, ⟨u, fun k v _ _ => Nat.zero_le v⟩,
      ⟨u, fun k v _ _ => Nat.zero_le v⟩⟩
  exact ⟨(parseFrame_inOrder w.parser0 w.pts0 _ hd.1 z.1).1,
    (parseFrame_inOrder w.parser1 w.pts1 _ hd.2.1 z.2.1).1,
    (parseFrame_inOrder w.parser2 w.pts2 _ hd.2.2 z.2.2).1⟩

theorem file_tick_ref_step (w : Externals) (o : Options) (x : LoopState FileContext)
    (hd : DeliversInOrder w.pts0 ∧ DeliversInOrder w.pts1 ∧ DeliversInOrder w.pts2)
    (h : SourcesInOrder w x) :
    (tick w o x).frameAbsTime ≤ (tick w o (tick w o x).next).frameAbsTime ∧
    (tick w o x).frameAbsTime < U64 := by
  obtain ⟨-, a0, a1, a2⟩ := file_tick_sourcesInOrder w o x hd h
  have b := h.1.1
  rw [file_tick_frameAbsTime, file_tick_frameAbsTime]
  omega

end MainCpp


/-- C27: let every source deliver 64-bit timestamps that do not decrease
from one advance to the next (for `main.cpp`: from one read of the PTS file
that stores a value to a later one). Then in a run of either driver from
the state in which the loop is entered, for ticks `t`, `t + 1` and
`t + d`: the reference time of tick `t` is at most that of tick `t + d`;
`frameDiffTime` of tick `t + 1` is the exact difference of the two
reference times (the 64-bit subtraction does not wrap); and if tick `t` is
marked for dump, so is tick `t + d`, the frame counter not having wrapped
(`t + d < 2 ^ 64`). In `main.cpp` the ticks `t + 1` and `t + d` are ticks
not left by `break`. -/
theorem c27_ordered_sources (wi : InastitchCpp.Externals) (wm : MainCpp.Externals)
    (o : Options) (n : Nat) (rgba : Nat → Nat) (t d : Nat)
    (ia ib ic : Tick InastitchCpp.GenericInputStreamContext)
    (ma mb mc : Tick MainCpp.FileContext)
    (oi : InastitchCpp.DeliversInOrder wi.parser0 ∧ InastitchCpp.DeliversInOrder wi.parser1 ∧
      InastitchCpp.DeliversInOrder wi.parser2)
    (om : MainCpp.DeliversInOrder wm.pts0 ∧ MainCpp.DeliversInOrder wm.pts1 ∧
      MainCpp.DeliversInOrder wm.pts2)
    (hia : InastitchCpp.tickAt wi o t (InastitchCpp.initialState wi n rgba) = some ia)
    (hib : InastitchCpp.tickAt wi o (t + 1) (InastitchCpp.initialState wi n rgba) = some ib)
    (hic : InastitchCpp.tickAt wi o (t + d) (InastitchCpp.initialState wi n rgba) = some ic)
    (hma : MainCpp.tickAt wm o t (MainCpp.initialState wm n rgba) = some ma)
    (hmb : MainCpp.tickAt wm o (t + 1) (MainCpp.initialState wm n rgba) = some mb)
    (hmc : MainCpp.tickAt wm o (t + d) (MainCpp.initialState wm n rgba) = some mc)
    (emb : mb.exited = false) (emc : mc.exited = false) (lt : t + d < U64) :
    (ia.frameAbsTime ≤ ic.frameAbsTime ∧
      ia.frameAbsTime ≤ ib.frameAbsTime ∧
      ib.frameDiffTime = ib.frameAbsTime - ia.frameAbsTime ∧
      ia.frameAbsTime + ib.frameDiffTime = ib.frameAbsTime ∧
      (ia.isFrameDumped = true → ic.isFrameDumped = true)) ∧
    (ma.frameAbsTime ≤ mc.frameAbsTime ∧
      ma.frameAbsTime ≤ mb.frameAbsTime ∧
      mb.frameDiffTime = mb.frameAbsTime - ma.frameAbsTime ∧
      ma.frameAbsTime + mb.frameDiffTime = mb.frameAbsTime ∧
      (ma.isFrameDumped = true → mc.isFrameDumped = true)) := by
  have pi := InastitchCpp.initialState_sourcesInOrder wi n rgba oi
  have pm := MainCpp.file_initialState_sourcesInOrder wm n rgba om
  have mi := nthTick_ref_mono _ _ (InastitchCpp.SourcesInOrder wi)
    (fun x hx => (InastitchCpp.tick_sourcesInOrder wi o x oi hx).1)
    (fun x hx => (InastitchCpp.tick_ref_step wi o x oi hx).1) _ pi t ia hia
  have mm := nthTick_ref_mono _ _ (MainCpp.SourcesInOrder wm)
    (fun x hx => (MainCpp.file_tick_sourcesInOrder wm o x om hx).1)
    (fun x hx => (MainCpp.file_tick_ref_step wm o x om hx).1) _ pm t ma hma
  have bi : ib.frameAbsTime < U64 := by
    obtain ⟨x, hx, -, kx⟩ := (nthTick_iff _ _ (t + 1) _ ib).mp hib
    rw [kx]
    exact (InastitchCpp.tick_ref_step wi o x oi
      (nthState_invariant _ _ (InastitchCpp.SourcesInOrder wi)
        (fun z hz _ => (InastitchCpp.tick_sourcesInOrder wi o z oi hz).1) (t + 1) _ x hx pi)).2
  have bm : mb.frameAbsTime < U64 := by
    obtain ⟨x, hx, -, kx⟩ := (nthTick_iff _ _ (t + 1) _ mb).mp hmb
    rw [kx]
    exact (MainCpp.file_tick_ref_step wm o x om
      (nthState_invariant _ _ (MainCpp.SourcesInOrder wm)
        (fun z hz _ => (MainCpp.file_tick_sourcesInOrder wm o z om hz).1) (t + 1) _ x hx pm)).2
  have eib : ib.exited = false := by
    obtain ⟨x, -, -, kx⟩ := (nthTick_iff _ _ (t + 1) _ ib).mp hib
    rw [kx]
    exact (InastitchCpp.tick_never_exits wi o x).1
  have eic : ic.exited = false := by
    obtain ⟨x, -, -, kx⟩ := (nthTick_iff _ _ (t + d) _ ic).mp hic
    rw [kx]
    exact (InastitchCpp.tick_never_exits wi o x).1
  have di := nthTick_diff_exact _ _ (tick_tracksTime wi o) _ t ia ib hia hib eib (mi 1 ib hib) bi
  have dm := nthTick_diff_exact _ _ (file_tick_tracksTime wm o) _ t ma mb hma hmb emb
    (mm 1 mb hmb) bm
  exact ⟨⟨mi d ic hic, mi 1 ib hib, di.1, di.2,
      nthTick_marked_mono _ _ o (InastitchCpp.tick_countsFrames wi o)
        (InastitchCpp.tick_marksByOffsets wi o) _ rfl rfl t d ia ic hia hic lt eic (mi d ic hic)⟩,
    ⟨mm d mc hmc, mm 1 mb hmb, dm.1, dm.2,
      nthTick_marked_mono _ _ o (MainCpp.file_tick_countsFrames wm o)
        (MainCpp.file_tick_marksByOffsets wm o) _ rfl rfl t d ma mc hma hmc lt emc
        (mm d mc hmc)⟩⟩

theorem orderedExternals_inOrder :
    InastitchCpp.DeliversInOrder InastitchCpp.orderedExternals.parser0 ∧
    InastitchCpp.DeliversInOrder InastitchCpp.orderedExternals.parser1 ∧
    InastitchCpp.DeliversInOrder InastitchCpp.orderedExternals.parser2 := by
  have g : ∀ j k : Nat, j ≤ k → min (40000 * (j + 1)) (U64 - 1) ≤ min (40000 * (k + 1)) (U64 - 1) := by
    intro j k h
    omega
  have b : ∀ k : Nat, min (40000 * (k + 1)) (U64 - 1) < U64 := by
    intro k
    unfold U64
    omega
  exact ⟨⟨fun j k h => g j k h, fun k => b k⟩, ⟨fun j k h => g j k h, fun k => b k⟩,
    ⟨fun j k h => g j k h, fun k => b k⟩⟩

theorem file_orderedExternals_inOrder :
    MainCpp.DeliversInOrder MainCpp.orderedExternals.pts0 ∧
    MainCpp.DeliversInOrder MainCpp.orderedExternals.pts1 ∧
    MainCpp.DeliversInOrder MainCpp.orderedExternals.pts2 := by
  have g : ∀ j k u v : Nat, j ≤ k → some (min (40000 * (j + 1)) (U64 - 1)) = some u →
      some (min (40000 * (k + 1)) (U64 - 1)) = some v → u ≤ v := by
    intro j k u v h hu hv
    have a := Option.some.inj hu
    have b := Option.some.inj hv
    omega
  have b : ∀ k v : Nat, some (min (40000 * (k + 1)) (U64 - 1)) = some v → v < U64 := by
    intro k v hv
    have a := Option.some.inj hv
    unfold U64 at *
    omega
  exact ⟨⟨fun j k u v h => g j k u v h, fun k v => b k v⟩,
    ⟨fun j k u v h => g j k u v h, fun k v => b k v⟩,
    ⟨fun j k u v h => g j k u v h, fun k v => b k v⟩⟩

/-- C27 on the run of both drivers whose sources deliver frames stamped
40000 microseconds apart, with dump offset 1: the reference times of ticks
1 and 2 are 80000 and 120000, `frameDiffTime` of tick 2 is 40000, and ticks
1 and 2 are marked while tick 0 is not. -/
theorem c27_ordered_sources_witness :
    (InastitchCpp.orderedTick 1).frameAbsTime = 80000 ∧
    (InastitchCpp.orderedTick 2).frameAbsTime = 120000 ∧
    (InastitchCpp.orderedTick 2).frameDiffTime = 40000 ∧
    (InastitchCpp.orderedTick 0).isFrameDumped = false ∧
    (InastitchCpp.orderedTick 1).isFrameDumped = true ∧
    (MainCpp.orderedTick 1).frameAbsTime = 80000 ∧
    (MainCpp.orderedTick 2).frameAbsTime = 120000 ∧
    (MainCpp.orderedTick 2).frameDiffTime = 40000 ∧
    (MainCpp.orderedTick 2).exited = false ∧
    (MainCpp.orderedTick 1).isFrameDumped = true ∧
    ((InastitchCpp.orderedTick 1).frameAbsTime + (InastitchCpp.orderedTick 2).frameDiffTime
        = (InastitchCpp.orderedTick 2).frameAbsTime ∧
      (InastitchCpp.orderedTick 2).isFrameDumped = true) ∧
    ((MainCpp.orderedTick 1).frameAbsTime + (MainCpp.orderedTick 2).frameDiffTime
        = (MainCpp.orderedTick 2).frameAbsTime ∧
      (MainCpp.orderedTick 2).isFrameDumped = true) :=
  have h := c27_ordered_sources InastitchCpp.orderedExternals MainCpp.orderedExternals
    (dumpOptions 1 0 false) 4 (fun _ => 0) 1 1
    (InastitchCpp.orderedTick 1) (InastitchCpp.orderedTick 2) (InastitchCpp.orderedTick 2)
    (MainCpp.orderedTick 1) (MainCpp.orderedTick 2) (MainCpp.orderedTick 2)
    orderedExternals_inOrder file_orderedExternals_inOrder rfl rfl rfl rfl rfl rfl
    (by decide) (by decide) (by decide)
  ⟨by decide, by decide, by decide, by decide, by decide, by decide, by decide, by decide,
    by decide, by decide, ⟨h.1.2.2.2.1, h.1.2.2.2.2 (by decide)⟩,
    ⟨h.2.2.2.2.1, h.2.2.2.2.2 (by decide)⟩⟩

/-! ## The order of the calls of a decode task -/

namespace InastitchCpp

theorem decodeTask_ctx_eq (w : Externals) (o : Options) (b : Bool) (i : Nat) (x : String)
    (c : GenericInputStreamContext) (f : List FileWrite) :
    (decodeTask w o b i x c f).1 = (decodeTask w o b i x c []).1 := by
  unfold decodeTask
  split <;> rfl

/-- The two orders of the dump call and `decodeJpeg`: dump first writes the
bytes the context holds before the decoder runs, dump last writes the bytes
the decoder left; the results agree exactly when the decoder leaves the
first `jpegBufferSize` bytes as they were. -/
theorem dump_decode_order (w : Externals) (c : GenericInputStreamContext) (name : String)
    (files : List FileWrite) :
    runCalls w [StageCall.dumpJpegAndPtsAndTxt name, StageCall.decodeJpeg] c files
      = (decodeJpeg w c, dumpJpegAndPtsAndTxt c name files) ∧
    runCalls w [StageCall.decodeJpeg, StageCall.dumpJpegAndPtsAndTxt name] c files
      = (decodeJpeg w c, dumpJpegAndPtsAndTxt (decodeJpeg w c) name files) ∧
    (runCalls w [StageCall.decodeJpeg, StageCall.dumpJpegAndPtsAndTxt name] c files
        = runCalls w [StageCall.dumpJpegAndPtsAndTxt name, StageCall.decodeJpeg] c files ↔
      (w.decode c.jpegBuffer c.jpegBufferSize c.decoderRgba).jpeg.take c.jpegBufferSize
        = c.jpegBuffer.take c.jpegBufferSize) := by
  refine ⟨rfl, rfl, ?_⟩
  simp [runCalls, runCall, dumpJpegAndPtsAndTxt, decodeJpeg]

theorem decodeTask_dumpBeforeDecode (w : Externals) (o : Options) (b : Bool) (i : Nat)
    (k x : String) (hx : "in" ++ k ++ ".jpg" = x) (c : GenericInputStreamContext) :
    DumpBeforeDecode w o b i k x c (decodeTask w o b i x c []).1 := by
  refine ⟨fun g m => ?_, fun g m => ?_, fun g => ?_, fun g => ?_⟩
  · have e : (decodeTask w o b i x c []).1 = decodeJpeg w c := decodeTask_fresh w o b i x c [] g.2 g.1
    rw [e]
    refine ⟨fun files => rfl, ?_, ⟨rfl, rfl, rfl⟩⟩
    unfold expectedInputDump
    rw [if_pos ⟨m.1, m.2, g.1, g.2⟩, inputDumpFiles_eq o.frameDumpPath i k x hx]
  · have e : (decodeTask w o b i x c []).1 = decodeJpeg w c := decodeTask_fresh w o b i x c [] g.2 g.1
    rw [e]
    refine ⟨fun files => rfl, ?_, ⟨rfl, rfl, rfl⟩⟩
    unfold expectedInputDump
    rw [if_neg (fun z => m ⟨z.1, z.2.1⟩)]
  · have e : (decodeTask w o b i x c []).1 = decodeWhite c := by
      unfold decodeTask
      rw [if_neg (fun z => g ⟨z.1, z.2⟩)]
    rw [e]
    refine ⟨fun files => rfl, ?_, decodeWhite_whiteFilled c⟩
    unfold expectedInputDump
    rw [if_neg (fun z => g ⟨z.2.2.1, z.2.2.2⟩)]
  · rw [decodeTask_stale w o b i x c [] g]
    refine ⟨?_, rfl⟩
    unfold expectedInputDump
    rw [if_neg (fun z => by omega)]

theorem tick_dumpBeforeDecode (w : Externals) (o : Options)
    (s : LoopState GenericInputStreamContext) :
    DumpBeforeDecode w o (tick w o s).isFrameDumped (tick w o s).frameDumpIdx "0" "in0.jpg"
      (tickSync w o s).ctx0 (tick w o s).next.ctx0 ∧
    DumpBeforeDecode w o (tick w o s).isFrameDumped (tick w o s).frameDumpIdx "1" "in1.jpg"
      (tickSync w o s).ctx1 (tick w o s).next.ctx1 ∧
    DumpBeforeDecode w o (tick w o s).isFrameDumped (tick w o s).frameDumpIdx "2" "in2.jpg"
      (tickSync w o s).ctx2 (tick w o s).next.ctx2 := by
  have c0 : (tick w o s).next.ctx0 = (decodeTask w o (tick w o s).isFrameDumped
      (tick w o s).frameDumpIdx "in0.jpg" (tickSync w o s).ctx0 []).1 := by
    rw [tick_eq]
    exact decodeTask_ctx_eq w o _ _ _ _ _
  have c1 : (tick w o s).next.ctx1 = (decodeTask w o (tick w o s).isFrameDumped
      (tick w o s).frameDumpIdx "in1.jpg" (tickSync w o s).ctx1 []).1 := by
    rw [tick_eq]
    exact decodeTask_ctx_eq w o _ _ _ _ _
  have c2 : (tick w o s).next.ctx2 = (decodeTask w o (tick w o s).isFrameDumped
      (tick w o s).frameDumpIdx "in2.jpg" (tickSync w o s).ctx2 []).1 := by
    rw [tick_eq]
    exact decodeTask_ctx_eq w o _ _ _ _ _
  rw [c0, c1, c2]
  exact ⟨decodeTask_dumpBeforeDecode w o _ _ "0" "in0.jpg" rfl _,
    decodeTask_dumpBeforeDecode w o _ _ "1" "in1.jpg" rfl _,
    decodeTask_dumpBeforeDecode w o _ _ "2" "in2.jpg" rfl _⟩

end InastitchCpp

namespace MainCpp

theorem decodeStep_ctx_eq (w : Externals) (o : Options) (b : Bool) (i : Nat) (x : String)
    (c : FileContext) (f : List FileWrite) :
    (decodeStep w o b i x c f).1 = (decodeStep w o b i x c []).1 := by
  unfold decodeStep
  split <;> rfl

/-- The two orders of the dump call and `decodeJpeg`: dump first writes the
bytes the decoder's JPEG buffer holds before the decoder runs, dump last
writes the bytes the decoder left; the results agree exactly when the
decoder leaves the first `jpegBufferSize` bytes as they were. -/
theorem file_dump_decode_order (w : Externals) (c : FileContext) (name : String)
    (files : List FileWrite) :
    runCalls w [StageCall.dumpJpegAndPtsAndTxt name, StageCall.decodeJpeg] c files
      = (decodeJpeg w c, dumpJpegAndPtsAndTxt c name files) ∧
    runCalls w [StageCall.decodeJpeg, StageCall.dumpJpegAndPtsAndTxt name] c files
      = (decodeJpeg w c, dumpJpegAndPtsAndTxt (decodeJpeg w c) name files) ∧
    (runCalls w [StageCall.decodeJpeg, StageCall.dumpJpegAndPtsAndTxt name] c files
        = runCalls w [StageCall.dumpJpegAndPtsAndTxt name, StageCall.decodeJpeg] c files ↔
      (w.decode c.decoderJpeg c.decoderRgba).jpeg.take c.jpegBufferSize
        = c.decoderJpeg.take c.jpegBufferSize) := by
  refine ⟨rfl, rfl, ?_⟩
  simp [runCalls, runCall, dumpJpegAndPtsAndTxt, decodeJpeg]

theorem decodeStep_dumpBeforeDecode (w : Externals) (o : Options) (b : Bool) (i : Nat)
    (k x : String) (hx : "in" ++ k ++ ".jpg" = x) (c : FileContext) :
    DumpBeforeDecode w o b i k x c (decodeStep w o b i x c []).1 := by
  refine ⟨fun g m => ?_, fun g m => ?_, fun g => ?_⟩
  · rw [decodeStep_fresh w o b i x c [] g]
    refine ⟨fun files => rfl, ?_, ⟨rfl, rfl, rfl⟩⟩
    unfold expectedInputDump
    rw [if_pos ⟨m.1, m.2, g⟩, inputDumpFiles_eq o.frameDumpPath i k x hx]
  · rw [decodeStep_fresh w o b i x c [] g]
    refine ⟨fun files => rfl, ?_, ⟨rfl, rfl, rfl⟩⟩
    unfold expectedInputDump
    rw [if_neg (fun z => m ⟨z.1, z.2.1⟩)]
  · rw [decodeStep_stale w o b i x c [] g]
    refine ⟨fun files => rfl, ?_, file_decodeWhite_whiteFilled c⟩
    unfold expectedInputDump
    rw [if_neg (fun z => by omega)]

theorem file_tick_dumpBeforeDecode (w : Externals) (o : Options) (s : LoopState FileContext)
    (h : (tick w o s).exited = false) :
    DumpBeforeDecode w o (tick w o s).isFrameDumped (tick w o s).frameDumpIdx "0" "in0.jpg"
      (tickSync w o s).ctx0 (tick w o s).next.ctx0 ∧
    DumpBeforeDecode w o (tick w o s).isFrameDumped (tick w o s).frameDumpIdx "1" "in1.jpg"
      (tickSync w o s).ctx1 (tick w o s).next.ctx1 ∧
    DumpBeforeDecode w o (tick w o s).isFrameDumped (tick w o s).frameDumpIdx "2" "in2.jpg"
      (tickSync w o s).ctx2 (tick w o s).next.ctx2 := by
  have c0 : (tick w o s).next.ctx0 = (decodeStep w o (tick w o s).isFrameDumped
      (tick w o s).frameDumpIdx "in0.jpg" (tickSync w o s).ctx0 []).1 := by
    rw [tick_rest_of_not_exited w o s h]
    exact decodeStep_ctx_eq w o _ _ _ _ _
  have c1 : (tick w o s).next.ctx1 = (decodeStep w o (tick w o s).isFrameDumped
      (tick w o s).frameDumpIdx "in1.jpg" (tickSync w o s).ctx1 []).1 := by
    rw [tick_rest_of_not_exited w o s h]
    exact decodeStep_ctx_eq w o _ _ _ _ _
  have c2 : (tick w o s).next.ctx2 = (decodeStep w o (tick w o s).isFrameDumped
      (tick w o s).frameDumpIdx "in2.jpg" (tickSync w o s).ctx2 []).1 := by
    rw [tick_rest_of_not_exited w o s h]
    exact decodeStep_ctx_eq w o _ _ _ _ _
  rw [c0, c1, c2]
  exact ⟨decodeStep_dumpBeforeDecode w o _ _ "0" "in0.jpg" rfl _,
    decodeStep_dumpBeforeDecode w o _ _ "1" "in1.jpg" rfl _,
    decodeStep_dumpBeforeDecode w o _ _ "2" "in2.jpg" rfl _⟩

end MainCpp


/-- C21: in every tick of both drivers and for every source, the decode
task acts on the context the synchronisation block left. For a source that
is decoded in a marked tick with a dump path, the task is the dump call
followed by `decodeJpeg`: the dump is written before the decoder runs, its
two files hold the first `jpegBufferSize` bytes of the payload and the
`absTime`, `relTime`, `offTime` of that context, and the decoder is called
on that same payload and size. A dump is written in no other case: a
decoded source otherwise makes the single call `decodeJpeg`, and a source
that is not decoded (a stale one among them) the single call `decodeWhite`,
without any file. The files of the tick are these dumps in source order. In
`main.cpp` this is the decode stage of a tick not left by `break`; a tick
left by `break` writes nothing. The order of the two calls matters: made in
the opposite order they give the same result exactly when the decoder
leaves the first `jpegBufferSize` bytes of the payload as they were. With a
decoder that overwrites the payload it is called on with a single 0, tick 0
of the demonstration run dumps the byte 7 that the decoder was called on,
whereas the opposite order would dump the 0 the decoder left. In scenario B
(sources stamped 100, 250, 100, lag ceiling 50) the stale source 1 gets no
dump file while source 0 does. -/
theorem c21_input_dump_before_decode (wi : InastitchCpp.Externals) (wm : MainCpp.Externals)
    (o : Options) (si : LoopState InastitchCpp.GenericInputStreamContext)
    (sm : LoopState MainCpp.FileContext) :
    (InastitchCpp.DumpBeforeDecode wi o (InastitchCpp.tick wi o si).isFrameDumped
        (InastitchCpp.tick wi o si).frameDumpIdx "0" "in0.jpg"
        (InastitchCpp.tickSync wi o si).ctx0 (InastitchCpp.tick wi o si).next.ctx0 ∧
      InastitchCpp.DumpBeforeDecode wi o (InastitchCpp.tick wi o si).isFrameDumped
        (InastitchCpp.tick wi o si).frameDumpIdx "1" "in1.jpg"
        (InastitchCpp.tickSync wi o si).ctx1 (InastitchCpp.tick wi o si).next.ctx1 ∧
      InastitchCpp.DumpBeforeDecode wi o (InastitchCpp.tick wi o si).isFrameDumped
        (InastitchCpp.tick wi o si).frameDumpIdx "2" "in2.jpg"
        (InastitchCpp.tickSync wi o si).ctx2 (InastitchCpp.tick wi o si).next.ctx2 ∧
      (InastitchCpp.tick wi o si).next.files = si.files ++ InastitchCpp.expectedWrites wi o si) ∧
    (((MainCpp.tick wm o sm).exited = false →
        MainCpp.DumpBeforeDecode wm o (MainCpp.tick wm o sm).isFrameDumped
          (MainCpp.tick wm o sm).frameDumpIdx "0" "in0.jpg"
          (MainCpp.tickSync wm o sm).ctx0 (MainCpp.tick wm o sm).next.ctx0 ∧
        MainCpp.DumpBeforeDecode wm o (MainCpp.tick wm o sm).isFrameDumped
          (MainCpp.tick wm o sm).frameDumpIdx "1" "in1.jpg"
          (MainCpp.tickSync wm o sm).ctx1 (MainCpp.tick wm o sm).next.ctx1 ∧
        MainCpp.DumpBeforeDecode wm o (MainCpp.tick wm o sm).isFrameDumped
          (MainCpp.tick wm o sm).frameDumpIdx "2" "in2.jpg"
          (MainCpp.tickSync wm o sm).ctx2 (MainCpp.tick wm o sm).next.ctx2) ∧
      ((MainCpp.tick wm o sm).exited = true → (MainCpp.tick wm o sm).next.files = sm.files) ∧
      (MainCpp.tick wm o sm).next.files
        = sm.files ++ (MainCpp.expectedWrites wm o sm ++ MainCpp.outputWrites wm o sm)) ∧
    ((∀ (c : InastitchCpp.GenericInputStreamContext) (name : String) (files : List FileWrite),
        InastitchCpp.runCalls wi [StageCall.decodeJpeg, StageCall.dumpJpegAndPtsAndTxt name]
            c files
          = InastitchCpp.runCalls wi [StageCall.dumpJpegAndPtsAndTxt name, StageCall.decodeJpeg]
            c files ↔
        (wi.decode c.jpegBuffer c.jpegBufferSize c.decoderRgba).jpeg.take c.jpegBufferSize
          = c.jpegBuffer.take c.jpegBufferSize) ∧
      (∀ (c : MainCpp.FileContext) (name : String) (files : List FileWrite),
        MainCpp.runCalls wm [StageCall.decodeJpeg, StageCall.dumpJpegAndPtsAndTxt name] c files
          = MainCpp.runCalls wm [StageCall.dumpJpegAndPtsAndTxt name, StageCall.decodeJpeg]
            c files ↔
        (wm.decode c.decoderJpeg c.decoderRgba).jpeg.take c.jpegBufferSize
          = c.decoderJpeg.take c.jpegBufferSize)) ∧
    ((InastitchCpp.overwriteSynced.jpegBuffer = [7] ∧
        InastitchCpp.overwriteTick0.next.ctx0.jpegBuffer = [0] ∧
        InastitchCpp.overwriteTick0.next.ctx0.decodeCalls = 1 ∧
        fileContent InastitchCpp.overwriteTick0.next.files "dump/0in0.jpg"
          = some (FileData.bytes [7]) ∧
        (InastitchCpp.runCalls InastitchCpp.overwritingExternals
            [StageCall.dumpJpegAndPtsAndTxt "dump/0in0.jpg", StageCall.decodeJpeg]
            InastitchCpp.overwriteSynced []).2
          = [ { name := "dump/0in0.jpg", data := FileData.bytes [7] },
              { name := "dump/0in0.jpg.pts", data := FileData.text "80000 0 0\n" } ] ∧
        (InastitchCpp.runCalls InastitchCpp.overwritingExternals
            [StageCall.decodeJpeg, StageCall.dumpJpegAndPtsAndTxt "dump/0in0.jpg"]
            InastitchCpp.overwriteSynced []).2
          = [ { name := "dump/0in0.jpg", data := FileData.bytes [0] },
              { name := "dump/0in0.jpg.pts", data := FileData.text "80000 0 0\n" } ]) ∧
      (MainCpp.overwriteSynced.decoderJpeg = [7] ∧
        MainCpp.overwriteTick0.exited = false ∧
        MainCpp.overwriteTick0.next.ctx0.decoderJpeg = [0] ∧
        MainCpp.overwriteTick0.next.ctx0.decodeCalls = 1 ∧
        fileContent MainCpp.overwriteTick0.next.files "dump/0in0.jpg"
          = some (FileData.bytes [7]) ∧
        (MainCpp.runCalls MainCpp.overwritingExternals
            [StageCall.dumpJpegAndPtsAndTxt "dump/0in0.jpg", StageCall.decodeJpeg]
            MainCpp.overwriteSynced []).2
          = [ { name := "dump/0in0.jpg", data := FileData.bytes [7] },
              { name := "dump/0in0.jpg.pts", data := FileData.text "80000 0 0\n" } ] ∧
        (MainCpp.runCalls MainCpp.overwritingExternals
            [StageCall.decodeJpeg, StageCall.dumpJpegAndPtsAndTxt "dump/0in0.jpg"]
            MainCpp.overwriteSynced []).2
          = [ { name := "dump/0in0.jpg", data := FileData.bytes [0] },
              { name := "dump/0in0.jpg.pts", data := FileData.text "80000 0 0\n" } ])) ∧
    ((InastitchCpp.staleDumpTick.isFrameDumped = true ∧
        ¬ InastitchCpp.staleDumpTick.next.ctx1.timeDelay < (dumpOptions 0 0 false).maxDelay ∧
        fileContent InastitchCpp.staleDumpTick.next.files "dump/0in1.jpg" = none ∧
        fileContent InastitchCpp.staleDumpTick.next.files "dump/0in1.jpg.pts" = none ∧
        InastitchCpp.staleDumpTick.next.ctx1.decodeCalls = 0 ∧
        fileContent InastitchCpp.staleDumpTick.next.files "dump/0in0.jpg"
          = some (FileData.bytes [7])) ∧
      (MainCpp.staleDumpTick.isFrameDumped = true ∧
        ¬ MainCpp.staleDumpTick.next.ctx1.timeDelay < (dumpOptions 0 0 false).maxDelay ∧
        fileContent MainCpp.staleDumpTick.next.files "dump/0in1.jpg" = none ∧
        fileContent MainCpp.staleDumpTick.next.files "dump/0in1.jpg.pts" = none ∧
        MainCpp.staleDumpTick.next.ctx1.decodeCalls = 0 ∧
        fileContent MainCpp.staleDumpTick.next.files "dump/0in0.jpg"
          = some (FileData.bytes [7]))) := by
  obtain ⟨a0, a1, a2⟩ := InastitchCpp.tick_dumpBeforeDecode wi o si
  refine ⟨⟨a0, a1, a2, InastitchCpp.tick_files wi o si⟩,
    ⟨MainCpp.file_tick_dumpBeforeDecode wm o sm, fun e => ?_, MainCpp.file_tick_files wm o sm⟩,
    ⟨fun c name files => (InastitchCpp.dump_decode_order wi c name files).2.2,
      fun c name files => (MainCpp.file_dump_decode_order wm c name files).2.2⟩,
    ⟨by decide, by decide⟩, ⟨by decide, by decide⟩⟩
  by_cases g : ((MainCpp.tickSync wm o sm).eofContext0 && (MainCpp.tickSync wm o sm).eofContext1
      && (MainCpp.tickSync wm o sm).eofContext2) = true
  · rw [MainCpp.tick_of_eof wm o sm g]
    rfl
  · rw [MainCpp.tick_of_not_eof wm o sm g] at e
    exact absurd e (by simp [MainCpp.tickRest])

end Stitch
